import Mathlib

/-!
# twWebsocket: a shallow embedding of the websocket client

The definitions follow `src/twWebsocket.c` and `src/twWebsocket.h`.  Pointers
into the two receive buffers are offsets, bytes are natural numbers below 256,
the transport (`twTlsClient`, not part of the two source files) is a scripted
byte stream, and the registered callbacks are recorded in a trace of calls.
-/

namespace TwWebsocket

/-- Bytes are held as natural numbers; every byte the model produces is below 256. -/
abbrev Byte := Nat

/-- Modelled from the spec: the error kinds of twErrors.h (section 7), which is
not among the source files.  The code relies on `TW_OK` being 0
(`if (res != 0)` in `twWs_SendMessage`); `literal n` stands for a bare integer
such as the `return -1` of the send functions. -/
inductive twError
  | TW_OK
  | TW_INVALID_PARAM
  | TW_ERROR_ALLOCATING_MEMORY
  | TW_ERROR_CREATING_MTX
  | TW_SOCKET_INIT_ERROR
  | TW_ERROR_WRITING_TO_SOCKET
  | TW_ERROR_INITIALIZING_WEBSOCKET
  | TW_TIMEOUT_INITIALIZING_WEBSOCKET
  | TW_ERROR_READING_FROM_WEBSOCKET
  | TW_ERROR_WRITING_TO_WEBSOCKET
  | TW_WEBSOCKET_NOT_CONNECTED
  | TW_WEBSOCKET_FRAME_TOO_LARGE
  | TW_WEBSOCKET_MSG_TOO_LARGE
  | TW_INVALID_WEBSOCKET_FRAME_TYPE
  | TW_INVALID_ACCEPT_KEY
  | TW_UNKNOWN_ERROR
  | literal (n : Int)
  deriving DecidableEq, Repr

open twError

/-- The values of `read_state`: `READ_HEADER` 0, `READ_CONTROL_FRAME` 1, `READ_TEXT_FRAME` 2,
`READ_BINARY_FRAME` 3. -/
inductive ReadState
  | READ_HEADER
  | READ_CONTROL_FRAME
  | READ_TEXT_FRAME
  | READ_BINARY_FRAME
  deriving DecidableEq, Repr

open ReadState

/-- Modelled from the spec: what the transport does on one `twTlsClient_Read` call
(section 2, read(buf, n, timeout)): fail, or hand over at most `k` bytes (0 is a
read timeout). -/
inductive ReadEvent
  | error
  | upTo (k : Nat)
  deriving DecidableEq, Repr

/-- Modelled from the spec: what the transport does on one `twTlsClient_Write` call
(section 2, write(buf, n, timeout)): fail, or accept at most `k` bytes. -/
inductive WriteEvent
  | error
  | upTo (k : Nat)
  deriving DecidableEq, Repr

/-- Modelled from the spec: the TLS byte transport (twTls.h, section 2
"Transport adapter": read(buf, n, timeout), write(buf, n, timeout), reconnect).
`inbound` holds the bytes the peer has sent and the client has not read yet.
`readScript` says what the next reads do; once it is used up a read returns
whatever is there, up to the requested count (nothing there: 0, a timeout).
`writeScript` does the same for writes; once it is used up a write accepts all.
`written` lists the accepted bytes of every write call, oldest first; `reconnects`
and `closes` count the reconnect and close calls. -/
structure twTlsClient where
  inbound : List Byte := []
  readScript : List ReadEvent := []
  written : List (List Byte) := []
  writeScript : List WriteEvent := []
  reconnects : Nat := 0
  reconnectResult : Int := 0
  closes : Nat := 0
  deriving DecidableEq, Repr

/-- Modelled from the spec: the call `twTlsClient_Read(conn, buf, n, timeout)` of twTls,
which is not among the source files: the return value (negative on error,
otherwise the count, never above `n`), the bytes stored at `buf`, and the
transport afterwards. -/
def twTlsClient_Read (c : twTlsClient) (n : Int) : Int × List Byte × twTlsClient :=
  match c.readScript with
  | [] =>
    let k := min n.toNat c.inbound.length
    ((k : Int), c.inbound.take k, { c with inbound := c.inbound.drop k })
  | ReadEvent.error :: rest => (-1, [], { c with readScript := rest })
  | ReadEvent.upTo m :: rest =>
    let k := min m (min n.toNat c.inbound.length)
    ((k : Int), c.inbound.take k, { c with inbound := c.inbound.drop k, readScript := rest })

/-- Modelled from the spec: the call `twTlsClient_Write(conn, buf, n, timeout)` of twTls,
with `data` the `n` bytes at `buf`: the return value (negative on error, otherwise
the count accepted) and the transport afterwards. -/
def twTlsClient_Write (c : twTlsClient) (data : List Byte) : Int × twTlsClient :=
  match c.writeScript with
  | [] => ((data.length : Int), { c with written := c.written ++ [data] })
  | WriteEvent.error :: rest => (-1, { c with writeScript := rest })
  | WriteEvent.upTo m :: rest =>
    let k := min m data.length
    ((k : Int), { c with written := c.written ++ [data.take k], writeScript := rest })

/-- Modelled from the spec: the call `twTlsClient_Reconnect(conn, host, port)` of twTls
(section 4.5): it is counted, and returns `reconnectResult`. -/
def twTlsClient_Reconnect (c : twTlsClient) : Int × twTlsClient :=
  (c.reconnectResult, { c with reconnects := c.reconnects + 1 })

/-- Modelled from the spec: the call `twTlsClient_Close(conn)` of twTls (section 4.4,
"closes the transport"): it is counted. -/
def twTlsClient_Close (c : twTlsClient) : twTlsClient :=
  { c with closes := c.closes + 1 }

/-- One invocation of a registered callback: which one, the bytes at `at` and
the `length` argument. -/
inductive Call
  | connected
  | close (data : List Byte) (length : Nat)
  | textMessage (data : List Byte) (length : Nat)
  | binaryMessage (data : List Byte) (length : Nat)
  | ping (data : List Byte) (length : Nat)
  | pong (data : List Byte) (length : Nat)
  deriving DecidableEq, Repr

/-- The `twWs` structure of twWebsocket.h.  `frameBufferPtr` and `headerPtr` are
offsets from `frameBuffer` and `ws_header`; a callback field says whether a
function is registered; `calls` is the trace of callback invocations; the strings
`host`, `api_key`, `security_key` and `resource` are the bytes before their NUL. -/
structure twWs where
  connection : twTlsClient := {}
  messageChunkSize : Nat := 0
  bytesNeeded : Int := 0
  read_state : ReadState := READ_HEADER
  frameSize : Nat := 0
  frameBuffer : List Byte := []
  frameBufferPtr : Nat := 0
  ws_header : List Byte := List.replicate 64 0
  headerPtr : Nat := 0
  host : List Byte := []
  api_key : List Byte := []
  security_key : List Byte := []
  resource : List Byte := []
  connect_state : Int := 0
  isConnected : Int := 0
  on_ws_connected : Bool := false
  on_ws_binaryMessage : Bool := false
  on_ws_textMessage : Bool := false
  on_ws_ping : Bool := false
  on_ws_pong : Bool := false
  on_ws_close : Bool := false
  calls : List Call := []
  deriving DecidableEq, Repr

/-- The constant `WS_HEADER_MAX_SIZE` (10). -/
def WS_HEADER_MAX_SIZE : Nat := 10

/-- The constant `WS_HEADER_MIN_SIZE` (2). -/
def WS_HEADER_MIN_SIZE : Nat := 2

/-- How a C function call ends: it returns a code, or it writes outside one of
the two receive buffers (undefined behaviour in C, `ws` is the state at that
point), or the model ran out of fuel. -/
inductive Outcome
  | ret (code : twError) (ws : twWs)
  | fault (ws : twWs)
  | outOfFuel
  deriving DecidableEq, Repr

/-- Storing `data` at offset `off` of a buffer. -/
def writeAt (buf : List Byte) (off : Nat) (data : List Byte) : List Byte :=
  buf.take off ++ data ++ buf.drop (off + data.length)

/-- The bytes of the literal "Socket Error". -/
def socketErrorMsg : List Byte := [83, 111, 99, 107, 101, 116, 32, 69, 114, 114, 111, 114]

/-- The function `restartSocket` (lines 97-106); the result of the reconnect is the return value. -/
def restartSocket (ws : twWs) : Int × twWs :=
  let ws := { ws with connect_state := 0, isConnected := 0 }
  let r := twTlsClient_Reconnect ws.connection
  (r.1, { ws with connection := r.2, frameBufferPtr := 0, headerPtr := 0 })

/-- The block repeated at every fatal receive error (e.g. lines 603-607):
`isConnected = FALSE`, the close callback with "Socket Error", `restartSocket`,
`return TW_ERROR_READING_FROM_WEBSOCKET`. -/
def socketError (ws : twWs) : Outcome :=
  let ws := { ws with isConnected := 0 }
  let ws := if ws.on_ws_close then
      { ws with calls := ws.calls ++ [Call.close socketErrorMsg socketErrorMsg.length] }
    else ws
  Outcome.ret TW_ERROR_READING_FROM_WEBSOCKET (restartSocket ws).2

/-- The call `memset(ws->ws_header,0,16)`. -/
def clearHeader (hdr : List Byte) : List Byte :=
  writeAt hdr 0 (List.replicate 16 0)

/-- The reset at the end of a frame (lines 722-726 and 775-779). -/
def resetForNextMessage (ws : twWs) : twWs :=
  { ws with ws_header := clearHeader ws.ws_header, read_state := READ_HEADER, headerPtr := 0,
            bytesNeeded := WS_HEADER_MIN_SIZE, frameBufferPtr := 0 }

/-- What one pass through the body of the `while (ws->read_state == READ_HEADER)`
loop does: go on to the loop test again, or leave `twWs_Receive`. -/
inductive LoopStep
  | next (ws : twWs) (savedState : ReadState)
  | done (o : Outcome)
  deriving DecidableEq, Repr

/-- The opcode switch and the zero-length check after a complete header
(lines 642-682). -/
def headerComplete (ws : twWs) (savedState : ReadState) : LoopStep :=
  let opcode := ws.ws_header.getD 0 0 &&& 0x0f
  let afterSwitch : Option (twWs × ReadState) :=
    if opcode = 0x00 then some (ws, savedState)
    else if opcode = 0x01 then some ({ ws with read_state := READ_TEXT_FRAME }, savedState)
    else if opcode = 0x02 then some ({ ws with read_state := READ_BINARY_FRAME }, savedState)
    else if opcode = 0x08 ∨ opcode = 0x09 ∨ opcode = 0x0a then
      some ({ ws with read_state := READ_CONTROL_FRAME }, ws.read_state)
    else none
  match afterSwitch with
  | none => LoopStep.done (socketError ws)
  | some (ws, savedState) =>
    if ws.bytesNeeded = 0 then
      LoopStep.done (Outcome.ret TW_OK
        { ws with read_state := READ_HEADER, bytesNeeded := WS_HEADER_MIN_SIZE, headerPtr := 0 })
    else LoopStep.next ws savedState

/-- The length decode once `bytesNeeded` has reached 0 (lines 609-641), followed
by `headerComplete`. -/
def parseHeader (ws : twWs) (savedState : ReadState) : LoopStep :=
  let cnt := ws.headerPtr
  if ws.ws_header.getD 1 0 = 127 then LoopStep.done (socketError ws)
  else if ws.ws_header.getD 1 0 = 126 then
    if cnt < 4 then LoopStep.next { ws with bytesNeeded := 4 - (cnt : Int) } savedState
    else
      let ws := { ws with bytesNeeded :=
        ((ws.ws_header.getD 2 0 * 256 + ws.ws_header.getD 3 0 : Nat) : Int) }
      if ws.bytesNeeded > (ws.frameSize : Int) then LoopStep.done (socketError ws)
      else headerComplete ws savedState
  else headerComplete { ws with bytesNeeded := ((ws.ws_header.getD 1 0 : Nat) : Int) } savedState

/-- One pass through the body of the header loop (lines 588-695). -/
def headerStep (ws : twWs) (savedState : ReadState) : LoopStep :=
  let r := twTlsClient_Read ws.connection ws.bytesNeeded
  let bytesRead := r.1
  let ws := { ws with connection := r.2.2 }
  if bytesRead > 0 then
    if ws.headerPtr + r.2.1.length > 64 then LoopStep.done (Outcome.fault ws)
    else
      let ws := { ws with ws_header := writeAt ws.ws_header ws.headerPtr r.2.1,
                          headerPtr := ws.headerPtr + r.2.1.length,
                          bytesNeeded := ws.bytesNeeded - bytesRead }
      if ws.bytesNeeded > 0 then LoopStep.done (Outcome.ret TW_OK ws)
      else if ws.bytesNeeded < 0 then LoopStep.done (socketError ws)
      else parseHeader ws savedState
  else if bytesRead < 0 then LoopStep.done (socketError ws)
  else LoopStep.done (Outcome.ret TW_OK ws)

/-- Where the header loop ends: control reaches the code after the loop, or
`twWs_Receive` has ended inside the loop. -/
inductive LoopExit
  | fallThrough (ws : twWs) (savedState : ReadState)
  | done (o : Outcome)
  deriving DecidableEq, Repr

/-- The loop `while (ws->read_state == READ_HEADER)` (lines 587-696).  Each pass that
goes round again has stored at least one more byte in the 64-byte header
buffer, so 65 passes always suffice (`twWs_Receive_not_outOfFuel`). -/
def headerLoop : Nat → twWs → ReadState → LoopExit
  | 0, _, _ => LoopExit.done Outcome.outOfFuel
  | fuel + 1, ws, savedState =>
    if ws.read_state = READ_HEADER then
      match headerStep ws savedState with
      | LoopStep.next ws savedState => headerLoop fuel ws savedState
      | LoopStep.done o => LoopExit.done o
    else LoopExit.fallThrough ws savedState

/-- The dispatch of a complete final frame by opcode (lines 730-773): the session
after the callback, or `none` for an unknown opcode. -/
def dispatch (ws : twWs) (savedState : ReadState) : Option twWs :=
  let opcode := ws.ws_header.getD 0 0 &&& 0x0f
  let data := ws.frameBuffer.take ws.frameBufferPtr
  let length := ws.frameBufferPtr
  if opcode = 0x00 then
    if ws.read_state = READ_TEXT_FRAME then
      some (if ws.on_ws_textMessage then
        { ws with calls := ws.calls ++ [Call.textMessage data length] } else ws)
    else
      some (if ws.on_ws_binaryMessage then
        { ws with calls := ws.calls ++ [Call.binaryMessage data length] } else ws)
  else if opcode = 0x01 then
    some (if ws.on_ws_textMessage then
      { ws with calls := ws.calls ++ [Call.textMessage data length] } else ws)
  else if opcode = 0x02 then
    some (if ws.on_ws_binaryMessage then
      { ws with calls := ws.calls ++ [Call.binaryMessage data length] } else ws)
  else if opcode = 0x08 then
    let ws := { ws with isConnected := 0 }
    let ws := if ws.on_ws_close then
      { ws with calls := ws.calls ++ [Call.close data length] } else ws
    some { ws with read_state := savedState }
  else if opcode = 0x09 then
    let ws := if ws.on_ws_ping then
      { ws with calls := ws.calls ++ [Call.ping data length] } else ws
    some { ws with read_state := savedState }
  else if opcode = 0x0a then
    let ws := if ws.on_ws_pong then
      { ws with calls := ws.calls ++ [Call.pong data length] } else ws
    some { ws with read_state := savedState }
  else none

/-- The code after the header loop (lines 697-802): the payload read, the FIN
test and the dispatch, or the final reset. -/
def readBody (ws : twWs) (savedState : ReadState) : Outcome :=
  if ws.bytesNeeded ≠ 0 ∧ (ws.read_state = READ_CONTROL_FRAME ∨ ws.read_state = READ_TEXT_FRAME
      ∨ ws.read_state = READ_BINARY_FRAME) then
    let r := twTlsClient_Read ws.connection ws.bytesNeeded
    let bytesRead := r.1
    let ws := { ws with connection := r.2.2 }
    if bytesRead > 0 then
      if ws.frameBufferPtr + r.2.1.length > ws.frameSize + WS_HEADER_MAX_SIZE + 1 then
        Outcome.fault ws
      else
        let ws := { ws with frameBuffer := writeAt ws.frameBuffer ws.frameBufferPtr r.2.1,
                            frameBufferPtr := ws.frameBufferPtr + r.2.1.length,
                            bytesNeeded := ws.bytesNeeded - bytesRead }
        if ws.bytesNeeded > 0 then Outcome.ret TW_OK ws
        else if ws.bytesNeeded < 0 then socketError ws
        else if ws.ws_header.getD 0 0 &&& 0x80 = 0x00 then
          Outcome.ret TW_OK (resetForNextMessage ws)
        else
          match dispatch ws savedState with
          | none => socketError ws
          | some ws => Outcome.ret TW_OK (resetForNextMessage ws)
    else if bytesRead < 0 then socketError ws
    else Outcome.ret TW_OK ws
  else
    Outcome.ret TW_OK
      { ws with read_state := READ_HEADER, bytesNeeded := WS_HEADER_MIN_SIZE, headerPtr := 0 }

/-- The function `twWs_Receive` (lines 558-803) on a non-NULL session; `timeout` only reaches the
transport and `recvMutex` is not modelled. -/
def twWs_Receive (ws : twWs) : Outcome :=
  if ws.isConnected = 0 then Outcome.ret TW_WEBSOCKET_NOT_CONNECTED ws
  else
    let ws :=
      if ws.bytesNeeded > (ws.frameSize : Int) - (ws.frameBufferPtr : Int) then
        { ws with frameBufferPtr := 0, read_state := READ_HEADER,
                  bytesNeeded := WS_HEADER_MIN_SIZE, headerPtr := 0 }
      else ws
    match headerLoop 65 ws READ_HEADER with
    | LoopExit.done o => o
    | LoopExit.fallThrough ws savedState => readBody ws savedState

/-- Calling `twWs_Receive` `m` times in a row: the codes returned, oldest first,
and the session at the end.  The polling stops at a call that does not return. -/
def receiveMany : Nat → twWs → List twError × Outcome
  | 0, ws => ([], Outcome.ret TW_OK ws)
  | m + 1, ws =>
    match twWs_Receive ws with
    | Outcome.ret code ws1 =>
      let r := receiveMany m ws1
      (code :: r.1, r.2)
    | o => ([], o)

/-- The frame header `sendDataFrame` prepares (lines 960-974): 6 bytes, or 8 with the
16-bit length; the four mask bytes stay 0 after `memset(frameHeader,0,12)`. -/
def dataFrameHeader (length : Nat) (isContinuation isFinal isText : Bool) : List Byte :=
  let type := 0x02
  let type := if isText then 0x01 else type
  let type := if isContinuation then 0x00 else type
  let type := if isFinal then type ||| 0x80 else type
  if length < 126 then [type, (0x80 + length) % 256, 0, 0, 0, 0]
  else [type, 0xFE, (length / 0x100) % 256, length % 0x100, 0, 0, 0, 0]

/-- The function `sendDataFrame` (lines 933-989) on a non-NULL session; `msg` is `none`
for a NULL pointer, otherwise the bytes at `msg`; `length` is a `uint16_t`. -/
def sendDataFrame (ws : twWs) (msg : Option (List Byte)) (length : Nat)
    (isContinuation isFinal isText : Bool) : twError × twWs :=
  let length := length % 65536
  if ws.isConnected ≠ 1 then (TW_WEBSOCKET_NOT_CONNECTED, ws)
  else
    match msg with
    | none => (literal (-1), ws)
    | some data =>
      if ws.frameSize < length then (TW_WEBSOCKET_MSG_TOO_LARGE, ws)
      else
        let frameHeader := dataFrameHeader length isContinuation isFinal isText
        let headerLength := frameHeader.length
        let bytesToWrite : Int := ((headerLength + length : Nat) : Int)
        let w1 := twTlsClient_Write ws.connection frameHeader
        let w2 := twTlsClient_Write w1.2 (data.take length)
        let bytesWritten : Int := 0 + w1.1 + w2.1
        let ws := { ws with connection := w2.2 }
        if bytesWritten ≠ bytesToWrite then
          (TW_ERROR_WRITING_TO_WEBSOCKET, (restartSocket { ws with isConnected := 0 }).2)
        else (TW_OK, ws)

/-- The loop `while (length > 0)` of `twWs_SendMessage` (lines 830-858); `ptr` is the
offset of the C pointer `ptr` from `buf`, `framesSent` is a `char`.  `none`: the
fuel ran out with `length` still above 0. -/
def sendLoop (buf : List Byte) (isText : Bool) :
    Nat → twWs → Nat → Nat → Nat → Option (twError × twWs)
  | 0, ws, _, length, _ => if length > 0 then none else some (TW_OK, ws)
  | fuel + 1, ws, ptr, length, framesSent =>
    if length > 0 then
      if length > ws.frameSize then
        let r := if framesSent ≠ 0 then sendDataFrame ws (some (buf.drop ptr)) length true false isText
          else sendDataFrame ws (some (buf.drop ptr)) length false false isText
        if r.1 ≠ TW_OK then some r
        else sendLoop buf isText fuel r.2 (ptr + ws.frameSize) (length - ws.frameSize)
          ((framesSent + 1) % 256)
      else
        let r := if framesSent ≠ 0 then sendDataFrame ws (some (buf.drop ptr)) length true true isText
          else sendDataFrame ws (some (buf.drop ptr)) length false true isText
        if r.1 ≠ TW_OK then some r
        else sendLoop buf isText fuel r.2 (ptr + length) 0 ((framesSent + 1) % 256)
    else some (TW_OK, ws)

/-- The function `twWs_SendMessage` (lines 805-863) on a non-NULL session; `buf` is `none`
for a NULL pointer; `length` is a `uint32_t`.  Every pass of the loop with
`frameSize` at least 1 lowers `length`, so `length` passes suffice; `none` means
that the loop does not end (`frameSize` 0 and frames of 0 bytes going out). -/
def twWs_SendMessage (ws : twWs) (buf : Option (List Byte)) (length : Nat) (isText : Bool) :
    Option (twError × twWs) :=
  if ws.isConnected = 0 then some (TW_WEBSOCKET_NOT_CONNECTED, ws)
  else
    match buf with
    | none => some (literal (-1), ws)
    | some b =>
      if length = 0 then some (literal (-1), ws)
      else if ws.messageChunkSize < length then some (TW_WEBSOCKET_FRAME_TOO_LARGE, ws)
      else sendLoop b isText length ws 0 length 0

/-- The function `twWs_IsConnected` (lines 439-441) on a non-NULL session. -/
def twWs_IsConnected (ws : twWs) : Bool := decide (ws.isConnected = 1)

/-! ## The opening handshake

C strings are lists of the bytes before the terminating NUL.  SHA-1, base64, the
clock and `rand` come from libraries that are not among the source files. -/

/-- The bytes of a string literal. -/
def bytes (s : String) : List Byte := s.toList.map Char.toNat

/-- The bytes "\r\n". -/
def crlf : List Byte := [13, 10]

/-- Rotation of a 32-bit word to the left by `n` bits. -/
def rotl32 (n x : Nat) : Nat := ((x <<< n) ||| (x >>> (32 - n))) % 2 ^ 32

/-- The `n` big-endian bytes of `x`. -/
def bigEndian : Nat → Nat → List Byte
  | 0, _ => []
  | n + 1, x => bigEndian n (x / 256) ++ [x % 256]

/-- The 32-bit big-endian words of a byte string, four bytes each. -/
def wordsOf : List Byte → List Nat
  | b0 :: b1 :: b2 :: b3 :: rest => (((b0 * 256 + b1) * 256 + b2) * 256 + b3) :: wordsOf rest
  | _ => []

/-- Modelled from the spec: the padding of SHA-1 (section 2 lists SHA-1 among the
system primitives): 0x80, zero bytes up to 56 modulo 64, and the bit length as 8
big-endian bytes. -/
def sha1Pad (msg : List Byte) : List Byte :=
  msg ++ [0x80] ++ List.replicate ((119 - msg.length % 64) % 64) 0 ++
    bigEndian 8 (msg.length * 8)

/-- Modelled from the spec: the message schedule of SHA-1, most recent word first:
`n` more words after `rev`. -/
def sha1Schedule : Nat → List Nat → List Nat
  | 0, rev => rev
  | n + 1, rev =>
    sha1Schedule n
      (rotl32 1 (rev.getD 2 0 ^^^ rev.getD 7 0 ^^^ rev.getD 13 0 ^^^ rev.getD 15 0) :: rev)

/-- Modelled from the spec: round `t` of the 80 rounds of SHA-1, on the word `w`. -/
def sha1Round (s : Nat × Nat × Nat × Nat × Nat) (t w : Nat) : Nat × Nat × Nat × Nat × Nat :=
  let (a, b, c, d, e) := s
  let f := if t < 20 then (b &&& c) ||| ((b ^^^ 0xFFFFFFFF) &&& d)
    else if t < 40 then b ^^^ c ^^^ d
    else if t < 60 then (b &&& c) ||| (b &&& d) ||| (c &&& d)
    else b ^^^ c ^^^ d
  let k := if t < 20 then 0x5A827999 else if t < 40 then 0x6ED9EBA1
    else if t < 60 then 0x8F1BBCDC else 0xCA62C1D6
  ((rotl32 5 a + f + e + k + w) % 2 ^ 32, a, rotl32 30 b, c, d)

/-- Modelled from the spec: the rounds of one block of SHA-1 over the scheduled
words, from round `t` on. -/
def sha1Rounds : List Nat → Nat → Nat × Nat × Nat × Nat × Nat → Nat × Nat × Nat × Nat × Nat
  | [], _, s => s
  | w :: ws, t, s => sha1Rounds ws (t + 1) (sha1Round s t w)

/-- Modelled from the spec: the compression of one 64-byte block into the chaining
value `h` of SHA-1. -/
def sha1Block (h : Nat × Nat × Nat × Nat × Nat) (block : List Byte) :
    Nat × Nat × Nat × Nat × Nat :=
  let w := (sha1Schedule 64 (wordsOf block).reverse).reverse
  let (a, b, c, d, e) := sha1Rounds w 0 h
  let (h0, h1, h2, h3, h4) := h
  ((h0 + a) % 2 ^ 32, (h1 + b) % 2 ^ 32, (h2 + c) % 2 ^ 32, (h3 + d) % 2 ^ 32,
    (h4 + e) % 2 ^ 32)

/-- Modelled from the spec: SHA-1 over the first `n` 64-byte blocks of a padded
message. -/
def sha1Blocks : Nat → Nat × Nat × Nat × Nat × Nat → List Byte → Nat × Nat × Nat × Nat × Nat
  | 0, h, _ => h
  | n + 1, h, msg => sha1Blocks n (sha1Block h (msg.take 64)) (msg.drop 64)

/-- Modelled from the spec: the calls `twSHA1_Init`, `twSHA1_Update`, `twSHA1_Final`
of the crypto helpers, which are not among the source files: the 20-byte SHA-1
digest of `msg` (FIPS 180). -/
def twSHA1 (msg : List Byte) : List Byte :=
  let p := sha1Pad msg
  let (h0, h1, h2, h3, h4) :=
    sha1Blocks (p.length / 64) (0x67452301, 0xEFCDAB89, 0x98BADCFE, 0x10325476, 0xC3D2E1F0) p
  bigEndian 4 h0 ++ bigEndian 4 h1 ++ bigEndian 4 h2 ++ bigEndian 4 h3 ++ bigEndian 4 h4

/-- Modelled from the spec: the base64 alphabet (RFC 4648): A-Z, a-z, 0-9, + and /. -/
def base64Char (n : Nat) : Byte :=
  if n < 26 then 65 + n else if n < 52 then 97 + (n - 26) else if n < 62 then 48 + (n - 52)
  else if n = 62 then 43 else 47

/-- Modelled from the spec: the call `base64_encode(in, len, out, outlen)` of the
crypto helpers, which is not among the source files: the base64 text of the
bytes, padded with "=" to a multiple of 4. -/
def base64_encode : List Byte → List Byte
  | b0 :: b1 :: b2 :: rest =>
    base64Char (b0 / 4) :: base64Char (b0 % 4 * 16 + b1 / 16) ::
      base64Char (b1 % 16 * 4 + b2 / 64) :: base64Char (b2 % 64) :: base64_encode rest
  | [b0, b1] =>
    [base64Char (b0 / 4), base64Char (b0 % 4 * 16 + b1 / 16), base64Char (b1 % 16 * 4), 61]
  | [b0] => [base64Char (b0 / 4), base64Char (b0 % 4 * 16), 61, 61]
  | [] => []

/-- The literal "258EAFA5-E914-47DA-95CA-C5AB0DC85B11" of `validateAcceptKey`. -/
def acceptGuid : List Byte := bytes "258EAFA5-E914-47DA-95CA-C5AB0DC85B11"

/-- The function `validateAcceptKey` (lines 991-1013) on a non-NULL session, with
the string `val`.  `strcpy` and `strcat` fill `tmp[80]` with the security key, the 36
bytes of the literal and a NUL: `none` when they do not fit (a write past `tmp`).
`strcmp` is 0 exactly for equal strings. -/
def validateAcceptKey (ws : twWs) (val : List Byte) : Option twError :=
  let tmp := ws.security_key ++ acceptGuid
  if 80 < tmp.length + 1 then none
  else
    let hash := twSHA1 tmp
    let expectedValue := base64_encode hash
    if val ≠ expectedValue then some TW_INVALID_ACCEPT_KEY else some TW_OK

/-- The bits of a C `int` (32 bits, two's complement) as a natural number. -/
def intBits (x : Int) : Nat := (x % 2 ^ 32).toNat

/-- The `signed char` that a C `int` with the bits `n` is converted to. -/
def toSChar (n : Nat) : Int :=
  if n % 256 < 128 then ((n % 256 : Nat) : Int) else ((n % 256 : Nat) : Int) - 256

/-- The constant `RCVD_CONNECTION_HEADER`. -/
def RCVD_CONNECTION_HEADER : Nat := 0x01

/-- The constant `RCVD_UPGRADE_HEADER`. -/
def RCVD_UPGRADE_HEADER : Nat := 0x20

/-- The constant `VALID_WS_ACCEPT_KEY`. -/
def VALID_WS_ACCEPT_KEY : Nat := 0x40

/-- The statement `ws->connect_state |= flag` on the `signed char` field. -/
def orConnectState (ws : twWs) (flag : Nat) : twWs :=
  { ws with connect_state := toSChar (intBits ws.connect_state ||| flag) }

/-- The function `ws_on_header_value` (lines 53-76) on non-NULL arguments: the
return value and the session; `none` when `validateAcceptKey` writes past its
buffer. -/
def ws_on_header_value (ws : twWs) (header_name header_value : List Byte) :
    Option (Int × twWs) :=
  if header_name = bytes "upgrade" then
    if header_value ≠ bytes "websocket" then some (0, { ws with connect_state := -1 })
    else some (0, orConnectState ws RCVD_UPGRADE_HEADER)
  else if header_name = bytes "connection" then
    if header_value ≠ bytes "upgrade" then some (0, { ws with connect_state := -1 })
    else some (0, orConnectState ws RCVD_CONNECTION_HEADER)
  else if header_name = bytes "sec-websocket-accept" then
    match validateAcceptKey ws header_value with
    | none => none
    | some r =>
      if r ≠ TW_OK then some (0, { ws with connect_state := -1 })
      else some (0, orConnectState ws VALID_WS_ACCEPT_KEY)
  else some (0, ws)

/-- The function `ws_on_headers_complete` (lines 77-92) on a non-NULL session. -/
def ws_on_headers_complete (ws : twWs) : Int × twWs :=
  let state := ws.connect_state
  if state ≠ -1 ∧ intBits state &&& RCVD_UPGRADE_HEADER ≠ 0 ∧
      intBits state &&& RCVD_CONNECTION_HEADER ≠ 0 ∧
      intBits state &&& VALID_WS_ACCEPT_KEY ≠ 0 then
    (0, { ws with isConnected := 1 })
  else (1, { ws with isConnected := -1 })

/-- The header pairs of a response handed to `ws_on_header_value` one after the
other, as the header walk of `twWs_Connect` does. -/
def processHeaders : twWs → List (List Byte × List Byte) → Option twWs
  | ws, [] => some ws
  | ws, (name, value) :: rest =>
    match ws_on_header_value ws name value with
    | none => none
    | some (_, ws1) => processHeaders ws1 rest

/-- Modelled from the spec: the system primitives `twWs_Connect` relies on (section
2: wall-clock; section 4.1: the nonce comes from a randomness source).  `clock n`
is the value of the n-th call of `twGetSystemTime` in one `twWs_Connect` call, in
milliseconds; `rand seed i` is the value of the i-th call of `rand()` after
`srand(seed)`. -/
structure SystemEnv where
  clock : Nat → Nat
  rand : Nat → Nat → Nat

/-- The constant `KEY_LENGTH`. -/
def KEY_LENGTH : Nat := 16

/-- The constant `REQ_SIZE`. -/
def REQ_SIZE : Nat := 512

/-- The constant `WS_VERSION`. -/
def WS_VERSION : List Byte := bytes "13"

/-- The C string at offset `off` of a buffer: the bytes before the first NUL. -/
def cStringAt (buf : List Byte) (off : Nat) : List Byte :=
  (buf.drop off).takeWhile (fun b => b != 0)

/-- The call `strncat(dst, src, n)` on the strings `dst` and `src`. -/
def strncat (dst src : List Byte) (n : Nat) : List Byte := dst ++ src.take n

/-- The call `strstr(haystack, needle)` on strings: the offset of the first
occurrence, `none` for NULL. -/
def strstr : List Byte → List Byte → Option Nat
  | [], needle => if needle = [] then some 0 else none
  | b :: rest, needle =>
    if needle.isPrefixOf (b :: rest) then some 0
    else (strstr rest needle).map (fun i => i + 1)

/-- The call `sprintf(max_frame_size, "%u", ws->frameSize)` (line 281): the decimal
text of the frame size. -/
def max_frame_size (ws : twWs) : List Byte := (Nat.toDigits 10 ws.frameSize).map Char.toNat

/-- The strings that lines 258-287 of `twWs_Connect` append to "GET ", in order. -/
def requestPieces (ws : twWs) : List (List Byte) :=
  [ws.resource, bytes " HTTP/1.1" ++ crlf, bytes "User-Agent: ThingWorx C SDK" ++ crlf,
    bytes "Upgrade: websocket" ++ crlf, bytes "Connection: Upgrade" ++ crlf, bytes "Host: ",
    ws.host, crlf, bytes "Sec-WebSocket-Version: ", WS_VERSION, crlf,
    bytes "Sec-WebSocket-Key: ", ws.security_key, crlf, bytes "Max-Frame-Size: ",
    max_frame_size ws, crlf, bytes "appKey: ", ws.api_key, crlf, crlf]

/-- The request `twWs_Connect` forms in `req` (lines 258-287): `strncpy` of "GET "
into the zeroed 512-byte buffer, then one
`strncat(req, piece, REQ_SIZE - strlen(req) - 1)` for each piece. -/
def buildRequest (ws : twWs) : List Byte :=
  (requestPieces ws).foldl (fun req piece => strncat req piece (REQ_SIZE - req.length - 1))
    (bytes "GET ")

/-- The loop `while (line < headEnd && (*line == 0x00 || *line == '\r' || ...)) line++`
of line 394. -/
def skipBlank : Nat → List Byte → Nat → Nat → Nat
  | 0, _, _, line => line
  | fuel + 1, buf, headEnd, line =>
    if line < headEnd ∧ (buf.getD line 0 = 0 ∨ buf.getD line 0 = 13 ∨ buf.getD line 0 = 10 ∨
        buf.getD line 0 = 32 ∨ buf.getD line 0 = 9) then
      skipBlank fuel buf headEnd (line + 1)
    else line

/-- The header walk `while (line < headEnd)` of `twWs_Connect` (lines 363-405).
`line`, `header_name` and `header_value` are offsets into the frame buffer
(`header_value` is `none` for NULL).  Every pass moves `line` forward, so
`headEnd - line` passes are enough.  The result is `ret TW_OK` with the session
when the walk is through, or what `twWs_Connect` returns from within the walk. -/
def headerWalk : Nat → Nat → twWs → Nat → Nat → Option Nat → Bool → Outcome
  | 0, headEnd, ws, line, _, _, _ =>
    if line < headEnd then Outcome.outOfFuel else Outcome.ret TW_OK ws
  | fuel + 1, headEnd, ws, line, header_name, header_value, gotName =>
    if ¬ line < headEnd then Outcome.ret TW_OK ws
    else
      let ch := ws.frameBuffer.getD line 0
      if ¬ gotName then
        let ch := if 65 ≤ ch ∧ ch ≤ 90 then ch + 32 else ch
        if ch = 32 ∨ ch = 9 ∨ ch = 58 then
          headerWalk fuel headEnd { ws with frameBuffer := ws.frameBuffer.set line 0 } (line + 1)
            header_name header_value true
        else
          headerWalk fuel headEnd { ws with frameBuffer := ws.frameBuffer.set line ch } (line + 1)
            header_name header_value false
      else if header_value = none ∧ (ch = 13 ∨ ch = 10 ∨ ch = 32 ∨ ch = 9) then
        headerWalk fuel headEnd { ws with frameBuffer := ws.frameBuffer.set line 0 } (line + 1)
          header_name header_value true
      else
        let value := header_value.getD line
        if ch = 13 ∨ ch = 10 then
          let ws := { ws with frameBuffer := ws.frameBuffer.set line 0 }
          match ws_on_header_value ws (cStringAt ws.frameBuffer header_name)
              (cStringAt ws.frameBuffer value) with
          | none => Outcome.fault ws
          | some (r, ws) =>
            if r ≠ 0 then
              Outcome.ret TW_ERROR_INITIALIZING_WEBSOCKET { ws with frameBufferPtr := 0 }
            else
              let line := skipBlank (headEnd - line) ws.frameBuffer headEnd line
              headerWalk fuel headEnd ws line line none false
        else headerWalk fuel headEnd ws (line + 1) header_name (some value) true

/-- How the response loop of `twWs_Connect` ends: with a `return` from within the
loop, or with the loop test false at the time `now`. -/
inductive ConnectExit
  | returned (o : Outcome)
  | fallThrough (now : Nat) (ws : twWs)

/-- The response loop of `twWs_Connect` (lines 312-417).  `tick` counts the clock
readings made so far; the `continue` of line 343 goes back to the loop test without
reading the clock.  A read that stores past the frame buffer, or a `strstr` on a
buffer without any NUL, is a `fault`. -/
def connectLoop (env : SystemEnv) : Nat → Nat → Nat → Nat → twWs → ConnectExit
  | 0, _, _, _, _ => ConnectExit.returned Outcome.outOfFuel
  | fuel + 1, timeouttime, tick, now, ws =>
    if ws.connect_state ≥ 0 ∧ ws.isConnected = 0 ∧ timeouttime > now then
      let r := twTlsClient_Read ws.connection ((ws.frameSize : Int) - (ws.frameBufferPtr : Int))
      let bytesRead := r.1
      let ws := { ws with connection := r.2.2 }
      if bytesRead < 0 then
        ConnectExit.returned
          (Outcome.ret TW_ERROR_INITIALIZING_WEBSOCKET { ws with frameBufferPtr := 0 })
      else if bytesRead ≠ 0 then
        if ws.frameBuffer.length < ws.frameBufferPtr + r.2.1.length then
          ConnectExit.returned (Outcome.fault ws)
        else
          let ws := { ws with frameBuffer := writeAt ws.frameBuffer ws.frameBufferPtr r.2.1,
                              frameBufferPtr := ws.frameBufferPtr + bytesRead.toNat }
          if ws.frameBufferPtr > ws.frameSize then
            ConnectExit.returned
              (Outcome.ret TW_ERROR_INITIALIZING_WEBSOCKET { ws with frameBufferPtr := 0 })
          else if 0 ∉ ws.frameBuffer then ConnectExit.returned (Outcome.fault ws)
          else
            match strstr (cStringAt ws.frameBuffer 0) (crlf ++ crlf) with
            | none => connectLoop env fuel timeouttime tick now ws
            | some headEnd =>
              let respCode := (cStringAt ws.frameBuffer 9).take 3
              if respCode ≠ bytes "101" then
                ConnectExit.returned
                  (Outcome.ret TW_ERROR_INITIALIZING_WEBSOCKET { ws with frameBufferPtr := 0 })
              else
                let line := (strstr (cStringAt ws.frameBuffer 0) crlf).getD 0 + 2
                let headEnd := headEnd + 2
                match headerWalk (headEnd - line) headEnd ws line line none false with
                | Outcome.ret TW_OK ws =>
                  let ws := { ws with frameBufferPtr := 0 }
                  let c := ws_on_headers_complete ws
                  if c.1 ≠ 0 then
                    ConnectExit.returned (Outcome.ret TW_ERROR_INITIALIZING_WEBSOCKET c.2)
                  else connectLoop env fuel timeouttime (tick + 1) (env.clock tick) c.2
                | o => ConnectExit.returned o
      else connectLoop env fuel timeouttime (tick + 1) (env.clock tick) ws
    else ConnectExit.fallThrough now ws

/-- The security key `twWs_Connect` makes (lines 236-256): `srand(now % 1000)` with the
first clock reading, 16 bytes `rand() & 0xff`, and their base64 text. -/
def securityKey (env : SystemEnv) : List Byte :=
  base64_encode ((List.range KEY_LENGTH).map (fun i => env.rand (env.clock 0 % 1000) i &&& 0xff))

/-- The state of `twWs_Connect` after it has sent the request (lines 218-307): it has
returned already, or goes on to read the response. -/
inductive ConnectSent
  | returned (code : twError) (ws : twWs)
  | sent (ws : twWs)

/-- The first part of `twWs_Connect` (lines 218-307) on a non-NULL session: the
random key, the request, the reconnect and the write of the request.  The
allocations are taken to succeed. -/
def connectSend (env : SystemEnv) (ws : twWs) : ConnectSent :=
  if ws.isConnected = 1 then ConnectSent.returned TW_OK ws
  else
    let ws := { ws with connect_state := 0, read_state := READ_HEADER }
    let ws := { ws with security_key := securityKey env }
    let req := buildRequest ws
    let r := restartSocket ws
    if r.1 ≠ 0 then ConnectSent.returned TW_SOCKET_INIT_ERROR r.2
    else
      let ws := r.2
      let w := twTlsClient_Write ws.connection req
      let ws := { ws with connection := w.2 }
      if w.1 > 0 then ConnectSent.sent ws
      else ConnectSent.returned TW_ERROR_WRITING_TO_SOCKET (restartSocket ws).2

/-- The function `twWs_Connect` (lines 218-437) on a non-NULL session.
`twAddMilliseconds` is addition and `twTimeGreaterThan` is `>` on milliseconds.
`fuel` bounds the passes of the response loop. -/
def twWs_Connect (env : SystemEnv) (fuel : Nat) (ws : twWs) (timeout : Nat) : Outcome :=
  match connectSend env ws with
  | ConnectSent.returned code ws => Outcome.ret code ws
  | ConnectSent.sent ws =>
    let timeouttime := env.clock 1 + timeout
    let now := env.clock 2
    match connectLoop env fuel timeouttime 3 now ws with
    | ConnectExit.returned o => o
    | ConnectExit.fallThrough now ws =>
      if now > timeouttime then Outcome.ret TW_TIMEOUT_INITIALIZING_WEBSOCKET ws
      else if ¬ ws.isConnected = 1 then
        Outcome.ret TW_ERROR_INITIALIZING_WEBSOCKET (restartSocket ws).2
      else
        let ws := if ws.on_ws_connected then { ws with calls := ws.calls ++ [Call.connected] }
          else ws
        Outcome.ret TW_OK
          { ws with headerPtr := 0, bytesNeeded := WS_HEADER_MIN_SIZE, read_state := READ_HEADER }

/-! ## Control frames, disconnect and the constructor -/

/-- The function `sendCtlFrame` (lines 882-931) on a non-NULL session; `type` is an
`unsigned char`, `msg` is `none` for a NULL pointer, otherwise the string at
`msg`.  The frame is built in `frameHeader[128]`: the header bytes are stored as
`char`, the string follows at offset 6. -/
def sendCtlFrame (ws : twWs) (type : Nat) (msg : Option (List Byte)) : twError × twWs :=
  let type := type % 256
  let typeStr := if type = 0x08 then bytes "Close" else if type = 0x09 then bytes "Ping"
    else if type = 0x0A then bytes "Pong" else bytes "Unknown"
  if ws.isConnected = 0 then (TW_WEBSOCKET_NOT_CONNECTED, ws)
  else
    let msg := msg.getD typeStr
    if type < 0x08 ∧ type > 0x0a then (TW_INVALID_WEBSOCKET_FRAME_TYPE, ws)
    else if msg.length > 110 then (TW_WEBSOCKET_MSG_TOO_LARGE, ws)
    else
      let frameHeader := [(0x80 + type) % 256, (0x80 + msg.length) % 256, 0, 0, 0, 0] ++ msg
      let bytesToWrite : Int := ((msg.length + 6 : Nat) : Int)
      let w := twTlsClient_Write ws.connection frameHeader
      let ws := { ws with connection := w.2 }
      if w.1 ≠ bytesToWrite then
        (TW_ERROR_WRITING_TO_WEBSOCKET, (restartSocket { ws with isConnected := 0 }).2)
      else (TW_OK, ws)

/-- The function `twWs_SendPing` (lines 865-873); `timeString` is what
`twGetSystemTimeString` stores in `tmp[64]` (at most 63 bytes) when `msg` is NULL. -/
def twWs_SendPing (timeString : List Byte) (ws : twWs) (msg : Option (List Byte)) :
    twError × twWs :=
  sendCtlFrame ws 0x09 (some (msg.getD (timeString.take 63)))

/-- The function `twWs_SendPong` (lines 875-877). -/
def twWs_SendPong (ws : twWs) (msg : Option (List Byte)) : twError × twWs :=
  sendCtlFrame ws 0x0A msg

/-- The value `SERVER_CLOSED` of `enum close_status`. -/
def SERVER_CLOSED : Int := 0

/-- The value `NORMAL_CLOSE` of `enum close_status`. -/
def NORMAL_CLOSE : Int := 1000

/-- The value `GOING_TO_SLEEP` of `enum close_status`. -/
def GOING_TO_SLEEP : Int := 1001

/-- The value `PROTOCOL_ERROR` of `enum close_status`. -/
def PROTOCOL_ERROR : Int := 1002

/-- The value `UNSUPPORTED_DATA_TYPE` of `enum close_status`. -/
def UNSUPPORTED_DATA_TYPE : Int := 1003

/-- The value `INVALID_DATA` of `enum close_status`. -/
def INVALID_DATA : Int := 1007

/-- The value `POLICY_VIOLATION` of `enum close_status`. -/
def POLICY_VIOLATION : Int := 1008

/-- The value `FRAME_TOO_LARGE` of `enum close_status`. -/
def FRAME_TOO_LARGE : Int := 1009

/-- The value `NO_EXTENSION_FOUND` of `enum close_status`. -/
def NO_EXTENSION_FOUND : Int := 1010

/-- The value `UNEXPECTED_CONDITION` of `enum close_status`. -/
def UNEXPECTED_CONDITION : Int := 1011

/-- The `switch (code)` of `twWs_Disconnect` (lines 455-492): the text it copies to
`msg + 2` and the byte it stores in `msg[1]`. -/
def closeText (code : Int) : List Byte × Byte :=
  if code = NORMAL_CLOSE then (bytes "Normal Close", 0xE8)
  else if code = GOING_TO_SLEEP then (bytes "Going to Sleep", 0xE9)
  else if code = PROTOCOL_ERROR then (bytes "Protocol Error", 0xEA)
  else if code = UNSUPPORTED_DATA_TYPE then (bytes "Unsupported Data Type", 0xEB)
  else if code = INVALID_DATA then (bytes "Invalid Data", 0xEF)
  else if code = POLICY_VIOLATION then (bytes "Policy Violation", 0xF0)
  else if code = FRAME_TOO_LARGE then (bytes "Frame too large", 0xF1)
  else if code = NO_EXTENSION_FOUND then (bytes "No extension found", 0xF2)
  else (bytes "Unexpected Condition", 0xF3)

/-- The end of `twWs_Disconnect` (lines 497-500), with the bytes of `msg` at that
point: `isConnected = FALSE`, the transport is closed, and the close callback is
called with the string at `msg + 2` when it is registered and `msg[0]` is 0x03.
Without a NUL from `msg + 2` on, `strlen` reads past `msg`. -/
def disconnectEnd (ws : twWs) (msg : List Byte) : Outcome :=
  let ws := { ws with isConnected := 0 }
  let ws := { ws with connection := twTlsClient_Close ws.connection }
  if ws.on_ws_close = true ∧ msg.getD 0 0 = 0x03 then
    if 0 ∉ msg.drop 2 then Outcome.fault ws
    else
      Outcome.ret TW_OK
        { ws with calls := ws.calls ++
                    [Call.close (cStringAt msg 2) (cStringAt msg 2).length] }
  else Outcome.ret TW_OK ws

/-- The function `twWs_Disconnect` (lines 443-501) on a non-NULL session.  `stack` is
what the 64 bytes of the local `msg` hold on entry (it is not initialised);
`reason` is `none` for a NULL pointer.  After `strncpy(msg + 2, text, 60)` the two
`strncat` calls append " " and at most 60 bytes of the reason and a NUL; a NULL
reason, or a string that does not fit the 62 bytes from `msg + 2` on, is a
`fault`.  The result of `sendCtlFrame` is not looked at. -/
def twWs_Disconnect (stack : List Byte) (ws : twWs) (code : Int)
    (reason : Option (List Byte)) : Outcome :=
  if code ≠ SERVER_CLOSED then
    let text := (closeText code).1 ++ bytes " "
    match reason with
    | none => Outcome.fault ws
    | some r =>
      let text := text ++ r.take 60
      if 62 < text.length + 1 then Outcome.fault ws
      else
        let msg := [0x03, (closeText code).2] ++ text
        let sent := sendCtlFrame ws 0x08 (some msg)
        disconnectEnd sent.2 (msg ++ [0])
  else disconnectEnd ws stack

/-- Modelled from the spec: what the allocations and the transport constructor
that `twWs_Create` calls return (section 2, system primitives): whether each
`TW_CALLOC`, `duplicateString` and the mutex creation succeed, the code
`twTlsClient_Create` returns and the transport it creates. -/
structure CreateEnv where
  calloc_ws : Bool := true
  tlsCreate : twError := TW_OK
  connection : twTlsClient := {}
  dup_host : Bool := true
  dup_api_key : Bool := true
  dup_resource : Bool := true
  dup_gatewayName : Bool := true
  mutexes : Bool := true
  calloc_frameBuffer : Bool := true

/-- The function `twWs_Create` (lines 111-190): the return value and the session
stored in `*entity`, if any.  A string argument is `none` for a NULL pointer,
`entity` says whether the output pointer is non-NULL; `port` and `frameSize` are
`uint16_t`, `messageChunkSize` is a `uint32_t`.  The struct comes from `TW_CALLOC`,
so every field that is not assigned is zero; the model keeps no `port` and no
`gatewayName`. -/
def twWs_Create (env : CreateEnv) (host : Option (List Byte)) (port : Nat)
    (resource api_key gatewayName : Option (List Byte)) (messageChunkSize frameSize : Nat)
    (entity : Bool) : twError × Option twWs :=
  let port := port % 65536
  let messageChunkSize := messageChunkSize % 4294967296
  let frameSize := frameSize % 65536
  match host, resource, api_key with
  | some h, some r, some k =>
    if port = 0 ∨ entity = false then (TW_INVALID_PARAM, none)
    else if ¬ env.calloc_ws then (TW_ERROR_ALLOCATING_MEMORY, none)
    else if env.tlsCreate ≠ TW_OK then (env.tlsCreate, none)
    else if ¬ env.dup_host then (TW_ERROR_ALLOCATING_MEMORY, none)
    else if ¬ env.dup_api_key then (TW_ERROR_ALLOCATING_MEMORY, none)
    else if ¬ env.dup_resource then (TW_ERROR_ALLOCATING_MEMORY, none)
    else if gatewayName.isSome ∧ ¬ env.dup_gatewayName then (TW_ERROR_ALLOCATING_MEMORY, none)
    else if ¬ env.mutexes then (TW_ERROR_CREATING_MTX, none)
    else if messageChunkSize > frameSize then (TW_INVALID_PARAM, none)
    else if ¬ env.calloc_frameBuffer then (TW_ERROR_ALLOCATING_MEMORY, none)
    else
      (TW_OK, some
        { connection := env.connection, host := h, api_key := k, resource := r,
          messageChunkSize := messageChunkSize, frameSize := frameSize,
          frameBuffer := List.replicate (frameSize + WS_HEADER_MAX_SIZE + 1) 0,
          frameBufferPtr := 0, bytesNeeded := WS_HEADER_MIN_SIZE, isConnected := 0 })
  | _, _, _ => (TW_INVALID_PARAM, none)

/-- The bytes of an unmasked frame on the wire: byte 0 (FIN and opcode), the
payload length in byte 1 when it is below 126, otherwise 0x7E and the length as
two big-endian bytes, then the payload. -/
def inboundFrame (b0 : Byte) (payload : List Byte) : List Byte :=
  if payload.length < 126 then b0 :: payload.length :: payload
  else b0 :: 126 :: (payload.length / 256) :: (payload.length % 256) :: payload

/-- The number of header bytes of `inboundFrame` for a payload of `n` bytes. -/
def headerSize (n : Nat) : Nat := if n < 126 then 2 else 4

/-- The `read_state` that the opcode switch (lines 648-665) selects for the opcodes
1, 2, 8, 9 and 10. -/
def frameState (opcode : Nat) : ReadState :=
  if opcode = 1 then READ_TEXT_FRAME else if opcode = 2 then READ_BINARY_FRAME
  else READ_CONTROL_FRAME

/-- The count a read of `need` available bytes returns under the script `sched`
of upper bounds: all of them once the script is used up. -/
def grant (sched : List Nat) (need : Nat) : Nat :=
  match sched with
  | [] => need
  | m :: _ => min m need

/-- A header as the peer sends it, from the header `sendDataFrame` prepares: the
mask bit of byte 1 cleared and the four mask-key bytes at the end left out. -/
def unmaskedHeader (hdr : List Byte) : List Byte :=
  match hdr.take (hdr.length - 4) with
  | b0 :: b1 :: rest => b0 :: (b1 &&& 0x7f) :: rest
  | l => l

/-- A session as `twWs_Create` and a successful `twWs_Connect` leave it (connected,
READ_HEADER, 2 bytes needed, both cursors at 0, buffers of 64 and
`frameSize + 11` bytes), with the five data callbacks registered, `inbound`
waiting in the transport and `script` for its next reads. -/
def connectedSession (frameSize : Nat) (inbound : List Byte) (script : List ReadEvent) : twWs :=
  { connection := { inbound := inbound, readScript := script },
    messageChunkSize := frameSize, frameSize := frameSize,
    frameBuffer := List.replicate (frameSize + 11) 0,
    bytesNeeded := 2, read_state := READ_HEADER, isConnected := 1,
    on_ws_binaryMessage := true, on_ws_textMessage := true, on_ws_ping := true,
    on_ws_pong := true, on_ws_close := true }

/-- The part of a polled session that does not depend on the progress within
the frame: it is connected, has the frame size and callbacks of `base`, buffers
of the right size, `rest` waiting in the transport, and a transport that will
hand over at most `sched` bytes on its next reads, without failing. -/
structure Session (base : twWs) (sched : List Nat) (rest : List Byte) (ws : twWs) : Prop where
  connected : ws.isConnected = 1
  frameSize_eq : ws.frameSize = base.frameSize
  text_eq : ws.on_ws_textMessage = base.on_ws_textMessage
  binary_eq : ws.on_ws_binaryMessage = base.on_ws_binaryMessage
  ping_eq : ws.on_ws_ping = base.on_ws_ping
  pong_eq : ws.on_ws_pong = base.on_ws_pong
  close_eq : ws.on_ws_close = base.on_ws_close
  header_length : ws.ws_header.length = 64
  buffer_length : ws.frameBuffer.length = ws.frameSize + 11
  inbound_eq : ws.connection.inbound = rest
  script_eq : ws.connection.readScript = sched.map ReadEvent.upTo

/-- The session has read the first `p` bytes of `frame`, all of them header bytes
(`p` is below the header size `H`): they are in `ws_header`, and `bytesNeeded` is
what is missing of the 2-byte header or of the 4-byte header. -/
structure HeaderPhase (base : twWs) (frame : List Byte) (H : Nat) (sched : List Nat) (p : Nat)
    (ws : twWs) : Prop where
  session : Session base sched (frame.drop p) ws
  calls_eq : ws.calls = base.calls
  state : ws.read_state = READ_HEADER
  hp : ws.headerPtr = p
  fp : ws.frameBufferPtr = 0
  need : ws.bytesNeeded = ((if p < 2 then 2 - p else 4 - p : Nat) : Int)
  stored : ∀ i, i < p → ws.ws_header.getD i 0 = frame.getD i 0
  lt : p < H

/-- The session has read the header of the frame (byte 0 is `b0`) and the first
`q` bytes of `payload`, which are in the frame buffer; `q` is below the length. -/
structure BodyPhase (base : twWs) (b0 : Byte) (payload : List Byte) (sched : List Nat) (q : Nat)
    (ws : twWs) : Prop where
  session : Session base sched (payload.drop q) ws
  calls_eq : ws.calls = base.calls
  state : ws.read_state = frameState (b0 &&& 0x0f)
  byte0 : ws.ws_header.getD 0 0 = b0
  fp : ws.frameBufferPtr = q
  need : ws.bytesNeeded = ((payload.length - q : Nat) : Int)
  stored : ws.frameBuffer.take q = payload.take q
  lt : q < payload.length

/-- The session is between frames with nothing waiting in the transport: reset to
READ_HEADER with 2 bytes needed and both cursors at 0, and `calls` as trace. -/
structure Idle (base : twWs) (calls : List Call) (sched : List Nat) (ws : twWs) : Prop where
  session : Session base sched [] ws
  calls_eq : ws.calls = calls
  state : ws.read_state = READ_HEADER
  hp : ws.headerPtr = 0
  fp : ws.frameBufferPtr = 0
  need : ws.bytesNeeded = 2

/-- The trace after the callback for a final frame with opcode 1, 2, 9 or 10, when
that callback is registered in `ws`; unchanged otherwise. -/
def deliveredCalls (ws : twWs) (opcode : Nat) (data : List Byte) (length : Nat) : List Call :=
  if opcode = 1 then
    if ws.on_ws_textMessage then ws.calls ++ [Call.textMessage data length] else ws.calls
  else if opcode = 2 then
    if ws.on_ws_binaryMessage then ws.calls ++ [Call.binaryMessage data length] else ws.calls
  else if opcode = 9 then
    if ws.on_ws_ping then ws.calls ++ [Call.ping data length] else ws.calls
  else if opcode = 10 then
    if ws.on_ws_pong then ws.calls ++ [Call.pong data length] else ws.calls
  else ws.calls

/-- The trace once the frame with byte 0 `b0` and `payload` has been read in full:
no call when the FIN bit is clear, else the call for the opcode. -/
def expectedCalls (base : twWs) (b0 : Byte) (payload : List Byte) : List Call :=
  if b0 &&& 0x80 = 0 then base.calls
  else deliveredCalls base (b0 &&& 0x0f) payload payload.length

/-- The states a session goes through while it is polled for the one frame
`inboundFrame b0 payload`. -/
def Polled (base : twWs) (b0 : Byte) (payload : List Byte) (sched : List Nat) (ws : twWs) :
    Prop :=
  (∃ p, HeaderPhase base (inboundFrame b0 payload) (headerSize payload.length) sched p ws) ∨
  (∃ q, BodyPhase base b0 payload sched q ws) ∨
  Idle base (expectedCalls base b0 payload) sched ws

/-- What `twWs_Receive` leaves as it is in `ws` until it returns: the count of
reconnects, the callback trace and the close callback. -/
def SameTrace (ws ws1 : twWs) : Prop :=
  ws1.connection.reconnects = ws.connection.reconnects ∧ ws1.calls = ws.calls ∧
    ws1.on_ws_close = ws.on_ws_close

/-- The state after a fatal receive error, for a call entered with `ws`: whenever
the outcome `o` is a return of TW_ERROR_READING_FROM_WEBSOCKET, the session is
disconnected with `connect_state` 0 and both cursors at 0, one reconnect has been
asked for, and the trace has grown by the close callback with "Socket Error" and
12 when that callback is registered, by nothing otherwise. -/
def FatalPost (ws : twWs) (o : Outcome) : Prop :=
  ∀ ws1, o = Outcome.ret TW_ERROR_READING_FROM_WEBSOCKET ws1 →
    ws1.isConnected = 0 ∧ ws1.connect_state = 0 ∧ ws1.headerPtr = 0 ∧ ws1.frameBufferPtr = 0 ∧
    ws1.connection.reconnects = ws.connection.reconnects + 1 ∧
    ws1.calls = ws.calls ++ (if ws.on_ws_close then [Call.close socketErrorMsg 12] else [])

/-- The session has read a close frame in full: it is disconnected, reset to
READ_HEADER with 2 bytes needed and both cursors at 0, nothing is waiting in the
transport, and `calls` is its trace. -/
structure Closed (calls : List Call) (ws : twWs) : Prop where
  disconnected : ws.isConnected = 0
  calls_eq : ws.calls = calls
  inbound_eq : ws.connection.inbound = []
  state : ws.read_state = READ_HEADER
  hp : ws.headerPtr = 0
  fp : ws.frameBufferPtr = 0
  need : ws.bytesNeeded = 2

/-- The trace after the close callback for a close frame with `payload`, when that
callback is registered in `ws`; unchanged otherwise. -/
def closeCalls (ws : twWs) (payload : List Byte) : List Call :=
  if ws.on_ws_close then ws.calls ++ [Call.close payload payload.length] else ws.calls

/-- The states of a session that is polled for the frame `inboundFrame b0 payload`
and has not read all of it yet. -/
def InProgress (base : twWs) (b0 : Byte) (payload : List Byte) (sched : List Nat) (ws : twWs) :
    Prop :=
  (∃ p, HeaderPhase base (inboundFrame b0 payload) (headerSize payload.length) sched p ws) ∨
  (∃ q, BodyPhase base b0 payload sched q ws)

/-- A session that waits for the last 3 bytes of a 5-byte binary frame, over a
transport whose next read fails. -/
def failingReadSession : twWs :=
  { connectedSession 16 [1, 2, 3] [ReadEvent.error] with
      bytesNeeded := 3, read_state := READ_BINARY_FRAME, frameBufferPtr := 2, headerPtr := 2 }

/-- The session `failingReadSession` after the poll that hits the failing read. -/
def failedReadSession : twWs :=
  { connectedSession 16 [] [] with
      isConnected := 0, bytesNeeded := 3, read_state := READ_BINARY_FRAME,
      calls := [Call.close socketErrorMsg 12],
      connection := { inbound := [1, 2, 3], reconnects := 1 } }

/-- The value of `connect_state` that records which of the headers upgrade (`u`),
connection (`c`) and sec-websocket-accept (`a`) have been accepted. -/
def handshakeBits (u c a : Bool) : Int :=
  (if u then 0x20 else 0) + (if c then 0x01 else 0) + (if a then 0x40 else 0)

/-- The header `name` occurs among the pairs. -/
def headerSeen (name : List Byte) (pairs : List (List Byte × List Byte)) : Bool :=
  pairs.any (fun p => decide (p.1 = name))

/-- A header pair does not stand in the way of the handshake: if its name is one of
upgrade, connection and sec-websocket-accept, its value is "websocket", "upgrade",
respectively a value that `validateAcceptKey` accepts. -/
def carriesRequiredValue (ws : twWs) (p : List Byte × List Byte) : Bool :=
  if p.1 = bytes "upgrade" then decide (p.2 = bytes "websocket")
  else if p.1 = bytes "connection" then decide (p.2 = bytes "upgrade")
  else if p.1 = bytes "sec-websocket-accept" then decide (validateAcceptKey ws p.2 = some TW_OK)
  else true

/-- The three names have occurred and every occurrence carried its required value. -/
def handshakeAccepted (ws : twWs) (pairs : List (List Byte × List Byte)) : Bool :=
  headerSeen (bytes "upgrade") pairs && headerSeen (bytes "connection") pairs &&
    headerSeen (bytes "sec-websocket-accept") pairs && pairs.all (carriesRequiredValue ws)

/-- The security key of the example in RFC 6455. -/
def sampleKey : List Byte := bytes "dGhlIHNhbXBsZSBub25jZQ=="

/-- The accept key of the example in RFC 6455. -/
def sampleAccept : List Byte := bytes "s3pPLMBiTxaQ9kYGzzhZRbK+xOo="

/-- A fresh session with the security key of the RFC 6455 example. -/
def sampleSession : twWs := { security_key := sampleKey }

/-- The three headers of a good response to `sampleSession`. -/
def sampleHeaders : List (List Byte × List Byte) :=
  [(bytes "upgrade", bytes "websocket"), (bytes "connection", bytes "upgrade"),
    (bytes "sec-websocket-accept", sampleAccept)]

/-- The request text as the specification gives it: the request line, the eight
headers in order, each line ended by CRLF, and one blank line. -/
def upgradeRequestText (resource host security_key : List Byte) (frameSize : Nat)
    (api_key : List Byte) : List Byte :=
  bytes "GET " ++ resource ++ bytes " HTTP/1.1" ++ crlf ++
    bytes "User-Agent: ThingWorx C SDK" ++ crlf ++
    bytes "Upgrade: websocket" ++ crlf ++
    bytes "Connection: Upgrade" ++ crlf ++
    bytes "Host: " ++ host ++ crlf ++
    bytes "Sec-WebSocket-Version: 13" ++ crlf ++
    bytes "Sec-WebSocket-Key: " ++ security_key ++ crlf ++
    bytes "Max-Frame-Size: " ++ (Nat.toDigits 10 frameSize).map Char.toNat ++ crlf ++
    bytes "appKey: " ++ api_key ++ crlf ++ crlf

/-- The session an outcome carries, if any, satisfies `P`. -/
def OutcomeKeeps (P : twWs → Prop) : Outcome → Prop
  | Outcome.ret _ ws => P ws
  | Outcome.fault ws => P ws
  | Outcome.outOfFuel => True

/-- The session at the end of the response loop, if any, satisfies `P`. -/
def ExitKeeps (P : twWs → Prop) : ConnectExit → Prop
  | ConnectExit.returned o => OutcomeKeeps P o
  | ConnectExit.fallThrough _ ws => P ws

/-- A clock that advances by one millisecond per reading, and a fixed `rand`. -/
def sampleEnv : SystemEnv := { clock := fun n => 1000 + n, rand := fun seed i => seed + 7 * i }

/-- A fresh session for the resource /Thingworx/WS on host localhost with frame
size 8192. -/
def upgradeSession : twWs :=
  { frameSize := 8192, messageChunkSize := 8192, frameBuffer := List.replicate 8203 0,
    bytesNeeded := 2, host := bytes "localhost", resource := bytes "/Thingworx/WS",
    api_key := bytes "0a1b2c3d" }

/-- The transport does not take all of `data` on its next write: the call fails or
accepts fewer bytes. -/
def WriteRefused (c : twTlsClient) (data : List Byte) : Prop :=
  (twTlsClient_Write c data).1 ≠ (data.length : Int)

/-- The transport does not take all of a data frame, written as `header` and then
`payload`. -/
def FrameRefused (c : twTlsClient) (header payload : List Byte) : Prop :=
  WriteRefused c header ∨ WriteRefused (twTlsClient_Write c header).2 payload

/-- The session `ws1` after a send that failed on `ws`: disconnected, the transport
asked to reconnect once, and no callback invoked. -/
def SendFailed (ws ws1 : twWs) : Prop :=
  ws1.isConnected = 0 ∧ twWs_IsConnected ws1 = false ∧
    ws1.connection.reconnects = ws.connection.reconnects + 1 ∧ ws1.calls = ws.calls

/-- The bytes of the control frame of type `type` with the string `msg`. -/
def ctlFrame (type : Nat) (msg : List Byte) : List Byte :=
  [(0x80 + type % 256) % 256, (0x80 + msg.length) % 256, 0, 0, 0, 0] ++ msg

/-- A connected session whose transport accepts only 3 bytes of the next write. -/
def refusingSession : twWs :=
  { connectedSession 16 [] [] with connection := { writeScript := [WriteEvent.upTo 3] } }

/-- The wire byte of a close code as the specification lists it: 0xE8 for
NORMAL_CLOSE, 0xE9 for GOING_TO_SLEEP, 0xEA for PROTOCOL_ERROR, 0xEB for
UNSUPPORTED_DATA_TYPE, 0xEF for INVALID_DATA, 0xF0 for POLICY_VIOLATION, 0xF1 for
FRAME_TOO_LARGE, 0xF2 for NO_EXTENSION_FOUND, and 0xF3 for UNEXPECTED_CONDITION and
every other code. -/
def closeWireByte (code : Int) : Byte :=
  if code = 1000 then 0xE8 else if code = 1001 then 0xE9 else if code = 1002 then 0xEA
  else if code = 1003 then 0xEB else if code = 1007 then 0xEF else if code = 1008 then 0xF0
  else if code = 1009 then 0xF1 else if code = 1010 then 0xF2 else 0xF3

/-- The string `twWs_Disconnect` hands to the close callback: the fixed text of the
code, one space and the reason. -/
def closeMessage (code : Int) (reason : List Byte) : List Byte :=
  (closeText code).1 ++ bytes " " ++ reason

/-- A response that `twWs_Connect` accepts from a peer that knows the key of `env`:
status 101 and the three headers, the last with the accept key for that key. -/
def goodResponse (env : SystemEnv) : List Byte :=
  bytes "HTTP/1.1 101 X" ++ crlf ++ bytes "upgrade:websocket" ++ crlf ++
    bytes "connection:upgrade" ++ crlf ++ bytes "sec-websocket-accept:" ++
    base64_encode (twSHA1 (securityKey env ++ acceptGuid)) ++ crlf ++ crlf

/-- A fresh session whose resource is 480 bytes long, with a peer that answers
with `goodResponse`. -/
def longSession : twWs :=
  { frameSize := 300, messageChunkSize := 300, frameBuffer := List.replicate 311 0,
    bytesNeeded := 2, host := bytes "localhost", resource := List.replicate 480 97,
    api_key := bytes "0a1b2c3d", connection := { inbound := goodResponse sampleEnv } }

/-- The environment `sampleEnv` one second later. -/
def laterEnv : SystemEnv := { clock := fun n => 2000 + n, rand := sampleEnv.rand }

/-- The transport constructor and all allocations of `twWs_Create` succeed. -/
def Allocates (env : CreateEnv) : Prop :=
  env.calloc_ws = true ∧ env.tlsCreate = TW_OK ∧ env.dup_host = true ∧
    env.dup_api_key = true ∧ env.dup_resource = true ∧ env.dup_gatewayName = true ∧
    env.mutexes = true ∧ env.calloc_frameBuffer = true

/-- A transport on which the peer answers the upgrade request with `goodResponse` and
then sends a binary frame that announces 125 payload bytes in byte 1; the reads
hand over the response, the 2 header bytes and then 123 payload bytes. -/
def oversizedPeer : twTlsClient :=
  { inbound := goodResponse sampleEnv ++ [0x82, 125] ++ List.replicate 125 7,
    readScript := [ReadEvent.upTo 108, ReadEvent.upTo 2, ReadEvent.upTo 123] }

/-- The write record `after` holds, beyond `before`, what at most one data frame
leaves: nothing or a first part of `header` (one write), then nothing or a first
part of `payload` (one write). -/
def OneFrameAtMost (before after : List (List Byte)) (header payload : List Byte) : Prop :=
  ∃ hp pp : List (List Byte), after = before ++ hp ++ pp ∧
    (hp = [] ∨ ∃ k, hp = [header.take k]) ∧ (pp = [] ∨ ∃ k, pp = [payload.take k])

/-- A transport on which the peer answers the upgrade request with status 101 and
the header `upgrade:none`, which fails the handshake, and then sends the text frame
"hi"; the first read hands over the 32 bytes of the response. -/
def failedPeer : twTlsClient :=
  { inbound := bytes "HTTP/1.1 101 X" ++ crlf ++ bytes "upgrade:none" ++ crlf ++ crlf ++
      [0x81, 2, 104, 105],
    readScript := [ReadEvent.upTo 32] }

/-- The count of the next read of the response loop in the state `arriving`: the
schedule allows `sched`, the loop asks for the room left, `resp.length - j` bytes
are there. -/
def piece (base : twWs) (resp : List Byte) (sched : List Nat) (j : Nat) : Nat :=
  grant sched (min (base.frameSize - j) (resp.length - j))

theorem length_writeAt (buf : List Byte) (off : Nat) (data : List Byte)
    (h : off + data.length ≤ buf.length) : (writeAt buf off data).length = buf.length := by
  simp [writeAt, List.length_take, List.length_drop]
  omega

theorem take_writeAt (buf : List Byte) (off : Nat) (data : List Byte) (h : off ≤ buf.length) :
    (writeAt buf off data).take (off + data.length) = buf.take off ++ data := by
  have h1 : (buf.take off ++ data).length = off + data.length := by
    simp [List.length_take, Nat.min_eq_left h]
  unfold writeAt
  rw [← h1, List.take_left]

theorem getD_writeAt_lt (buf : List Byte) (off : Nat) (data : List Byte) (i : Nat) (d : Byte)
    (h : off ≤ buf.length) (hi : i < off) : (writeAt buf off data).getD i d = buf.getD i d := by
  simp only [writeAt, List.getD_eq_getElem?_getD, List.append_assoc]
  rw [List.getElem?_append_left (by simp [List.length_take]; omega)]
  rw [List.getElem?_take_of_lt hi]

theorem getD_writeAt_mid (buf : List Byte) (off : Nat) (data : List Byte) (i : Nat) (d : Byte)
    (h : off ≤ buf.length) (hi : i < data.length) :
    (writeAt buf off data).getD (off + i) d = data.getD i d := by
  simp only [writeAt, List.getD_eq_getElem?_getD, List.append_assoc]
  rw [List.getElem?_append_right (by simp [List.length_take])]
  simp only [List.length_take, Nat.min_eq_left h, Nat.add_sub_cancel_left]
  rw [List.getElem?_append_left hi]

theorem getD_take_drop (l : List Byte) (p k i : Nat) (d : Byte) (hi : i < k) :
    ((l.drop p).take k).getD i d = l.getD (p + i) d := by
  simp only [List.getD_eq_getElem?_getD]
  rw [List.getElem?_take_of_lt hi, List.getElem?_drop]

theorem grant_le (sched : List Nat) (need : Nat) : grant sched need ≤ need := by
  cases sched <;> simp [grant]

theorem grant_nil (need : Nat) : grant [] need = need := rfl

theorem read_spec (c : twTlsClient) (sched : List Nat) (need : Nat)
    (hs : c.readScript = sched.map ReadEvent.upTo) (hn : need ≤ c.inbound.length) :
    twTlsClient_Read c (need : Int) = (((grant sched need : Nat) : Int),
      c.inbound.take (grant sched need),
      { c with inbound := c.inbound.drop (grant sched need),
               readScript := sched.tail.map ReadEvent.upTo }) := by
  cases c with
  | mk inb rs wr wsr rc rr cl =>
    cases sched with
    | nil =>
      simp only [List.map_nil] at hs
      subst hs
      simp [twTlsClient_Read, grant, Nat.min_eq_left hn]
    | cons m rest =>
      simp only [List.map_cons] at hs
      subst hs
      simp only [List.length] at hn
      have : min (need) inb.length = need := Nat.min_eq_left hn
      simp [twTlsClient_Read, grant, this]

theorem inboundFrame_length (b0 : Byte) (payload : List Byte) :
    (inboundFrame b0 payload).length = headerSize payload.length + payload.length := by
  unfold inboundFrame headerSize
  split <;> simp <;> omega

theorem inboundFrame_drop (b0 : Byte) (payload : List Byte) :
    (inboundFrame b0 payload).drop (headerSize payload.length) = payload := by
  unfold inboundFrame headerSize
  split <;> simp

/-! ## One pass of the header loop

What `headerStep` does for each outcome of its one transport read, then the same
for a session that is reading the header of `inboundFrame b0 payload`. -/

theorem headerStep_timeout (ws : twWs) (saved : ReadState) (data : List Byte) (c : twTlsClient)
    (hr : twTlsClient_Read ws.connection ws.bytesNeeded = (0, data, c)) :
    headerStep ws saved = LoopStep.done (Outcome.ret TW_OK { ws with connection := c }) := by
  simp [headerStep, hr]

theorem headerStep_short (ws : twWs) (saved : ReadState) (k : Nat) (data hdr1 : List Byte)
    (c : twTlsClient)
    (hr : twTlsClient_Read ws.connection ws.bytesNeeded = ((k : Int), data, c))
    (hk : 0 < k) (hd : data.length = k) (hroom : ws.headerPtr + k ≤ 64)
    (hlt : (k : Int) < ws.bytesNeeded) (hh : hdr1 = writeAt ws.ws_header ws.headerPtr data) :
    headerStep ws saved = LoopStep.done (Outcome.ret TW_OK
      { ws with connection := c, ws_header := hdr1,
                headerPtr := ws.headerPtr + k, bytesNeeded := ws.bytesNeeded - (k : Int) }) := by
  subst hh
  have h1 : (0 : Int) < (k : Int) := by omega
  have h2 : ¬ (ws.headerPtr + k > 64) := by omega
  have h3 : ws.bytesNeeded - (k : Int) > 0 := by omega
  simp [headerStep, hr, hd, h1, h2, h3]

theorem headerStep_full (ws : twWs) (saved : ReadState) (k : Nat) (data hdr1 : List Byte)
    (c : twTlsClient)
    (hr : twTlsClient_Read ws.connection ws.bytesNeeded = ((k : Int), data, c))
    (hk : 0 < k) (hd : data.length = k) (hroom : ws.headerPtr + k ≤ 64)
    (heq : ws.bytesNeeded = (k : Int)) (hh : hdr1 = writeAt ws.ws_header ws.headerPtr data) :
    headerStep ws saved = parseHeader
      { ws with connection := c, ws_header := hdr1,
                headerPtr := ws.headerPtr + k, bytesNeeded := 0 } saved := by
  subst hh
  have h1 : (0 : Int) < (k : Int) := by omega
  have h2 : ¬ (ws.headerPtr + k > 64) := by omega
  rw [heq] at hr
  simp [headerStep, hr, hd, h1, h2, heq]

theorem headerComplete_next (ws : twWs) (saved : ReadState)
    (hop : ws.ws_header.getD 0 0 &&& 0x0f = 1 ∨ ws.ws_header.getD 0 0 &&& 0x0f = 2 ∨
      ws.ws_header.getD 0 0 &&& 0x0f = 8 ∨ ws.ws_header.getD 0 0 &&& 0x0f = 9 ∨
      ws.ws_header.getD 0 0 &&& 0x0f = 10)
    (hn : ws.bytesNeeded ≠ 0) :
    ∃ saved1, headerComplete ws saved = LoopStep.next
      { ws with read_state := frameState (ws.ws_header.getD 0 0 &&& 0x0f) } saved1 := by
  rcases hop with h | h | h | h | h <;>
    simp [headerComplete, frameState, h, hn, -List.getD_eq_getElem?_getD]

theorem parseHeader_short (ws : twWs) (saved : ReadState) (n : Nat)
    (hop : ws.ws_header.getD 0 0 &&& 0x0f = 1 ∨ ws.ws_header.getD 0 0 &&& 0x0f = 2 ∨
      ws.ws_header.getD 0 0 &&& 0x0f = 8 ∨ ws.ws_header.getD 0 0 &&& 0x0f = 9 ∨
      ws.ws_header.getD 0 0 &&& 0x0f = 10)
    (h1 : ws.ws_header.getD 1 0 = n) (hn : 1 ≤ n) (hlt : n < 126) :
    ∃ saved1, parseHeader ws saved = LoopStep.next
      { ws with bytesNeeded := (n : Int),
                read_state := frameState (ws.ws_header.getD 0 0 &&& 0x0f) } saved1 := by
  have ha : ¬ n = 127 := by omega
  have hb : ¬ n = 126 := by omega
  have hc : ((n : Nat) : Int) ≠ 0 := by omega
  obtain ⟨s1, hs1⟩ := headerComplete_next { ws with bytesNeeded := (n : Int) } saved hop hc
  exact ⟨s1, by simp [parseHeader, h1, ha, hb, hs1, -List.getD_eq_getElem?_getD]⟩

theorem parseHeader_more (ws : twWs) (saved : ReadState)
    (h1 : ws.ws_header.getD 1 0 = 126) (hcnt : ws.headerPtr < 4) :
    parseHeader ws saved =
      LoopStep.next { ws with bytesNeeded := 4 - (ws.headerPtr : Int) } saved := by
  simp [parseHeader, h1, hcnt, -List.getD_eq_getElem?_getD]

theorem parseHeader_extended (ws : twWs) (saved : ReadState) (n : Nat)
    (hop : ws.ws_header.getD 0 0 &&& 0x0f = 1 ∨ ws.ws_header.getD 0 0 &&& 0x0f = 2 ∨
      ws.ws_header.getD 0 0 &&& 0x0f = 8 ∨ ws.ws_header.getD 0 0 &&& 0x0f = 9 ∨
      ws.ws_header.getD 0 0 &&& 0x0f = 10)
    (h1 : ws.ws_header.getD 1 0 = 126) (hcnt : ¬ ws.headerPtr < 4)
    (h23 : ws.ws_header.getD 2 0 * 256 + ws.ws_header.getD 3 0 = n)
    (hn : 1 ≤ n) (hfs : n ≤ ws.frameSize) :
    ∃ saved1, parseHeader ws saved = LoopStep.next
      { ws with bytesNeeded := (n : Int),
                read_state := frameState (ws.ws_header.getD 0 0 &&& 0x0f) } saved1 := by
  have hc : ((n : Nat) : Int) ≠ 0 := by omega
  have hd : ¬ ((n : Nat) : Int) > (ws.frameSize : Int) := by omega
  obtain ⟨s1, hs1⟩ := headerComplete_next { ws with bytesNeeded := (n : Int) } saved hop hc
  refine ⟨s1, ?_⟩
  simp [parseHeader, h1, hcnt, h23, hs1, hfs, -List.getD_eq_getElem?_getD]

theorem inboundFrame_getD_zero (b0 : Byte) (payload : List Byte) :
    (inboundFrame b0 payload).getD 0 0 = b0 := by
  unfold inboundFrame
  split <;> simp

theorem inboundFrame_getD_one (b0 : Byte) (payload : List Byte) :
    (inboundFrame b0 payload).getD 1 0 = if payload.length < 126 then payload.length else 126 := by
  unfold inboundFrame
  split <;> simp

theorem inboundFrame_getD_two (b0 : Byte) (payload : List Byte) (h : ¬ payload.length < 126) :
    (inboundFrame b0 payload).getD 2 0 = payload.length / 256 := by
  simp [inboundFrame, h]

theorem inboundFrame_getD_three (b0 : Byte) (payload : List Byte) (h : ¬ payload.length < 126) :
    (inboundFrame b0 payload).getD 3 0 = payload.length % 256 := by
  simp [inboundFrame, h]

theorem stored_after_write (hdr frame : List Byte) (p k : Nat) (hp : p ≤ hdr.length)
    (hk : p + k ≤ frame.length) (hs : ∀ i, i < p → hdr.getD i 0 = frame.getD i 0) :
    ∀ i, i < p + k → (writeAt hdr p ((frame.drop p).take k)).getD i 0 = frame.getD i 0 := by
  intro i hi
  by_cases h : i < p
  · rw [getD_writeAt_lt hdr p _ i 0 hp h]
    exact hs i h
  · obtain ⟨j, rfl⟩ : ∃ j, i = p + j := ⟨i - p, by omega⟩
    have hj : j < k := by omega
    have hlen : ((frame.drop p).take k).length = k := by
      rw [List.length_take, List.length_drop]
      omega
    rw [getD_writeAt_mid hdr p _ j 0 hp (by omega), getD_take_drop frame p k j 0 hj]

theorem headerSize_cases (n : Nat) :
    (n < 126 ∧ headerSize n = 2) ∨ (¬ n < 126 ∧ headerSize n = 4) := by
  unfold headerSize
  split <;> simp [*]

theorem headerStep_spec (base ws : twWs) (b0 : Byte) (payload : List Byte) (sched : List Nat)
    (p : Nat) (saved : ReadState)
    (hn1 : 1 ≤ payload.length) (hfs : payload.length ≤ base.frameSize)
    (hop : b0 &&& 0x0f = 1 ∨ b0 &&& 0x0f = 2 ∨ b0 &&& 0x0f = 8 ∨ b0 &&& 0x0f = 9 ∨
      b0 &&& 0x0f = 10)
    (h : HeaderPhase base (inboundFrame b0 payload) (headerSize payload.length) sched p ws) :
    (∃ ws1 p1, headerStep ws saved = LoopStep.done (Outcome.ret TW_OK ws1) ∧
        HeaderPhase base (inboundFrame b0 payload) (headerSize payload.length) sched.tail p1 ws1 ∧
        sched ≠ [])
    ∨ (∃ ws1, headerStep ws saved = LoopStep.next ws1 saved ∧
        HeaderPhase base (inboundFrame b0 payload) (headerSize payload.length) sched.tail 2 ws1 ∧
        p < 2)
    ∨ (∃ ws1 saved1, headerStep ws saved = LoopStep.next ws1 saved1 ∧
        BodyPhase base b0 payload sched.tail 0 ws1) := by
  obtain ⟨⟨hc, hfsz, ht, hb, hpi, hpo, hcl, hhl, hbl, hin, hsc⟩, hcalls, hst, hhp, hfp, hneed,
    hstored, hlt⟩ := h
  subst hhp
  generalize hN : (if ws.headerPtr < 2 then 2 - ws.headerPtr else 4 - ws.headerPtr) = need
    at hneed
  have hlen := inboundFrame_length b0 payload
  have hH := headerSize_cases payload.length
  have hneedpos : 0 < need ∧ ws.headerPtr + need ≤ headerSize payload.length ∧
      (ws.headerPtr + need = 2 ∨ ws.headerPtr + need = 4) ∧
      (ws.headerPtr + need = 2 → ws.headerPtr < 2) := by
    split at hN <;> omega
  obtain ⟨k, data, c1, hdr1, hread, hkle, hnil, hdata, hc1i, hc1s, hhdr1, hwl, hst2⟩ :
      ∃ (k : Nat) (data : List Byte) (c1 : twTlsClient) (hdr1 : List Byte),
        twTlsClient_Read ws.connection ws.bytesNeeded = (((k : Nat) : Int), data, c1) ∧
        k ≤ need ∧ (sched = [] → k = need) ∧ data.length = k ∧
        c1.inbound = List.drop (ws.headerPtr + k) (inboundFrame b0 payload) ∧
        c1.readScript = List.map ReadEvent.upTo sched.tail ∧
        hdr1 = writeAt ws.ws_header ws.headerPtr data ∧ hdr1.length = 64 ∧
        ∀ i, i < ws.headerPtr + k → hdr1.getD i 0 = (inboundFrame b0 payload).getD i 0 := by
    have havail : need ≤ ws.connection.inbound.length := by
      rw [hin, List.length_drop, hlen]
      omega
    have hread := read_spec ws.connection sched need hsc havail
    rw [← hneed] at hread
    have hkle := grant_le sched need
    have hdata : (ws.connection.inbound.take (grant sched need)).length = grant sched need := by
      rw [List.length_take]
      omega
    refine ⟨grant sched need, _, _, _, hread, hkle, ?_, hdata, ?_, rfl, rfl, ?_, ?_⟩
    · intro hs
      rw [hs, grant_nil]
    · show List.drop (grant sched need) ws.connection.inbound = _
      rw [hin, List.drop_drop]
    · rw [length_writeAt _ _ _ (by omega)]
      exact hhl
    · rw [hin]
      exact stored_after_write ws.ws_header (inboundFrame b0 payload) ws.headerPtr
        (grant sched need) (by omega) (by omega) hstored
  by_cases hk0 : k = 0
  · left
    subst hk0
    refine ⟨_, ws.headerPtr, headerStep_timeout ws saved _ _ hread, ?_, ?_⟩
    · refine ⟨⟨hc, hfsz, ht, hb, hpi, hpo, hcl, hhl, hbl, hc1i, hc1s⟩, hcalls, hst, rfl, hfp, ?_,
        hstored, hlt⟩
      rw [hN]
      exact hneed
    · intro hs
      have := hnil hs
      omega
  · by_cases hklt : k < need
    · left
      refine ⟨_, ws.headerPtr + k, headerStep_short ws saved k data hdr1 c1 hread (by omega)
        hdata (by omega) (by omega) hhdr1, ?_, ?_⟩
      · refine ⟨⟨hc, hfsz, ht, hb, hpi, hpo, hcl, hwl, hbl, hc1i, hc1s⟩, hcalls, hst, rfl, hfp,
          ?_, hst2, by omega⟩
        simp only [hneed]
        split at hN <;> split <;> omega
      · intro hs
        have := hnil hs
        omega
    · have hkeq : k = need := by omega
      subst hkeq
      rw [headerStep_full ws saved k data hdr1 c1 hread (by omega) hdata (by omega) hneed hhdr1]
      have hb0 := hst2 0 (by omega)
      have hb1 := hst2 1 (by omega)
      rw [inboundFrame_getD_zero] at hb0
      rw [inboundFrame_getD_one] at hb1
      rw [← hb0] at hop
      rcases hneedpos.2.2.1 with h2 | h4
      · rcases hH with ⟨hsmall, hH2⟩ | ⟨hbig, hH4⟩
        · right; right
          rw [if_pos hsmall] at hb1
          obtain ⟨s1, hs1⟩ := parseHeader_short
            { ws with connection := c1, ws_header := hdr1, headerPtr := ws.headerPtr + k,
                      bytesNeeded := 0 }
            saved payload.length hop hb1 hn1 hsmall
          refine ⟨_, s1, hs1, ?_⟩
          refine ⟨⟨hc, hfsz, ht, hb, hpi, hpo, hcl, hwl, hbl, ?_, hc1s⟩, hcalls, ?_, hb0, hfp, ?_,
            ?_, by omega⟩
          · show c1.inbound = List.drop 0 payload
            rw [hc1i, h2, ← hH2, inboundFrame_drop]
            rfl
          · show frameState _ = frameState _
            rw [hb0]
          · simp
          · simp
        · right; left
          rw [if_neg hbig] at hb1
          have hcnt : ws.headerPtr + k < 4 := by omega
          rw [parseHeader_more _ saved hb1 hcnt]
          refine ⟨_, rfl, ?_, hneedpos.2.2.2 h2⟩
          refine ⟨⟨hc, hfsz, ht, hb, hpi, hpo, hcl, hwl, hbl, ?_, hc1s⟩, hcalls, hst, h2, hfp, ?_,
            ?_, by omega⟩
          · show c1.inbound = _
            rw [hc1i, h2]
          · show (4 : Int) - ((ws.headerPtr + k : Nat) : Int) = _
            rw [h2]
            rfl
          · rw [← h2]
            exact hst2
      · rcases hH with ⟨hsmall, hH2⟩ | ⟨hbig, hH4⟩
        · omega
        · right; right
          rw [if_neg hbig] at hb1
          have hb2 := hst2 2 (by omega)
          have hb3 := hst2 3 (by omega)
          rw [inboundFrame_getD_two b0 payload hbig] at hb2
          rw [inboundFrame_getD_three b0 payload hbig] at hb3
          have hcnt : ¬ ws.headerPtr + k < 4 := by omega
          have h23 : hdr1.getD 2 0 * 256 + hdr1.getD 3 0 = payload.length := by
            rw [hb2, hb3]
            exact Nat.div_add_mod' _ _
          obtain ⟨s1, hs1⟩ := parseHeader_extended
            { ws with connection := c1, ws_header := hdr1, headerPtr := ws.headerPtr + k,
                      bytesNeeded := 0 }
            saved payload.length hop hb1 hcnt h23 hn1 (by rw [hfsz]; exact hfs)
          refine ⟨_, s1, hs1, ?_⟩
          refine ⟨⟨hc, hfsz, ht, hb, hpi, hpo, hcl, hwl, hbl, ?_, hc1s⟩, hcalls, ?_, hb0, hfp, ?_,
            ?_, by omega⟩
          · show c1.inbound = List.drop 0 payload
            rw [hc1i, h4, ← hH4, inboundFrame_drop]
            rfl
          · show frameState _ = frameState _
            rw [hb0]
          · simp
          · simp

/-! ## The header loop -/

theorem frameState_ne_header (op : Nat) : frameState op ≠ READ_HEADER := by
  unfold frameState
  split
  · simp
  · split <;> simp

theorem frameState_body (op : Nat) :
    frameState op = READ_CONTROL_FRAME ∨ frameState op = READ_TEXT_FRAME ∨
      frameState op = READ_BINARY_FRAME := by
  unfold frameState
  split
  · simp
  · split <;> simp

theorem headerLoop_exit (fuel : Nat) (ws : twWs) (saved : ReadState)
    (h : ws.read_state ≠ READ_HEADER) :
    headerLoop (fuel + 1) ws saved = LoopExit.fallThrough ws saved := by
  simp [headerLoop, h]

theorem headerLoop_step (fuel : Nat) (ws : twWs) (saved : ReadState)
    (h : ws.read_state = READ_HEADER) :
    headerLoop (fuel + 1) ws saved =
      match headerStep ws saved with
      | LoopStep.next ws1 saved1 => headerLoop fuel ws1 saved1
      | LoopStep.done o => LoopExit.done o := by
  simp [headerLoop, h]

theorem headerLoop_spec_two (base ws : twWs) (b0 : Byte) (payload : List Byte)
    (sched : List Nat) (p : Nat) (saved : ReadState) (fuel : Nat)
    (hn1 : 1 ≤ payload.length) (hfs : payload.length ≤ base.frameSize)
    (hop : b0 &&& 0x0f = 1 ∨ b0 &&& 0x0f = 2 ∨ b0 &&& 0x0f = 8 ∨ b0 &&& 0x0f = 9 ∨
      b0 &&& 0x0f = 10)
    (hp : 2 ≤ p)
    (h : HeaderPhase base (inboundFrame b0 payload) (headerSize payload.length) sched p ws) :
    (∃ ws1 p1, headerLoop (fuel + 2) ws saved = LoopExit.done (Outcome.ret TW_OK ws1) ∧
        HeaderPhase base (inboundFrame b0 payload) (headerSize payload.length) sched.tail p1 ws1 ∧
        sched ≠ [])
    ∨ (∃ ws1 saved1, headerLoop (fuel + 2) ws saved = LoopExit.fallThrough ws1 saved1 ∧
        BodyPhase base b0 payload sched.tail 0 ws1) := by
  rw [headerLoop_step _ _ _ h.state]
  rcases headerStep_spec base ws b0 payload sched p saved hn1 hfs hop h with
    ⟨ws1, p1, he, hph, hne⟩ | ⟨ws1, he, hph, hlt⟩ | ⟨ws1, s1, he, hbody⟩
  · left
    exact ⟨ws1, p1, by rw [he], hph, hne⟩
  · omega
  · right
    refine ⟨ws1, s1, ?_, hbody⟩
    rw [he]
    exact headerLoop_exit fuel ws1 s1 (by rw [hbody.state]; exact frameState_ne_header _)

theorem headerLoop_spec (base ws : twWs) (b0 : Byte) (payload : List Byte)
    (sched : List Nat) (p : Nat) (saved : ReadState) (fuel : Nat)
    (hn1 : 1 ≤ payload.length) (hfs : payload.length ≤ base.frameSize)
    (hop : b0 &&& 0x0f = 1 ∨ b0 &&& 0x0f = 2 ∨ b0 &&& 0x0f = 8 ∨ b0 &&& 0x0f = 9 ∨
      b0 &&& 0x0f = 10)
    (h : HeaderPhase base (inboundFrame b0 payload) (headerSize payload.length) sched p ws) :
    (∃ ws1 p1 sched1, headerLoop (fuel + 3) ws saved = LoopExit.done (Outcome.ret TW_OK ws1) ∧
        HeaderPhase base (inboundFrame b0 payload) (headerSize payload.length) sched1 p1 ws1 ∧
        sched1.length < sched.length)
    ∨ (∃ ws1 saved1 sched1, headerLoop (fuel + 3) ws saved = LoopExit.fallThrough ws1 saved1 ∧
        BodyPhase base b0 payload sched1 0 ws1 ∧ sched1.length ≤ sched.length ∧
        (sched = [] → sched1 = [])) := by
  have htail : ∀ l : List Nat, l ≠ [] → l.tail.length < l.length := by
    intro l hl
    cases l with
    | nil => exact absurd rfl hl
    | cons a t => simp
  have htail2 : ∀ l : List Nat, l.tail.length ≤ l.length := by
    intro l
    cases l <;> simp
  rw [headerLoop_step _ _ _ h.state]
  rcases headerStep_spec base ws b0 payload sched p saved hn1 hfs hop h with
    ⟨ws1, p1, he, hph, hne⟩ | ⟨ws1, he, hph, hlt⟩ | ⟨ws1, s1, he, hbody⟩
  · left
    exact ⟨ws1, p1, sched.tail, by rw [he], hph, htail sched hne⟩
  · rw [he]
    rcases headerLoop_spec_two base ws1 b0 payload sched.tail 2 saved fuel hn1 hfs hop
      (le_refl 2) hph with ⟨ws2, p2, he2, hph2, hne2⟩ | ⟨ws2, s2, he2, hbody2⟩
    · left
      refine ⟨ws2, p2, sched.tail.tail, he2, hph2, ?_⟩
      have := htail _ hne2
      have := htail2 sched
      omega
    · right
      refine ⟨ws2, s2, sched.tail.tail, he2, hbody2, ?_, ?_⟩
      · have := htail2 sched
        have := htail2 sched.tail
        omega
      · intro hs
        rw [hs]
        rfl
  · right
    refine ⟨ws1, s1, sched.tail, ?_, hbody, htail2 sched, ?_⟩
    · rw [he]
      exact headerLoop_exit (fuel + 1) ws1 s1
        (by rw [hbody.state]; exact frameState_ne_header _)
    · intro hs
      rw [hs]
      rfl

/-! ## The payload read and the dispatch -/

theorem readBody_timeout (ws : twWs) (saved : ReadState) (data : List Byte) (c : twTlsClient)
    (hcond : ws.bytesNeeded ≠ 0 ∧ (ws.read_state = READ_CONTROL_FRAME ∨
      ws.read_state = READ_TEXT_FRAME ∨ ws.read_state = READ_BINARY_FRAME))
    (hr : twTlsClient_Read ws.connection ws.bytesNeeded = (0, data, c)) :
    readBody ws saved = Outcome.ret TW_OK { ws with connection := c } := by
  rw [readBody, if_pos hcond]
  simp [hr]

theorem readBody_short (ws : twWs) (saved : ReadState) (k : Nat) (data buf1 : List Byte)
    (c : twTlsClient)
    (hcond : ws.bytesNeeded ≠ 0 ∧ (ws.read_state = READ_CONTROL_FRAME ∨
      ws.read_state = READ_TEXT_FRAME ∨ ws.read_state = READ_BINARY_FRAME))
    (hr : twTlsClient_Read ws.connection ws.bytesNeeded = ((k : Int), data, c))
    (hk : 0 < k) (hd : data.length = k) (hroom : ws.frameBufferPtr + k ≤ ws.frameSize + 11)
    (hlt : (k : Int) < ws.bytesNeeded) (hb : buf1 = writeAt ws.frameBuffer ws.frameBufferPtr data) :
    readBody ws saved = Outcome.ret TW_OK
      { ws with connection := c, frameBuffer := buf1,
                frameBufferPtr := ws.frameBufferPtr + k,
                bytesNeeded := ws.bytesNeeded - (k : Int) } := by
  subst hb
  have h1 : (0 : Int) < (k : Int) := by omega
  have h2 : ¬ (ws.frameBufferPtr + k > ws.frameSize + WS_HEADER_MAX_SIZE + 1) := by
    simp only [WS_HEADER_MAX_SIZE]
    omega
  have h3 : ws.bytesNeeded - (k : Int) > 0 := by omega
  rw [readBody, if_pos hcond]
  simp [hr, hd, h1, h2, h3]

theorem readBody_full (ws ws1 : twWs) (saved : ReadState) (k : Nat) (data : List Byte)
    (c : twTlsClient)
    (hcond : ws.bytesNeeded ≠ 0 ∧ (ws.read_state = READ_CONTROL_FRAME ∨
      ws.read_state = READ_TEXT_FRAME ∨ ws.read_state = READ_BINARY_FRAME))
    (hr : twTlsClient_Read ws.connection ws.bytesNeeded = ((k : Int), data, c))
    (hk : 0 < k) (hd : data.length = k) (hroom : ws.frameBufferPtr + k ≤ ws.frameSize + 11)
    (heq : ws.bytesNeeded = (k : Int))
    (hw : ws1 = { ws with connection := c,
                          frameBuffer := writeAt ws.frameBuffer ws.frameBufferPtr data,
                          frameBufferPtr := ws.frameBufferPtr + k, bytesNeeded := 0 }) :
    readBody ws saved =
      if ws.ws_header.getD 0 0 &&& 0x80 = 0x00 then Outcome.ret TW_OK (resetForNextMessage ws1)
      else
        match dispatch ws1 saved with
        | none => socketError ws1
        | some ws2 => Outcome.ret TW_OK (resetForNextMessage ws2) := by
  subst hw
  have h1 : (0 : Int) < (k : Int) := by omega
  have h2 : ¬ (ws.frameBufferPtr + k > ws.frameSize + WS_HEADER_MAX_SIZE + 1) := by
    simp only [WS_HEADER_MAX_SIZE]
    omega
  rw [readBody, if_pos hcond]
  rw [heq] at hr
  simp [hr, hd, h1, h2, heq, -List.getD_eq_getElem?_getD]

theorem dispatch_spec (ws : twWs) (saved : ReadState)
    (hop : ws.ws_header.getD 0 0 &&& 0x0f = 1 ∨ ws.ws_header.getD 0 0 &&& 0x0f = 2 ∨
      ws.ws_header.getD 0 0 &&& 0x0f = 9 ∨ ws.ws_header.getD 0 0 &&& 0x0f = 10) :
    ∃ rs, dispatch ws saved = some
      { ws with calls := deliveredCalls ws (ws.ws_header.getD 0 0 &&& 0x0f)
                  (ws.frameBuffer.take ws.frameBufferPtr) ws.frameBufferPtr,
                read_state := rs } := by
  rcases hop with h | h | h | h
  · refine ⟨ws.read_state, ?_⟩
    simp only [dispatch, deliveredCalls, h]
    by_cases hcb : ws.on_ws_textMessage = true
    · simp only [if_pos hcb]
      simp
    · simp only [if_neg hcb]
      simp
  · refine ⟨ws.read_state, ?_⟩
    simp only [dispatch, deliveredCalls, h]
    by_cases hcb : ws.on_ws_binaryMessage = true
    · simp only [if_pos hcb]
      simp
    · simp only [if_neg hcb]
      simp
  · refine ⟨saved, ?_⟩
    simp only [dispatch, deliveredCalls, h]
    by_cases hcb : ws.on_ws_ping = true
    · simp only [if_pos hcb]
      simp
    · simp only [if_neg hcb]
      simp
  · refine ⟨saved, ?_⟩
    simp only [dispatch, deliveredCalls, h]
    by_cases hcb : ws.on_ws_pong = true
    · simp only [if_pos hcb]
      simp
    · simp only [if_neg hcb]
      simp

theorem clearHeader_length (hdr : List Byte) (h : hdr.length = 64) :
    (clearHeader hdr).length = 64 := by
  unfold clearHeader
  rw [length_writeAt _ _ _ (by simp; omega)]
  exact h

theorem deliveredCalls_congr (ws base : twWs) (op : Nat) (data : List Byte) (length : Nat)
    (hcalls : ws.calls = base.calls)
    (ht : ws.on_ws_textMessage = base.on_ws_textMessage)
    (hb : ws.on_ws_binaryMessage = base.on_ws_binaryMessage)
    (hpi : ws.on_ws_ping = base.on_ws_ping) (hpo : ws.on_ws_pong = base.on_ws_pong) :
    deliveredCalls ws op data length = deliveredCalls base op data length := by
  simp only [deliveredCalls, hcalls, ht, hb, hpi, hpo]

theorem readBody_spec (base ws : twWs) (b0 : Byte) (payload : List Byte) (sched : List Nat)
    (q : Nat) (saved : ReadState) (hfs : payload.length ≤ base.frameSize)
    (hop : b0 &&& 0x0f = 1 ∨ b0 &&& 0x0f = 2 ∨ b0 &&& 0x0f = 9 ∨ b0 &&& 0x0f = 10)
    (h : BodyPhase base b0 payload sched q ws) :
    ∃ ws1, readBody ws saved = Outcome.ret TW_OK ws1 ∧
      ((∃ q1, BodyPhase base b0 payload sched.tail q1 ws1 ∧ sched ≠ []) ∨
        Idle base (expectedCalls base b0 payload) sched.tail ws1) := by
  obtain ⟨⟨hc, hfsz, ht, hb, hpi, hpo, hcl, hhl, hbl, hin, hsc⟩, hcalls, hst, hb0, hfp, hneed,
    hstored, hlt⟩ := h
  subst hfp
  generalize hN : payload.length - ws.frameBufferPtr = need at hneed
  have hcond : ws.bytesNeeded ≠ 0 ∧ (ws.read_state = READ_CONTROL_FRAME ∨
      ws.read_state = READ_TEXT_FRAME ∨ ws.read_state = READ_BINARY_FRAME) := by
    refine ⟨by omega, ?_⟩
    rw [hst]
    exact frameState_body _
  obtain ⟨k, data, c1, buf1, hread, hkle, hnil, hdata, hc1i, hc1s, hbuf1, hbl1, hst2⟩ :
      ∃ (k : Nat) (data : List Byte) (c1 : twTlsClient) (buf1 : List Byte),
        twTlsClient_Read ws.connection ws.bytesNeeded = (((k : Nat) : Int), data, c1) ∧
        k ≤ need ∧ (sched = [] → k = need) ∧ data.length = k ∧
        c1.inbound = List.drop (ws.frameBufferPtr + k) payload ∧
        c1.readScript = List.map ReadEvent.upTo sched.tail ∧
        buf1 = writeAt ws.frameBuffer ws.frameBufferPtr data ∧
        buf1.length = ws.frameSize + 11 ∧
        buf1.take (ws.frameBufferPtr + k) = payload.take (ws.frameBufferPtr + k) := by
    have havail : need ≤ ws.connection.inbound.length := by
      rw [hin, List.length_drop]
      omega
    have hread := read_spec ws.connection sched need hsc havail
    rw [← hneed] at hread
    have hkle := grant_le sched need
    have hdata : (ws.connection.inbound.take (grant sched need)).length = grant sched need := by
      rw [List.length_take]
      omega
    refine ⟨grant sched need, _, _, _, hread, hkle, ?_, hdata, ?_, rfl, rfl, ?_, ?_⟩
    · intro hs
      rw [hs, grant_nil]
    · show List.drop (grant sched need) ws.connection.inbound = _
      rw [hin, List.drop_drop]
    · rw [length_writeAt _ _ _ (by omega)]
      exact hbl
    · have := take_writeAt ws.frameBuffer ws.frameBufferPtr
        (ws.connection.inbound.take (grant sched need)) (by omega)
      rw [hdata] at this
      rw [this, hstored, hin, List.take_add]
  by_cases hk0 : k = 0
  · subst hk0
    refine ⟨_, readBody_timeout ws saved _ _ hcond hread, Or.inl ⟨ws.frameBufferPtr, ?_, ?_⟩⟩
    · refine ⟨⟨hc, hfsz, ht, hb, hpi, hpo, hcl, hhl, hbl, hc1i, hc1s⟩, hcalls, hst, hb0, rfl, ?_,
        hstored, hlt⟩
      rw [hN]
      exact hneed
    · intro hs
      have := hnil hs
      omega
  · by_cases hklt : k < need
    · refine ⟨_, readBody_short ws saved k data buf1 c1 hcond hread (by omega) hdata (by omega)
        (by omega) hbuf1, Or.inl ⟨ws.frameBufferPtr + k, ?_, ?_⟩⟩
      · refine ⟨⟨hc, hfsz, ht, hb, hpi, hpo, hcl, hhl, hbl1, hc1i, hc1s⟩, hcalls, hst, hb0, rfl,
          ?_, hst2, by omega⟩
        simp only [hneed]
        omega
      · intro hs
        have := hnil hs
        omega
    · have hkeq : k = need := by omega
      subst hkeq
      have htot : ws.frameBufferPtr + k = payload.length := by omega
      have hnil1 : c1.inbound = [] := by
        rw [hc1i, htot]
        exact List.drop_length payload
      rw [htot] at hst2
      rw [List.take_length] at hst2
      rw [readBody_full ws _ saved k data c1 hcond hread (by omega) hdata (by omega) hneed rfl,
        hb0, ← hbuf1]
      by_cases hfin : b0 &&& 0x80 = 0
      · rw [if_pos hfin]
        refine ⟨_, rfl, Or.inr ?_⟩
        refine ⟨⟨hc, hfsz, ht, hb, hpi, hpo, hcl, clearHeader_length _ hhl, hbl1, hnil1, hc1s⟩,
          ?_, rfl, rfl, rfl, rfl⟩
        show ws.calls = _
        rw [expectedCalls, if_pos hfin]
        exact hcalls
      · rw [if_neg hfin]
        obtain ⟨rs, hrs⟩ := dispatch_spec
          { ws with connection := c1, frameBuffer := buf1,
                    frameBufferPtr := ws.frameBufferPtr + k, bytesNeeded := 0 } saved
          (by rw [← hb0] at hop; exact hop)
        rw [hrs]
        refine ⟨_, rfl, Or.inr ?_⟩
        refine ⟨⟨hc, hfsz, ht, hb, hpi, hpo, hcl, clearHeader_length _ hhl, hbl1, hnil1, hc1s⟩,
          ?_, rfl, rfl, rfl, rfl⟩
        show deliveredCalls _ (ws.ws_header.getD 0 0 &&& 0x0f)
          (List.take (ws.frameBufferPtr + k) buf1) (ws.frameBufferPtr + k) = _
        rw [expectedCalls, if_neg hfin, htot, hst2, hb0]
        exact deliveredCalls_congr _ base _ _ _ hcalls ht hb hpi hpo

/-! ## One poll, many polls -/

theorem read_empty (c : twTlsClient) (sched : List Nat) (n : Int)
    (hs : c.readScript = sched.map ReadEvent.upTo) (hn : c.inbound = []) :
    twTlsClient_Read c n = (0, [], { c with readScript := sched.tail.map ReadEvent.upTo }) := by
  cases c with
  | mk inb rs wr wsr rc rr cl =>
    simp only at hn hs
    subst hn hs
    cases sched <;> simp [twTlsClient_Read]

theorem tail_length_lt (l : List Nat) (h : l ≠ []) : l.tail.length < l.length := by
  cases l with
  | nil => exact absurd rfl h
  | cons a t => simp

theorem tail_length_le (l : List Nat) : l.tail.length ≤ l.length := by
  cases l <;> simp

theorem receive_body (base ws : twWs) (b0 : Byte) (payload : List Byte) (sched sched0 : List Nat)
    (q : Nat) (saved : ReadState) (hfs : payload.length ≤ base.frameSize)
    (hop : b0 &&& 0x0f = 1 ∨ b0 &&& 0x0f = 2 ∨ b0 &&& 0x0f = 9 ∨ b0 &&& 0x0f = 10)
    (hle : sched.length ≤ sched0.length) (hnil : sched0 = [] → sched = [])
    (h : BodyPhase base b0 payload sched q ws) :
    ∃ ws1 sched1, readBody ws saved = Outcome.ret TW_OK ws1 ∧ Polled base b0 payload sched1 ws1 ∧
      (sched0 = [] → sched1 = [] ∧ Idle base (expectedCalls base b0 payload) [] ws1) ∧
      (sched0 ≠ [] → sched1.length < sched0.length) := by
  obtain ⟨ws1, he, hres⟩ := readBody_spec base ws b0 payload sched q saved hfs hop h
  refine ⟨ws1, sched.tail, he, ?_, ?_, ?_⟩
  · rcases hres with ⟨q1, hb, _⟩ | hi
    · exact Or.inr (Or.inl ⟨q1, hb⟩)
    · exact Or.inr (Or.inr hi)
  · intro h0
    have hs := hnil h0
    subst hs
    rcases hres with ⟨q1, _, hne⟩ | hi
    · exact absurd rfl hne
    · exact ⟨rfl, hi⟩
  · intro h0
    have h1 : 0 < sched0.length := List.length_pos.mpr h0
    by_cases hs : sched = []
    · rw [hs]
      exact h1
    · have := tail_length_lt sched hs
      omega

theorem receive_step (base ws : twWs) (b0 : Byte) (payload : List Byte) (sched : List Nat)
    (hn1 : 1 ≤ payload.length) (hfs : payload.length ≤ base.frameSize)
    (hop : b0 &&& 0x0f = 1 ∨ b0 &&& 0x0f = 2 ∨ b0 &&& 0x0f = 9 ∨ b0 &&& 0x0f = 10)
    (h : Polled base b0 payload sched ws) :
    ∃ ws1 sched1, twWs_Receive ws = Outcome.ret TW_OK ws1 ∧ Polled base b0 payload sched1 ws1 ∧
      (sched = [] → sched1 = [] ∧ Idle base (expectedCalls base b0 payload) [] ws1) ∧
      (sched ≠ [] → sched1.length < sched.length) := by
  have hop5 : b0 &&& 0x0f = 1 ∨ b0 &&& 0x0f = 2 ∨ b0 &&& 0x0f = 8 ∨ b0 &&& 0x0f = 9 ∨
      b0 &&& 0x0f = 10 := by
    rcases hop with h | h | h | h <;> simp [h]
  have hH := headerSize_cases payload.length
  rcases h with ⟨p, hph⟩ | ⟨q, hbp⟩ | hid
  · -- header phase
    have hconn : ¬ ws.isConnected = 0 := by rw [hph.session.connected]; decide
    obtain ⟨wsg, hg, hphg⟩ : ∃ wsg, (if ws.bytesNeeded > (ws.frameSize : Int) -
        (ws.frameBufferPtr : Int) then
          { ws with frameBufferPtr := 0, read_state := READ_HEADER,
                    bytesNeeded := WS_HEADER_MIN_SIZE, headerPtr := 0 }
        else ws) = wsg ∧
        HeaderPhase base (inboundFrame b0 payload) (headerSize payload.length) sched p wsg := by
      split
      · rename_i hfire
        refine ⟨_, rfl, ?_⟩
        obtain ⟨⟨hc, hfsz, ht, hb, hpi, hpo, hcl, hhl, hbl, hin, hsc⟩, hcalls, hst, hhp, hfp,
          hneed, hstored, hlt⟩ := hph
        have hp0 : p = 0 := by
          rw [hneed, hfp] at hfire
          split at hfire <;> omega
        subst hp0
        exact ⟨⟨hc, hfsz, ht, hb, hpi, hpo, hcl, hhl, hbl, hin, hsc⟩, hcalls, rfl, rfl, rfl, rfl,
          fun i hi => absurd hi (Nat.not_lt_zero i), hlt⟩
      · exact ⟨_, rfl, hph⟩
    simp only [twWs_Receive, if_neg hconn, hg]
    rcases headerLoop_spec base wsg b0 payload sched p READ_HEADER 62 hn1 hfs hop5 hphg with
      ⟨ws1, p1, sched1, he, hph1, hlt1⟩ | ⟨ws1, s1, sched1, he, hbody, hle, hnil⟩
    · rw [he]
      refine ⟨ws1, sched1, rfl, Or.inl ⟨p1, hph1⟩, ?_, fun _ => hlt1⟩
      intro h0
      rw [h0] at hlt1
      exact absurd hlt1 (Nat.not_lt_zero _)
    · rw [he]
      exact receive_body base ws1 b0 payload sched1 sched 0 s1 hfs hop hle hnil hbody
  · -- payload phase
    have hconn : ¬ ws.isConnected = 0 := by rw [hbp.session.connected]; decide
    have hg : ¬ ws.bytesNeeded > (ws.frameSize : Int) - (ws.frameBufferPtr : Int) := by
      rw [hbp.need, hbp.fp, hbp.session.frameSize_eq]
      have := hbp.lt
      omega
    simp only [twWs_Receive, if_neg hconn, if_neg hg]
    rw [headerLoop_exit 64 ws READ_HEADER (by rw [hbp.state]; exact frameState_ne_header _)]
    exact receive_body base ws b0 payload sched sched q READ_HEADER hfs hop (le_refl _)
      (fun h => h) hbp
  · -- between frames, nothing inbound
    have hconn : ¬ ws.isConnected = 0 := by rw [hid.session.connected]; decide
    obtain ⟨wsg, hg, hidg⟩ : ∃ wsg, (if ws.bytesNeeded > (ws.frameSize : Int) -
        (ws.frameBufferPtr : Int) then
          { ws with frameBufferPtr := 0, read_state := READ_HEADER,
                    bytesNeeded := WS_HEADER_MIN_SIZE, headerPtr := 0 }
        else ws) = wsg ∧ Idle base (expectedCalls base b0 payload) sched wsg := by
      split
      · refine ⟨_, rfl, ?_⟩
        obtain ⟨⟨hc, hfsz, ht, hb, hpi, hpo, hcl, hhl, hbl, hin, hsc⟩, hcalls, hst, hhp, hfp,
          hneed⟩ := hid
        exact ⟨⟨hc, hfsz, ht, hb, hpi, hpo, hcl, hhl, hbl, hin, hsc⟩, hcalls, rfl, rfl, rfl, rfl⟩
      · exact ⟨_, rfl, hid⟩
    simp only [twWs_Receive, if_neg hconn, hg]
    have hread := read_empty wsg.connection sched wsg.bytesNeeded hidg.session.script_eq
      hidg.session.inbound_eq
    rw [headerLoop_step 64 wsg READ_HEADER hidg.state,
      headerStep_timeout wsg READ_HEADER _ _ hread]
    obtain ⟨⟨hc, hfsz, ht, hb, hpi, hpo, hcl, hhl, hbl, hin, hsc⟩, hcalls, hst, hhp, hfp,
      hneed⟩ := hidg
    have hidle : Idle base (expectedCalls base b0 payload) sched.tail
        { wsg with connection :=
            { wsg.connection with readScript := sched.tail.map ReadEvent.upTo } } :=
      ⟨⟨hc, hfsz, ht, hb, hpi, hpo, hcl, hhl, hbl, hin, rfl⟩, hcalls, hst, hhp, hfp, hneed⟩
    refine ⟨_, sched.tail, rfl, Or.inr (Or.inr hidle), ?_, tail_length_lt sched⟩
    intro h0
    subst h0
    exact ⟨rfl, hidle⟩

theorem receiveMany_spec (base : twWs) (b0 : Byte) (payload : List Byte)
    (hn1 : 1 ≤ payload.length) (hfs : payload.length ≤ base.frameSize)
    (hop : b0 &&& 0x0f = 1 ∨ b0 &&& 0x0f = 2 ∨ b0 &&& 0x0f = 9 ∨ b0 &&& 0x0f = 10) :
    ∀ (m : Nat) (sched : List Nat) (ws : twWs), Polled base b0 payload sched ws →
      sched.length < m →
      ∃ ws1, receiveMany m ws = (List.replicate m TW_OK, Outcome.ret TW_OK ws1) ∧
        Idle base (expectedCalls base b0 payload) [] ws1 := by
  intro m
  induction m with
  | zero =>
    intro sched ws _ hm
    exact absurd hm (Nat.not_lt_zero _)
  | succ m ih =>
    intro sched ws hp hm
    obtain ⟨ws1, sched1, he, hp1, hnil, hlt⟩ := receive_step base ws b0 payload sched hn1 hfs hop hp
    by_cases hs1 : sched1.length < m
    · obtain ⟨ws2, he2, hid⟩ := ih sched1 ws1 hp1 hs1
      refine ⟨ws2, ?_, hid⟩
      simp only [receiveMany, he, he2, List.replicate_succ]
    · have hsn : sched = [] := by
        by_contra hne
        have := hlt hne
        omega
      obtain ⟨h1, hid⟩ := hnil hsn
      have hm0 : m = 0 := by
        rw [h1] at hs1
        simpa using hs1
      subst hm0
      refine ⟨ws1, ?_, hid⟩
      simp [receiveMany, he]

theorem start_polled (ws : twWs) (b0 : Byte) (payload : List Byte) (sched : List Nat)
    (hconn : ws.isConnected = 1) (hstate : ws.read_state = READ_HEADER)
    (hneed : ws.bytesNeeded = 2) (hhp : ws.headerPtr = 0) (hfp : ws.frameBufferPtr = 0)
    (hhl : ws.ws_header.length = 64) (hbl : ws.frameBuffer.length = ws.frameSize + 11)
    (hin : ws.connection.inbound = inboundFrame b0 payload)
    (hsc : ws.connection.readScript = sched.map ReadEvent.upTo) :
    Polled ws b0 payload sched ws := by
  refine Or.inl ⟨0, ⟨hconn, rfl, rfl, rfl, rfl, rfl, rfl, hhl, hbl, ?_, hsc⟩, rfl, hstate, hhp,
    hfp, ?_, ?_, ?_⟩
  · simpa using hin
  · simpa using hneed
  · intro i hi
    exact absurd hi (Nat.not_lt_zero i)
  · rcases headerSize_cases payload.length with ⟨_, h⟩ | ⟨_, h⟩ <;> omega

/-! ## The send path -/

theorem lor_small : ∀ L, L < 126 → (0x80 + L) % 256 = 0x80 ||| L := by decide

theorem and_small : ∀ L, L < 126 → ((0x80 + L) % 256) &&& 0x7f = L := by decide

theorem write_ok (c : twTlsClient) (data : List Byte) (hw : c.writeScript = []) :
    twTlsClient_Write c data =
      ((data.length : Int), { c with written := c.written ++ [data] }) := by
  simp [twTlsClient_Write, hw]

theorem dataFrameHeader_length (L : Nat) (c f t : Bool) :
    (dataFrameHeader L c f t).length = if L < 126 then 6 else 8 := by
  by_cases h : L < 126 <;> simp [dataFrameHeader, h]

theorem dataFrameHeader_bytes (L : Nat) (isContinuation isFinal isText : Bool)
    (hL : L ≤ 65535) :
    dataFrameHeader L isContinuation isFinal isText =
      ((if isFinal then 0x80 else 0) |||
          (if isContinuation then 0x00 else if isText then 0x01 else 0x02)) ::
        (if L < 126 then [0x80 ||| L, 0, 0, 0, 0] else [0xFE, L / 256, L % 256, 0, 0, 0, 0]) := by
  have hdiv : L / 256 % 256 = L / 256 := by omega
  by_cases h : L < 126
  · simp only [dataFrameHeader, h, if_true, lor_small L h]
    cases isContinuation <;> cases isFinal <;> cases isText <;> simp
  · simp only [dataFrameHeader, h, if_false, hdiv]
    cases isContinuation <;> cases isFinal <;> cases isText <;> simp

theorem sendDataFrame_ok (ws : twWs) (msg : List Byte) (L : Nat)
    (isContinuation isFinal isText : Bool)
    (hconn : ws.isConnected = 1) (hlen : L ≤ msg.length) (hL : L ≤ ws.frameSize)
    (hfs : ws.frameSize ≤ 65535) (hw : ws.connection.writeScript = []) :
    sendDataFrame ws (some msg) L isContinuation isFinal isText =
      (TW_OK, { ws with connection := { ws.connection with written :=
        ws.connection.written ++
          [dataFrameHeader L isContinuation isFinal isText, msg.take L] } }) := by
  have hmod : L % 65536 = L := Nat.mod_eq_of_lt (by omega)
  unfold sendDataFrame
  simp only [hmod, hconn, ne_eq, not_true_eq_false, if_false]
  have h1 : ¬ ws.frameSize < L := by omega
  simp only [h1, if_false]
  rw [write_ok _ _ hw]
  rw [write_ok _ _ (by simpa using hw)]
  simp [dataFrameHeader_length, List.length_take, Nat.min_eq_left hlen]

theorem sendLoop_single (buf : List Byte) (isText : Bool) (fuel : Nat) (ws : twWs)
    (length : Nat) (hconn : ws.isConnected = 1) (h1 : 1 ≤ length) (hlen : length ≤ buf.length)
    (hL : length ≤ ws.frameSize) (hfs : ws.frameSize ≤ 65535)
    (hw : ws.connection.writeScript = []) :
    sendLoop buf isText (fuel + 1) ws 0 length 0 =
      some (TW_OK, { ws with connection := { ws.connection with written :=
        ws.connection.written ++ [dataFrameHeader length false true isText, buf.take length] } }) := by
  have h0 : length > 0 := by omega
  have h2 : ¬ length > ws.frameSize := by omega
  rw [sendLoop]
  simp only [h0, h2, if_true, if_false, ne_eq, not_true_eq_false, List.drop_zero]
  rw [sendDataFrame_ok ws buf length false true isText hconn hlen hL hfs hw]
  cases fuel <;> simp [sendLoop]

theorem dataFrameHeader_opcode (L : Nat) (isContinuation isFinal isText : Bool) :
    (dataFrameHeader L isContinuation isFinal isText).getD 0 0 &&& 0x0f =
        (if isContinuation then 0x00 else if isText then 0x01 else 0x02) ∧
      ((dataFrameHeader L isContinuation isFinal isText).getD 0 0 &&& 0x80 = 0x80 ↔
        isFinal = true) := by
  by_cases h : L < 126 <;> cases isContinuation <;> cases isFinal <;> cases isText <;>
    simp [dataFrameHeader, h] <;> decide

theorem unmaskedHeader_dataFrameHeader (L : Nat) (isContinuation isFinal isText : Bool)
    (hL : L ≤ 65535) :
    unmaskedHeader (dataFrameHeader L isContinuation isFinal isText) =
      (dataFrameHeader L isContinuation isFinal isText).getD 0 0 ::
        (if L < 126 then [L] else [126, L / 256, L % 256]) := by
  have hdiv : L / 256 % 256 = L / 256 := by omega
  have hfe : (254 : Nat) &&& 127 = 126 := by decide
  by_cases h : L < 126
  · have := and_small L h
    simp [dataFrameHeader, unmaskedHeader, h, this]
  · simp [dataFrameHeader, unmaskedHeader, h, hdiv, hfe]

/-! ## The fuel of the two loops is enough

`twWs_Receive` never ends in `outOfFuel`, and `twWs_SendMessage` returns whenever
`frameSize` is at least 1. -/

theorem headerComplete_not_outOfFuel (ws : twWs) (saved : ReadState) :
    (∃ ws1 s1, headerComplete ws saved = LoopStep.next ws1 s1 ∧ ws1.headerPtr = ws.headerPtr) ∨
    (∃ o, headerComplete ws saved = LoopStep.done o ∧ o ≠ Outcome.outOfFuel) := by
  unfold headerComplete
  simp only []
  split
  · right
    exact ⟨_, rfl, by simp [socketError]⟩
  · rename_i ws1 s1 heq
    split
    · right
      exact ⟨_, rfl, by simp⟩
    · left
      refine ⟨ws1, s1, rfl, ?_⟩
      split at heq
      · simp only [Option.some.injEq, Prod.mk.injEq] at heq
        rw [← heq.1]
      · split at heq
        · simp only [Option.some.injEq, Prod.mk.injEq] at heq
          rw [← heq.1]
        · split at heq
          · simp only [Option.some.injEq, Prod.mk.injEq] at heq
            rw [← heq.1]
          · split at heq
            · simp only [Option.some.injEq, Prod.mk.injEq] at heq
              rw [← heq.1]
            · exact absurd heq (by simp)

theorem parseHeader_not_outOfFuel (ws : twWs) (saved : ReadState) :
    (∃ ws1 s1, parseHeader ws saved = LoopStep.next ws1 s1 ∧ ws1.headerPtr = ws.headerPtr) ∨
    (∃ o, parseHeader ws saved = LoopStep.done o ∧ o ≠ Outcome.outOfFuel) := by
  unfold parseHeader
  simp only []
  split
  · right
    exact ⟨_, rfl, by simp [socketError]⟩
  · split
    · split
      · left
        exact ⟨_, _, rfl, rfl⟩
      · split
        · right
          exact ⟨_, rfl, by simp [socketError]⟩
        · exact headerComplete_not_outOfFuel _ saved
    · exact headerComplete_not_outOfFuel _ saved

theorem headerStep_not_outOfFuel (ws : twWs) (saved : ReadState) :
    (∃ ws1 s1, headerStep ws saved = LoopStep.next ws1 s1 ∧ ws.headerPtr < ws1.headerPtr ∧
      ws1.headerPtr ≤ 64) ∨
    (∃ o, headerStep ws saved = LoopStep.done o ∧ o ≠ Outcome.outOfFuel) := by
  unfold headerStep
  simp only []
  split
  · rename_i hpos
    split
    · right
      exact ⟨_, rfl, by simp⟩
    · rename_i hroom
      split
      · right
        exact ⟨_, rfl, by simp⟩
      · split
        · right
          exact ⟨_, rfl, by simp [socketError]⟩
        · have hlen : 0 < (twTlsClient_Read ws.connection ws.bytesNeeded).2.1.length := by
            by_contra h0
            have h1 : (twTlsClient_Read ws.connection ws.bytesNeeded).2.1 = [] :=
              List.length_eq_zero.mp (by omega)
            have h2 : (twTlsClient_Read ws.connection ws.bytesNeeded).1 = 0 := by
              revert h1
              unfold twTlsClient_Read
              split
              · simp only [List.take_eq_nil_iff]
                intro h
                rcases h with h | h
                · simp [h]
                · simp [h]
              · simp at hpos
                simp [twTlsClient_Read, *] at hpos
              · simp only [List.take_eq_nil_iff]
                intro h
                rcases h with h | h
                · simp [h]
                · simp [h]
            omega
          rcases parseHeader_not_outOfFuel
            { ws with connection := (twTlsClient_Read ws.connection ws.bytesNeeded).2.2,
                      ws_header := writeAt ws.ws_header ws.headerPtr
                        (twTlsClient_Read ws.connection ws.bytesNeeded).2.1,
                      headerPtr := ws.headerPtr +
                        (twTlsClient_Read ws.connection ws.bytesNeeded).2.1.length,
                      bytesNeeded := ws.bytesNeeded -
                        (twTlsClient_Read ws.connection ws.bytesNeeded).1 } saved with
            ⟨ws1, s1, he, hp⟩ | ⟨o, he, ho⟩
          · left
            refine ⟨ws1, s1, he, ?_, ?_⟩
            · rw [hp]
              show ws.headerPtr < ws.headerPtr + _
              omega
            · rw [hp]
              show ws.headerPtr + _ ≤ 64
              omega
          · right
            exact ⟨o, he, ho⟩
  · split
    · right
      exact ⟨_, rfl, by simp [socketError]⟩
    · right
      exact ⟨_, rfl, by simp⟩

theorem headerLoop_fuel : ∀ (fuel : Nat) (ws : twWs) (saved : ReadState),
    65 ≤ fuel + ws.headerPtr → 1 ≤ fuel →
    headerLoop fuel ws saved ≠ LoopExit.done Outcome.outOfFuel := by
  intro fuel
  induction fuel with
  | zero =>
    intro ws saved _ h1
    omega
  | succ fuel ih =>
    intro ws saved h65 _
    by_cases hs : ws.read_state = READ_HEADER
    · rw [headerLoop_step fuel ws saved hs]
      rcases headerStep_not_outOfFuel ws saved with ⟨ws1, s1, he, hlt, hle⟩ | ⟨o, he, ho⟩
      · rw [he]
        exact ih ws1 s1 (by omega) (by omega)
      · rw [he]
        intro hc
        exact ho (LoopExit.done.inj hc)
    · rw [headerLoop_exit fuel ws saved hs]
      simp

theorem readBody_not_outOfFuel (ws : twWs) (saved : ReadState) :
    readBody ws saved ≠ Outcome.outOfFuel := by
  unfold readBody
  simp only []
  split
  · split
    · split
      · simp
      · split
        · simp
        · split
          · simp [socketError]
          · split
            · simp
            · split <;> simp [socketError]
    · split <;> simp [socketError]
  · simp

theorem twWs_Receive_not_outOfFuel (ws : twWs) : twWs_Receive ws ≠ Outcome.outOfFuel := by
  unfold twWs_Receive
  split
  · simp
  · simp only []
    split
    · rename_i o he
      intro hc
      rw [hc] at he
      refine headerLoop_fuel 65 _ READ_HEADER (by omega) (by omega) he
    · exact readBody_not_outOfFuel _ _

theorem sendDataFrame_connection (ws : twWs) (msg : Option (List Byte)) (L : Nat)
    (c f t : Bool) :
    (sendDataFrame ws msg L c f t).2.frameSize = ws.frameSize := by
  unfold sendDataFrame
  simp only []
  split
  · rfl
  · split
    · rfl
    · split
      · rfl
      · split <;> simp [restartSocket]

theorem sendLoop_terminates (buf : List Byte) (isText : Bool) :
    ∀ (fuel : Nat) (ws : twWs) (ptr length framesSent : Nat), 1 ≤ ws.frameSize →
      length ≤ fuel → sendLoop buf isText fuel ws ptr length framesSent ≠ none := by
  intro fuel
  induction fuel with
  | zero =>
    intro ws ptr length framesSent _ hl
    have : length = 0 := by omega
    subst this
    simp [sendLoop]
  | succ fuel ih =>
    intro ws ptr length framesSent hfs hl
    rw [sendLoop]
    split
    · split
      · split
        all_goals
          simp only []
          split
          · simp
          · exact ih _ _ _ _ (by rw [sendDataFrame_connection]; exact hfs) (by omega)
      · split
        all_goals
          simp only []
          split
          · simp
          · exact ih _ _ _ _ (by rw [sendDataFrame_connection]; exact hfs) (by omega)
    · simp

theorem twWs_SendMessage_returns (ws : twWs) (buf : Option (List Byte)) (length : Nat)
    (isText : Bool) (hfs : 1 ≤ ws.frameSize) : twWs_SendMessage ws buf length isText ≠ none := by
  unfold twWs_SendMessage
  split
  · simp
  · split
    · simp
    · split
      · simp
      · split
        · simp
        · exact sendLoop_terminates _ isText length ws 0 length 0 hfs (le_refl _)

/-! ## Timeouts and fatal errors of one poll -/

theorem read_zero (c : twTlsClient) (n : Int) (h : (twTlsClient_Read c n).1 = 0) :
    twTlsClient_Read c n = (0, [], { c with readScript := c.readScript.tail }) := by
  cases c with
  | mk inb rs wr wsr rc rr cl =>
    cases rs with
    | nil =>
      simp only [twTlsClient_Read] at h ⊢
      have hk : min n.toNat inb.length = 0 := by omega
      simp [hk]
    | cons e rest =>
      cases e with
      | error => simp [twTlsClient_Read] at h
      | upTo m =>
        simp only [twTlsClient_Read] at h ⊢
        have hk : min m (min n.toNat inb.length) = 0 := by omega
        simp [hk]

theorem socketError_eq (ws : twWs) :
    socketError ws = Outcome.ret TW_ERROR_READING_FROM_WEBSOCKET
      { ws with isConnected := 0, connect_state := 0, frameBufferPtr := 0, headerPtr := 0,
                calls := ws.calls ++
                  (if ws.on_ws_close then [Call.close socketErrorMsg 12] else []),
                connection :=
                  { ws.connection with reconnects := ws.connection.reconnects + 1 } } := by
  cases hcb : ws.on_ws_close <;>
    simp [socketError, restartSocket, twTlsClient_Reconnect, hcb, socketErrorMsg]

theorem read_reconnects (c : twTlsClient) (n : Int) :
    (twTlsClient_Read c n).2.2.reconnects = c.reconnects := by
  unfold twTlsClient_Read
  split <;> rfl

theorem fatalPost_socketError (ws ws1 : twWs) (h : SameTrace ws ws1) :
    FatalPost ws (socketError ws1) := by
  intro ws2 he
  rw [socketError_eq] at he
  have := Outcome.ret.inj he
  rw [← this.2]
  refine ⟨rfl, rfl, rfl, rfl, ?_, ?_⟩
  · show ws1.connection.reconnects + 1 = _
    rw [h.1]
  · show ws1.calls ++ _ = _
    rw [h.2.1, h.2.2]

theorem fatalPost_ok (ws ws1 : twWs) : FatalPost ws (Outcome.ret TW_OK ws1) := by
  intro ws2 he
  have := (Outcome.ret.inj he).1
  exact absurd this (by decide)

theorem fatalPost_headerComplete (ws ws1 : twWs) (saved : ReadState) (h : SameTrace ws ws1) :
    (∃ ws2 s2, headerComplete ws1 saved = LoopStep.next ws2 s2 ∧ SameTrace ws ws2) ∨
    (∃ o, headerComplete ws1 saved = LoopStep.done o ∧ FatalPost ws o) := by
  unfold headerComplete
  simp only []
  split
  · right
    exact ⟨_, rfl, fatalPost_socketError ws ws1 h⟩
  · rename_i ws2 s2 heq
    have hsame : SameTrace ws ws2 := by
      split at heq
      · simp only [Option.some.injEq, Prod.mk.injEq] at heq
        rw [← heq.1]
        exact h
      · split at heq
        · simp only [Option.some.injEq, Prod.mk.injEq] at heq
          rw [← heq.1]
          exact h
        · split at heq
          · simp only [Option.some.injEq, Prod.mk.injEq] at heq
            rw [← heq.1]
            exact h
          · split at heq
            · simp only [Option.some.injEq, Prod.mk.injEq] at heq
              rw [← heq.1]
              exact h
            · exact absurd heq (by simp)
    split
    · right
      exact ⟨_, rfl, fatalPost_ok ws _⟩
    · left
      exact ⟨ws2, s2, rfl, hsame⟩

theorem fatalPost_parseHeader (ws ws1 : twWs) (saved : ReadState) (h : SameTrace ws ws1) :
    (∃ ws2 s2, parseHeader ws1 saved = LoopStep.next ws2 s2 ∧ SameTrace ws ws2) ∨
    (∃ o, parseHeader ws1 saved = LoopStep.done o ∧ FatalPost ws o) := by
  unfold parseHeader
  simp only []
  split
  · right
    exact ⟨_, rfl, fatalPost_socketError ws ws1 h⟩
  · split
    · split
      · left
        exact ⟨_, _, rfl, h⟩
      · split
        · right
          exact ⟨_, rfl, fatalPost_socketError ws _ h⟩
        · exact fatalPost_headerComplete ws _ saved h
    · exact fatalPost_headerComplete ws _ saved h

theorem fatalPost_headerStep (ws ws1 : twWs) (saved : ReadState) (h : SameTrace ws ws1) :
    (∃ ws2 s2, headerStep ws1 saved = LoopStep.next ws2 s2 ∧ SameTrace ws ws2) ∨
    (∃ o, headerStep ws1 saved = LoopStep.done o ∧ FatalPost ws o) := by
  have hr : SameTrace ws
      { ws1 with connection := (twTlsClient_Read ws1.connection ws1.bytesNeeded).2.2 } :=
    ⟨by rw [← h.1]; exact read_reconnects _ _, h.2.1, h.2.2⟩
  unfold headerStep
  simp only []
  split
  · split
    · right
      refine ⟨_, rfl, ?_⟩
      intro ws2 he
      exact absurd he (by simp)
    · split
      · right
        exact ⟨_, rfl, fatalPost_ok ws _⟩
      · split
        · right
          exact ⟨_, rfl, fatalPost_socketError ws _ hr⟩
        · exact fatalPost_parseHeader ws _ saved hr
  · split
    · right
      exact ⟨_, rfl, fatalPost_socketError ws _ hr⟩
    · right
      exact ⟨_, rfl, fatalPost_ok ws _⟩

theorem fatalPost_headerLoop (ws : twWs) : ∀ (fuel : Nat) (ws1 : twWs) (saved : ReadState),
    SameTrace ws ws1 →
    (∃ ws2 s2, headerLoop fuel ws1 saved = LoopExit.fallThrough ws2 s2 ∧ SameTrace ws ws2) ∨
    (∃ o, headerLoop fuel ws1 saved = LoopExit.done o ∧ FatalPost ws o) := by
  intro fuel
  induction fuel with
  | zero =>
    intro ws1 saved _
    right
    refine ⟨Outcome.outOfFuel, rfl, ?_⟩
    intro ws2 he
    exact absurd he (by simp)
  | succ fuel ih =>
    intro ws1 saved h
    by_cases hs : ws1.read_state = READ_HEADER
    · rw [headerLoop_step fuel ws1 saved hs]
      rcases fatalPost_headerStep ws ws1 saved h with ⟨ws2, s2, he, h2⟩ | ⟨o, he, ho⟩
      · rw [he]
        exact ih ws2 s2 h2
      · rw [he]
        right
        exact ⟨o, rfl, ho⟩
    · rw [headerLoop_exit fuel ws1 saved hs]
      left
      exact ⟨ws1, saved, rfl, h⟩

theorem fatalPost_readBody (ws ws1 : twWs) (saved : ReadState) (h : SameTrace ws ws1) :
    FatalPost ws (readBody ws1 saved) := by
  have hr : SameTrace ws
      { ws1 with connection := (twTlsClient_Read ws1.connection ws1.bytesNeeded).2.2 } :=
    ⟨by rw [← h.1]; exact read_reconnects _ _, h.2.1, h.2.2⟩
  unfold readBody
  simp only []
  split
  · split
    · split
      · intro ws2 he
        exact absurd he (by simp)
      · split
        · exact fatalPost_ok ws _
        · split
          · exact fatalPost_socketError ws _ hr
          · split
            · exact fatalPost_ok ws _
            · split
              · exact fatalPost_socketError ws _ hr
              · exact fatalPost_ok ws _
    · split
      · exact fatalPost_socketError ws _ hr
      · exact fatalPost_ok ws _
  · exact fatalPost_ok ws _

theorem fatalPost_receive (ws : twWs) : FatalPost ws (twWs_Receive ws) := by
  unfold twWs_Receive
  split
  · intro ws2 he
    have := (Outcome.ret.inj he).1
    exact absurd this (by decide)
  · have hg : SameTrace ws
        (if ws.bytesNeeded > (ws.frameSize : Int) - (ws.frameBufferPtr : Int) then
          { ws with frameBufferPtr := 0, read_state := READ_HEADER,
                    bytesNeeded := WS_HEADER_MIN_SIZE, headerPtr := 0 }
        else ws) := by
      split <;> exact ⟨rfl, rfl, rfl⟩
    simp only []
    rcases fatalPost_headerLoop ws 65 _ READ_HEADER hg with ⟨ws2, s2, he, h2⟩ | ⟨o, he, ho⟩
    · rw [he]
      exact fatalPost_readBody ws ws2 s2 h2
    · rw [he]
      exact ho

/-! ## Close frames -/

theorem dispatch_close (ws : twWs) (saved : ReadState)
    (hop : ws.ws_header.getD 0 0 &&& 0x0f = 8) :
    dispatch ws saved = some
      { ws with isConnected := 0,
                calls := if ws.on_ws_close then
                    ws.calls ++ [Call.close (ws.frameBuffer.take ws.frameBufferPtr)
                      ws.frameBufferPtr]
                  else ws.calls,
                read_state := saved } := by
  simp only [dispatch, hop]
  by_cases hcb : ws.on_ws_close = true
  · simp only [if_pos hcb]
    simp
  · simp only [if_neg hcb]
    simp

theorem readBody_close (base ws : twWs) (b0 : Byte) (payload : List Byte) (sched : List Nat)
    (q : Nat) (saved : ReadState) (hfs : payload.length ≤ base.frameSize)
    (hop : b0 &&& 0x0f = 8) (hfin : ¬ b0 &&& 0x80 = 0)
    (h : BodyPhase base b0 payload sched q ws) :
    ∃ ws1, readBody ws saved = Outcome.ret TW_OK ws1 ∧
      ((∃ q1, BodyPhase base b0 payload sched.tail q1 ws1 ∧ sched ≠ []) ∨
        Closed (closeCalls base payload) ws1) := by
  obtain ⟨⟨hc, hfsz, ht, hb, hpi, hpo, hcl, hhl, hbl, hin, hsc⟩, hcalls, hst, hb0, hfp, hneed,
    hstored, hlt⟩ := h
  subst hfp
  generalize hN : payload.length - ws.frameBufferPtr = need at hneed
  have hcond : ws.bytesNeeded ≠ 0 ∧ (ws.read_state = READ_CONTROL_FRAME ∨
      ws.read_state = READ_TEXT_FRAME ∨ ws.read_state = READ_BINARY_FRAME) := by
    refine ⟨by omega, ?_⟩
    rw [hst]
    exact frameState_body _
  obtain ⟨k, data, c1, buf1, hread, hkle, hnil, hdata, hc1i, hc1s, hbuf1, hbl1, hst2⟩ :
      ∃ (k : Nat) (data : List Byte) (c1 : twTlsClient) (buf1 : List Byte),
        twTlsClient_Read ws.connection ws.bytesNeeded = (((k : Nat) : Int), data, c1) ∧
        k ≤ need ∧ (sched = [] → k = need) ∧ data.length = k ∧
        c1.inbound = List.drop (ws.frameBufferPtr + k) payload ∧
        c1.readScript = List.map ReadEvent.upTo sched.tail ∧
        buf1 = writeAt ws.frameBuffer ws.frameBufferPtr data ∧
        buf1.length = ws.frameSize + 11 ∧
        buf1.take (ws.frameBufferPtr + k) = payload.take (ws.frameBufferPtr + k) := by
    have havail : need ≤ ws.connection.inbound.length := by
      rw [hin, List.length_drop]
      omega
    have hread := read_spec ws.connection sched need hsc havail
    rw [← hneed] at hread
    have hkle := grant_le sched need
    have hdata : (ws.connection.inbound.take (grant sched need)).length = grant sched need := by
      rw [List.length_take]
      omega
    refine ⟨grant sched need, _, _, _, hread, hkle, ?_, hdata, ?_, rfl, rfl, ?_, ?_⟩
    · intro hs
      rw [hs, grant_nil]
    · show List.drop (grant sched need) ws.connection.inbound = _
      rw [hin, List.drop_drop]
    · rw [length_writeAt _ _ _ (by omega)]
      exact hbl
    · have := take_writeAt ws.frameBuffer ws.frameBufferPtr
        (ws.connection.inbound.take (grant sched need)) (by omega)
      rw [hdata] at this
      rw [this, hstored, hin, List.take_add]
  by_cases hk0 : k = 0
  · subst hk0
    refine ⟨_, readBody_timeout ws saved _ _ hcond hread, Or.inl ⟨ws.frameBufferPtr, ?_, ?_⟩⟩
    · refine ⟨⟨hc, hfsz, ht, hb, hpi, hpo, hcl, hhl, hbl, hc1i, hc1s⟩, hcalls, hst, hb0, rfl, ?_,
        hstored, hlt⟩
      rw [hN]
      exact hneed
    · intro hs
      have := hnil hs
      omega
  · by_cases hklt : k < need
    · refine ⟨_, readBody_short ws saved k data buf1 c1 hcond hread (by omega) hdata (by omega)
        (by omega) hbuf1, Or.inl ⟨ws.frameBufferPtr + k, ?_, ?_⟩⟩
      · refine ⟨⟨hc, hfsz, ht, hb, hpi, hpo, hcl, hhl, hbl1, hc1i, hc1s⟩, hcalls, hst, hb0, rfl,
          ?_, hst2, by omega⟩
        simp only [hneed]
        omega
      · intro hs
        have := hnil hs
        omega
    · have hkeq : k = need := by omega
      subst hkeq
      have htot : ws.frameBufferPtr + k = payload.length := by omega
      have hnil1 : c1.inbound = [] := by
        rw [hc1i, htot]
        exact List.drop_length payload
      rw [htot] at hst2
      rw [List.take_length] at hst2
      rw [readBody_full ws _ saved k data c1 hcond hread (by omega) hdata (by omega) hneed rfl,
        hb0, ← hbuf1, if_neg hfin,
        dispatch_close _ saved (by rw [← hb0] at hop; exact hop)]
      refine ⟨_, rfl, Or.inr ⟨rfl, ?_, hnil1, rfl, rfl, rfl, rfl⟩⟩
      show (if ws.on_ws_close = true then
          ws.calls ++ [Call.close (List.take (ws.frameBufferPtr + k) buf1)
            (ws.frameBufferPtr + k)]
        else ws.calls) = closeCalls base payload
      rw [htot, hst2, hcalls, hcl]
      rfl

theorem receive_not_connected (ws : twWs) (h : ws.isConnected = 0) :
    twWs_Receive ws = Outcome.ret TW_WEBSOCKET_NOT_CONNECTED ws := by
  simp [twWs_Receive, h]

theorem receiveMany_not_connected (ws : twWs) (h : ws.isConnected = 0) (m : Nat) :
    receiveMany m ws =
      (List.replicate m TW_WEBSOCKET_NOT_CONNECTED, Outcome.ret TW_OK ws) := by
  induction m with
  | zero => rfl
  | succ m ih => simp [receiveMany, receive_not_connected ws h, ih, List.replicate_succ]

theorem receive_close_step (base ws : twWs) (b0 : Byte) (payload : List Byte)
    (sched : List Nat) (hn1 : 1 ≤ payload.length) (hfs : payload.length ≤ base.frameSize)
    (hop : b0 &&& 0x0f = 8) (hfin : ¬ b0 &&& 0x80 = 0)
    (h : InProgress base b0 payload sched ws) :
    ∃ ws1, twWs_Receive ws = Outcome.ret TW_OK ws1 ∧
      ((∃ sched1, InProgress base b0 payload sched1 ws1 ∧ sched1.length < sched.length) ∨
        Closed (closeCalls base payload) ws1) := by
  have hop5 : b0 &&& 0x0f = 1 ∨ b0 &&& 0x0f = 2 ∨ b0 &&& 0x0f = 8 ∨ b0 &&& 0x0f = 9 ∨
      b0 &&& 0x0f = 10 := by
    simp [hop]
  rcases h with ⟨p, hph⟩ | ⟨q, hbp⟩
  · have hconn : ¬ ws.isConnected = 0 := by rw [hph.session.connected]; decide
    obtain ⟨wsg, hg, hphg⟩ : ∃ wsg, (if ws.bytesNeeded > (ws.frameSize : Int) -
        (ws.frameBufferPtr : Int) then
          { ws with frameBufferPtr := 0, read_state := READ_HEADER,
                    bytesNeeded := WS_HEADER_MIN_SIZE, headerPtr := 0 }
        else ws) = wsg ∧
        HeaderPhase base (inboundFrame b0 payload) (headerSize payload.length) sched p wsg := by
      split
      · rename_i hfire
        refine ⟨_, rfl, ?_⟩
        obtain ⟨⟨hc, hfsz, ht, hb, hpi, hpo, hcl, hhl, hbl, hin, hsc⟩, hcalls, hst, hhp, hfp,
          hneed, hstored, hlt⟩ := hph
        have hH := headerSize_cases payload.length
        have hp0 : p = 0 := by
          rw [hneed, hfp] at hfire
          split at hfire <;> omega
        subst hp0
        exact ⟨⟨hc, hfsz, ht, hb, hpi, hpo, hcl, hhl, hbl, hin, hsc⟩, hcalls, rfl, rfl, rfl, rfl,
          fun i hi => absurd hi (Nat.not_lt_zero i), hlt⟩
      · exact ⟨_, rfl, hph⟩
    simp only [twWs_Receive, if_neg hconn, hg]
    rcases headerLoop_spec base wsg b0 payload sched p READ_HEADER 62 hn1 hfs hop5 hphg with
      ⟨ws1, p1, sched1, he, hph1, hlt1⟩ | ⟨ws1, s1, sched1, he, hbody, hle, hnil⟩
    · rw [he]
      exact ⟨ws1, rfl, Or.inl ⟨sched1, Or.inl ⟨p1, hph1⟩, hlt1⟩⟩
    · rw [he]
      obtain ⟨ws2, he2, hres⟩ := readBody_close base ws1 b0 payload sched1 0 s1 hfs hop hfin hbody
      refine ⟨ws2, he2, ?_⟩
      rcases hres with ⟨q1, hb, hne⟩ | hcl
      · left
        refine ⟨sched1.tail, Or.inr ⟨q1, hb⟩, ?_⟩
        have := tail_length_lt sched1 hne
        omega
      · exact Or.inr hcl
  · have hconn : ¬ ws.isConnected = 0 := by rw [hbp.session.connected]; decide
    have hg : ¬ ws.bytesNeeded > (ws.frameSize : Int) - (ws.frameBufferPtr : Int) := by
      rw [hbp.need, hbp.fp, hbp.session.frameSize_eq]
      have := hbp.lt
      omega
    simp only [twWs_Receive, if_neg hconn, if_neg hg]
    rw [headerLoop_exit 64 ws READ_HEADER (by rw [hbp.state]; exact frameState_ne_header _)]
    obtain ⟨ws2, he2, hres⟩ := readBody_close base ws b0 payload sched q READ_HEADER hfs hop
      hfin hbp
    refine ⟨ws2, he2, ?_⟩
    rcases hres with ⟨q1, hb, hne⟩ | hcl
    · left
      exact ⟨sched.tail, Or.inr ⟨q1, hb⟩, tail_length_lt sched hne⟩
    · exact Or.inr hcl

theorem receiveMany_close (base : twWs) (b0 : Byte) (payload : List Byte)
    (hn1 : 1 ≤ payload.length) (hfs : payload.length ≤ base.frameSize)
    (hop : b0 &&& 0x0f = 8) (hfin : ¬ b0 &&& 0x80 = 0) :
    ∀ (m : Nat) (sched : List Nat) (ws : twWs), InProgress base b0 payload sched ws →
      sched.length < m →
      ∃ j ws1, 1 ≤ j ∧ j ≤ m ∧
        receiveMany m ws = (List.replicate j TW_OK ++
          List.replicate (m - j) TW_WEBSOCKET_NOT_CONNECTED, Outcome.ret TW_OK ws1) ∧
        Closed (closeCalls base payload) ws1 := by
  intro m
  induction m with
  | zero =>
    intro sched ws _ hm
    exact absurd hm (Nat.not_lt_zero _)
  | succ m ih =>
    intro sched ws hp hm
    obtain ⟨ws1, he, hres⟩ := receive_close_step base ws b0 payload sched hn1 hfs hop hfin hp
    rcases hres with ⟨sched1, hp1, hlt⟩ | hcl
    · obtain ⟨j, ws2, hj1, hjm, he2, hcl2⟩ := ih sched1 ws1 hp1 (by omega)
      refine ⟨j + 1, ws2, by omega, by omega, ?_, hcl2⟩
      simp only [receiveMany, he, he2, List.replicate_succ, Nat.add_sub_add_right]
      rfl
    · refine ⟨1, ws1, le_refl _, by omega, ?_, hcl⟩
      simp only [receiveMany, he, receiveMany_not_connected ws1 hcl.disconnected m]
      simp

/-! ## The handshake callbacks -/

theorem or_handshakeBits_upgrade (u c a : Bool) :
    toSChar (intBits (handshakeBits u c a) ||| RCVD_UPGRADE_HEADER) = handshakeBits true c a := by
  cases u <;> cases c <;> cases a <;> decide

theorem or_handshakeBits_connection (u c a : Bool) :
    toSChar (intBits (handshakeBits u c a) ||| RCVD_CONNECTION_HEADER) =
      handshakeBits u true a := by
  cases u <;> cases c <;> cases a <;> decide

theorem or_handshakeBits_accept (u c a : Bool) :
    toSChar (intBits (handshakeBits u c a) ||| VALID_WS_ACCEPT_KEY) = handshakeBits u c true := by
  cases u <;> cases c <;> cases a <;> decide

theorem or_failed :
    toSChar (intBits (-1) ||| RCVD_UPGRADE_HEADER) = -1 ∧
    toSChar (intBits (-1) ||| RCVD_CONNECTION_HEADER) = -1 ∧
    toSChar (intBits (-1) ||| VALID_WS_ACCEPT_KEY) = -1 := by
  decide

theorem handshakeBits_ne (u c a : Bool) : handshakeBits u c a ≠ -1 := by
  cases u <;> cases c <;> cases a <;> decide

theorem handshakeBits_test (u c a : Bool) :
    (intBits (handshakeBits u c a) &&& RCVD_UPGRADE_HEADER ≠ 0 ∧
      intBits (handshakeBits u c a) &&& RCVD_CONNECTION_HEADER ≠ 0 ∧
      intBits (handshakeBits u c a) &&& VALID_WS_ACCEPT_KEY ≠ 0) ↔
    (u = true ∧ c = true ∧ a = true) := by
  cases u <;> cases c <;> cases a <;> decide

set_option maxRecDepth 100000 in
theorem sample_accept_key : base64_encode (twSHA1 (sampleKey ++ acceptGuid)) = sampleAccept := by
  rfl

theorem validateAcceptKey_fits (ws : twWs) (val : List Byte)
    (hkey : ws.security_key.length ≤ 43) :
    validateAcceptKey ws val =
      some (if val = base64_encode (twSHA1 (ws.security_key ++ acceptGuid)) then TW_OK
        else TW_INVALID_ACCEPT_KEY) := by
  have hlen : ¬ 80 < (ws.security_key ++ acceptGuid).length + 1 := by
    have : acceptGuid.length = 36 := by decide
    rw [List.length_append, this]
    omega
  simp only [validateAcceptKey, if_neg hlen]
  by_cases hv : val = base64_encode (twSHA1 (ws.security_key ++ acceptGuid))
  · simp [hv]
  · simp [hv]

theorem validateAcceptKey_congr (ws ws1 : twWs) (val : List Byte)
    (h : ws1.security_key = ws.security_key) :
    validateAcceptKey ws1 val = validateAcceptKey ws val := by
  simp [validateAcceptKey, h]

theorem carriesRequiredValue_congr (ws ws1 : twWs) (p : List Byte × List Byte)
    (h : ws1.security_key = ws.security_key) :
    carriesRequiredValue ws1 p = carriesRequiredValue ws p := by
  simp [carriesRequiredValue, validateAcceptKey_congr ws ws1 _ h]

theorem header_names_differ :
    bytes "connection" ≠ bytes "upgrade" ∧ bytes "sec-websocket-accept" ≠ bytes "upgrade" ∧
    bytes "sec-websocket-accept" ≠ bytes "connection" := by
  decide

/-- One call of `ws_on_header_value` on a state that is -1 (`bad`) or records the
accepted headers `u`, `c`, `a`. -/
theorem ws_on_header_value_state (ws : twWs) (name value : List Byte) (u c a bad : Bool)
    (hkey : ws.security_key.length ≤ 43)
    (hs : ws.connect_state = if bad then -1 else handshakeBits u c a) :
    ws_on_header_value ws name value = some (0,
      { ws with connect_state :=
                  if bad || !carriesRequiredValue ws (name, value) then -1
                  else handshakeBits (u || decide (name = bytes "upgrade"))
                    (c || decide (name = bytes "connection"))
                    (a || decide (name = bytes "sec-websocket-accept")) }) := by
  obtain ⟨hn1, hn2, hn3⟩ := header_names_differ
  by_cases h1 : name = bytes "upgrade"
  · subst h1
    by_cases hv : value = bytes "websocket"
    · cases bad
      · simp [ws_on_header_value, carriesRequiredValue, hv, orConnectState, hs,
          or_handshakeBits_upgrade, hn1.symm, hn2.symm]
      · simp [ws_on_header_value, carriesRequiredValue, hv, orConnectState, hs, or_failed.1]
    · simp [ws_on_header_value, carriesRequiredValue, hv]
  · by_cases h2 : name = bytes "connection"
    · subst h2
      by_cases hv : value = bytes "upgrade"
      · cases bad
        · simp [ws_on_header_value, carriesRequiredValue, hv, orConnectState, hs,
            or_handshakeBits_connection, hn1, hn3.symm]
        · simp [ws_on_header_value, carriesRequiredValue, hv, orConnectState, hs, or_failed.2.1,
            hn1]
      · simp [ws_on_header_value, carriesRequiredValue, hv, hn1]
    · by_cases h3 : name = bytes "sec-websocket-accept"
      · subst h3
        rw [ws_on_header_value, if_neg hn2, if_neg hn3, validateAcceptKey_fits ws value hkey]
        by_cases hv : value = base64_encode (twSHA1 (ws.security_key ++ acceptGuid))
        · cases bad
          · simp [carriesRequiredValue, hv, orConnectState, hs, or_handshakeBits_accept, hn2, hn3,
              validateAcceptKey_fits ws _ hkey]
          · simp [carriesRequiredValue, hv, orConnectState, hs, or_failed.2.2, hn2, hn3,
              validateAcceptKey_fits ws _ hkey]
        · simp [carriesRequiredValue, hv, hn2, hn3, validateAcceptKey_fits ws _ hkey]
      · cases ws
        cases bad <;> simp_all [ws_on_header_value, carriesRequiredValue]

/-- The state after a sequence of header pairs. -/
theorem processHeaders_state (key : List Byte) (hkey : key.length ≤ 43) :
    ∀ (pairs : List (List Byte × List Byte)) (ws : twWs) (u c a bad : Bool),
      ws.security_key = key →
      ws.connect_state = (if bad then -1 else handshakeBits u c a) →
      processHeaders ws pairs = some
        { ws with connect_state :=
                    if bad || !pairs.all (carriesRequiredValue ws) then -1
                    else handshakeBits (u || headerSeen (bytes "upgrade") pairs)
                      (c || headerSeen (bytes "connection") pairs)
                      (a || headerSeen (bytes "sec-websocket-accept") pairs) } := by
  intro pairs
  induction pairs with
  | nil =>
    intro ws u c a bad _ hs
    simp [processHeaders, headerSeen, ← hs]
  | cons p rest ih =>
    intro ws u c a bad hk hs
    obtain ⟨name, value⟩ := p
    have hstep := ws_on_header_value_state ws name value u c a bad (by rw [hk]; exact hkey) hs
    obtain ⟨ws1, hw⟩ : ∃ ws1, ws1 =
        { ws with connect_state :=
                    if bad || !carriesRequiredValue ws (name, value) then -1
                    else handshakeBits (u || decide (name = bytes "upgrade"))
                      (c || decide (name = bytes "connection"))
                      (a || decide (name = bytes "sec-websocket-accept")) } := ⟨_, rfl⟩
    rw [← hw] at hstep
    simp only [processHeaders, hstep]
    rw [ih ws1 (u || decide (name = bytes "upgrade")) (c || decide (name = bytes "connection"))
      (a || decide (name = bytes "sec-websocket-accept"))
      (bad || !carriesRequiredValue ws (name, value)) (by rw [hw]; exact hk) (by rw [hw])]
    have hcongr : ∀ q, carriesRequiredValue ws1 q = carriesRequiredValue ws q :=
      fun q => carriesRequiredValue_congr ws ws1 q (by rw [hw])
    have hall : rest.all (carriesRequiredValue ws1) = rest.all (carriesRequiredValue ws) := by
      congr 1
      exact funext hcongr
    rw [hall, hw]
    simp only [List.all_cons, headerSeen, List.any_cons]
    congr 2
    generalize carriesRequiredValue ws (name, value) = ok
    generalize rest.all (carriesRequiredValue ws) = oks
    generalize decide (name = bytes "upgrade") = n1
    generalize decide (name = bytes "connection") = n2
    generalize decide (name = bytes "sec-websocket-accept") = n3
    generalize (rest.any fun p => decide (p.1 = bytes "upgrade")) = r1
    generalize (rest.any fun p => decide (p.1 = bytes "connection")) = r2
    generalize (rest.any fun p => decide (p.1 = bytes "sec-websocket-accept")) = r3
    cases bad <;> cases ok <;> simp [Bool.or_assoc]

theorem ws_on_headers_complete_bits (ws : twWs) (u c a : Bool)
    (hs : ws.connect_state = handshakeBits u c a) :
    ws_on_headers_complete ws =
      if u = true ∧ c = true ∧ a = true then (0, { ws with isConnected := 1 })
      else (1, { ws with isConnected := -1 }) := by
  simp only [ws_on_headers_complete, hs]
  by_cases h : u = true ∧ c = true ∧ a = true
  · rw [if_pos ⟨handshakeBits_ne u c a, (handshakeBits_test u c a).2 h⟩, if_pos h]
  · rw [if_neg (fun hh => h ((handshakeBits_test u c a).1 hh.2)), if_neg h]

theorem ws_on_headers_complete_failed (ws : twWs) (hs : ws.connect_state = -1) :
    ws_on_headers_complete ws = (1, { ws with isConnected := -1 }) := by
  simp [ws_on_headers_complete, hs]

/-! ## The response loop of the handshake -/

theorem read_avail (c : twTlsClient) (sched : List Nat) (n : Int)
    (hs : c.readScript = sched.map ReadEvent.upTo) (hn : c.inbound.length ≤ n.toNat) :
    twTlsClient_Read c n = (((grant sched c.inbound.length : Nat) : Int),
      c.inbound.take (grant sched c.inbound.length),
      { c with inbound := c.inbound.drop (grant sched c.inbound.length),
               readScript := sched.tail.map ReadEvent.upTo }) := by
  cases c with
  | mk inb rs wr wsr rc rr cl =>
    simp only at hn
    have hmin : min n.toNat inb.length = inb.length := Nat.min_eq_right hn
    cases sched with
    | nil =>
      simp only [List.map_nil] at hs
      subst hs
      simp [twTlsClient_Read, grant, hmin]
    | cons m rest =>
      simp only [List.map_cons] at hs
      subst hs
      simp [twTlsClient_Read, grant, hmin]

theorem takeWhile_zeros (q : List Byte) (m : Nat) (hz : 0 ∉ q) :
    (q ++ List.replicate m 0).takeWhile (fun b => b != 0) = q := by
  induction q with
  | nil =>
    cases m with
    | zero => rfl
    | succ m => simp [List.replicate_succ, List.takeWhile_cons]
  | cons a q ih =>
    have ha : a ≠ 0 := fun h => hz (by simp [h])
    have hq : 0 ∉ q := fun h => hz (List.mem_cons_of_mem _ h)
    simp [List.takeWhile_cons, ha, ih hq]

theorem writeAt_filled (resp : List Byte) (F j k : Nat) (hjk : j + k ≤ resp.length)
    (hF : resp.length ≤ F) :
    writeAt (resp.take j ++ List.replicate (F + 11 - j) 0) j ((resp.drop j).take k) =
      resp.take (j + k) ++ List.replicate (F + 11 - (j + k)) 0 := by
  have hlen : (resp.take j).length = j := by
    rw [List.length_take]
    omega
  have hdata : ((resp.drop j).take k).length = k := by
    rw [List.length_take, List.length_drop]
    omega
  have h1 : (resp.take j ++ List.replicate (F + 11 - j) 0).take j = resp.take j := by
    rw [List.take_append_eq_append_take, hlen, Nat.sub_self, List.take_zero, List.append_nil,
      List.take_take, Nat.min_self]
  have h2 : (resp.take j ++ List.replicate (F + 11 - j) 0).drop (j + k) =
      List.replicate (F + 11 - (j + k)) 0 := by
    have hd : (resp.take j).drop (j + k) = [] :=
      List.drop_eq_nil_of_le (by rw [hlen]; omega)
    rw [List.drop_append_eq_append_drop, hlen, List.drop_replicate, hd, List.nil_append]
    congr 1
    omega
  unfold writeAt
  rw [hdata, h1, h2, List.take_add]

theorem foldl_strncat_length (pieces : List (List Byte)) :
    ∀ init : List Byte, init.length ≤
      (pieces.foldl (fun req piece => strncat req piece (REQ_SIZE - req.length - 1))
        init).length := by
  induction pieces with
  | nil =>
    intro init
    exact le_refl _
  | cons p rest ih =>
    intro init
    refine le_trans ?_ (ih _)
    simp [strncat]

theorem buildRequest_length (ws : twWs) : 4 ≤ (buildRequest ws).length :=
  foldl_strncat_length (requestPieces ws) (bytes "GET ")

theorem foldl_strncat_fits (pieces : List (List Byte)) :
    ∀ init : List Byte, (init ++ pieces.flatten).length ≤ REQ_SIZE - 1 →
      pieces.foldl (fun req piece => strncat req piece (REQ_SIZE - req.length - 1)) init =
        init ++ pieces.flatten := by
  induction pieces with
  | nil =>
    intro init _
    simp
  | cons p rest ih =>
    intro init hfit
    simp only [List.flatten_cons, List.length_append] at hfit
    have hp : p.take (REQ_SIZE - init.length - 1) = p := List.take_of_length_le (by omega)
    have hstep : strncat init p (REQ_SIZE - init.length - 1) = init ++ p := by
      rw [strncat, hp]
    rw [List.foldl_cons, hstep, ih (init ++ p) (by simp only [List.length_append]; omega),
      List.flatten_cons, List.append_assoc]

/-- The request `twWs_Connect` forms is the text of the specification when that text
fits the request buffer. -/
theorem buildRequest_text (ws : twWs)
    (hfit : (upgradeRequestText ws.resource ws.host ws.security_key ws.frameSize
      ws.api_key).length ≤ 511) :
    buildRequest ws =
      upgradeRequestText ws.resource ws.host ws.security_key ws.frameSize ws.api_key := by
  have htext : bytes "GET " ++ (requestPieces ws).flatten =
      upgradeRequestText ws.resource ws.host ws.security_key ws.frameSize ws.api_key := by
    have hv : bytes "Sec-WebSocket-Version: " ++ WS_VERSION = bytes "Sec-WebSocket-Version: 13" := by
      decide
    rw [upgradeRequestText, ← hv]
    simp only [requestPieces, max_frame_size, List.flatten_cons, List.flatten_nil,
      List.append_assoc, List.append_nil]
  rw [buildRequest, foldl_strncat_fits _ _ (by rw [htext]; exact hfit), htext]

theorem connectSend_sent (env : SystemEnv) (ws wsk : twWs) (hnc : ws.isConnected ≠ 1)
    (hrc : ws.connection.reconnectResult = 0) (hws : ws.connection.writeScript = [])
    (hk : wsk = { ws with connect_state := 0, read_state := READ_HEADER,
                          security_key := securityKey env }) :
    connectSend env ws = ConnectSent.sent
      { wsk with isConnected := 0, frameBufferPtr := 0, headerPtr := 0,
                 connection := { ws.connection with
                                   reconnects := ws.connection.reconnects + 1,
                                   written := ws.connection.written ++ [buildRequest wsk] } } := by
  have hlen := buildRequest_length wsk
  have hpos : ((buildRequest wsk).length : Int) > 0 := by omega
  subst hk
  simp only [connectSend, if_neg hnc, restartSocket, twTlsClient_Reconnect, hrc, ne_eq,
    not_true_eq_false, if_false, twTlsClient_Write, hws, if_pos hpos]

/-! ## Nothing but the request is written -/

theorem read_written (c : twTlsClient) (n : Int) :
    (twTlsClient_Read c n).2.2.written = c.written := by
  unfold twTlsClient_Read
  split <;> rfl

theorem ws_on_header_value_connection (ws ws1 : twWs) (name value : List Byte) (r : Int)
    (h : ws_on_header_value ws name value = some (r, ws1)) :
    ws1.connection = ws.connection := by
  unfold ws_on_header_value at h
  repeat' split at h
  all_goals first
    | (simp only [Option.some.injEq, Prod.mk.injEq] at h
       obtain ⟨_, rfl⟩ := h
       rfl)
    | cases h

theorem headerWalk_written (W : List (List Byte)) :
    ∀ (fuel headEnd : Nat) (ws : twWs) (line header_name : Nat) (header_value : Option Nat)
      (gotName : Bool), ws.connection.written = W →
      OutcomeKeeps (fun w => w.connection.written = W)
        (headerWalk fuel headEnd ws line header_name header_value gotName) := by
  intro fuel
  induction fuel with
  | zero =>
    intro headEnd ws line header_name header_value gotName hW
    rw [headerWalk]
    split
    · trivial
    · exact hW
  | succ fuel ih =>
    intro headEnd ws line header_name header_value gotName hW
    rw [headerWalk]
    simp only []
    repeat' split
    all_goals first
      | exact hW
      | exact ih _ _ _ _ _ _ hW
      | (have hc := ws_on_header_value_connection _ _ _ _ _ (by assumption)
         first
           | exact ih _ _ _ _ _ _ (by rw [hc]; exact hW)
           | (simp only [OutcomeKeeps]
              rw [hc]
              exact hW))

theorem headerWalk_ret_written (W : List (List Byte)) {fuel headEnd : Nat} {ws ws1 : twWs}
    {line header_name : Nat} {header_value : Option Nat} {gotName : Bool} {code : twError}
    (h : headerWalk fuel headEnd ws line header_name header_value gotName = Outcome.ret code ws1)
    (hW : ws.connection.written = W) : ws1.connection.written = W := by
  have hk := headerWalk_written W fuel headEnd ws line header_name header_value gotName hW
  rw [h] at hk
  exact hk

theorem ws_on_headers_complete_connection (ws : twWs) :
    (ws_on_headers_complete ws).2.connection = ws.connection := by
  unfold ws_on_headers_complete
  simp only []
  split <;> rfl

theorem connectLoop_written (env : SystemEnv) (W : List (List Byte)) :
    ∀ (fuel T tick now : Nat) (ws : twWs), ws.connection.written = W →
      ExitKeeps (fun w => w.connection.written = W) (connectLoop env fuel T tick now ws) := by
  intro fuel
  induction fuel with
  | zero =>
    intro T tick now ws _
    rw [connectLoop]
    trivial
  | succ fuel ih =>
    intro T tick now ws hW
    have hr := read_written ws.connection ((ws.frameSize : Int) - (ws.frameBufferPtr : Int))
    rw [hW] at hr
    rw [connectLoop]
    simp only []
    split
    · split
      · exact hr
      · split
        · split
          · exact hr
          · split
            · exact hr
            · split
              · exact hr
              · split
                · exact ih _ _ _ _ hr
                · split
                  · exact hr
                  · split
                    · rename_i ws1 hwalk
                      have hk : ws1.connection.written = W := headerWalk_ret_written W hwalk hr
                      have hc := ws_on_headers_complete_connection { ws1 with frameBufferPtr := 0 }
                      split
                      · show (ws_on_headers_complete _).2.connection.written = W
                        rw [hc]
                        exact hk
                      · exact ih _ _ _ _ (by rw [hc]; exact hk)
                    · show OutcomeKeeps _ (headerWalk _ _ _ _ _ _ _)
                      apply headerWalk_written
                      exact hr
        · exact ih _ _ _ _ hr
    · exact hW

theorem restartSocket_written (ws : twWs) :
    (restartSocket ws).2.connection.written = ws.connection.written := rfl

/-- Once the request is sent, `twWs_Connect` writes nothing more. -/
theorem twWs_Connect_written (env : SystemEnv) (fuel : Nat) (ws ws0 : twWs) (timeout : Nat)
    (hsent : connectSend env ws = ConnectSent.sent ws0) :
    OutcomeKeeps (fun w => w.connection.written = ws0.connection.written)
      (twWs_Connect env fuel ws timeout) := by
  have hloop := connectLoop_written env ws0.connection.written fuel (env.clock 1 + timeout) 3
    (env.clock 2) ws0 rfl
  simp only [twWs_Connect, hsent]
  split
  · rename_i o he
    rw [he] at hloop
    exact hloop
  · rename_i now1 ws1 he
    rw [he] at hloop
    split
    · exact hloop
    · split
      · exact hloop
      · show (if ws1.on_ws_connected = true then
            { ws1 with calls := ws1.calls ++ [Call.connected] } else ws1).connection.written = _
        split
        · exact hloop
        · exact hloop

/-! ## Control frames and failed writes -/

theorem write_le (c : twTlsClient) (data : List Byte) :
    (twTlsClient_Write c data).1 ≤ (data.length : Int) := by
  unfold twTlsClient_Write
  split
  · exact le_refl _
  · simp only []
    omega
  · simp only []
    omega

theorem write_reconnects (c : twTlsClient) (data : List Byte) :
    (twTlsClient_Write c data).2.reconnects = c.reconnects := by
  unfold twTlsClient_Write
  split <;> rfl

theorem ctl_type_test (type : Nat) : ¬ (type % 256 < 0x08 ∧ type % 256 > 0x0a) := by
  omega

theorem sendCtlFrame_ok (ws : twWs) (type : Nat) (msg : List Byte)
    (hconn : ws.isConnected ≠ 0) (hlen : msg.length ≤ 110)
    (hw : ws.connection.writeScript = []) :
    sendCtlFrame ws type (some msg) =
      (TW_OK, { ws with connection := { ws.connection with written :=
        ws.connection.written ++ [ctlFrame type msg] } }) := by
  have hlong : ¬ msg.length > 110 := by omega
  have hflen : ((ctlFrame type msg).length : Int) = ((msg.length + 6 : Nat) : Int) := by
    have : (ctlFrame type msg).length = msg.length + 6 := by
      simp [ctlFrame]
    rw [this]
  have hf : [(0x80 + type % 256) % 256, (0x80 + msg.length) % 256, 0, 0, 0, 0] ++ msg =
      ctlFrame type msg := rfl
  unfold sendCtlFrame
  simp only [if_neg hconn, Option.getD_some, if_neg (ctl_type_test type), if_neg hlong, hf]
  rw [write_ok _ _ hw]
  simp only [hflen, ne_eq, not_true_eq_false, if_false]

theorem sendCtlFrame_long (ws : twWs) (type : Nat) (msg : List Byte)
    (hconn : ws.isConnected ≠ 0) (hlen : 110 < msg.length) :
    sendCtlFrame ws type (some msg) = (TW_WEBSOCKET_MSG_TOO_LARGE, ws) := by
  unfold sendCtlFrame
  simp only [if_neg hconn, Option.getD_some, if_neg (ctl_type_test type), if_pos hlen]

theorem sendCtlFrame_refused (ws : twWs) (type : Nat) (msg : List Byte)
    (hconn : ws.isConnected ≠ 0) (hlen : msg.length ≤ 110)
    (hfail : WriteRefused ws.connection (ctlFrame type msg)) :
    ∃ ws1, sendCtlFrame ws type (some msg) = (TW_ERROR_WRITING_TO_WEBSOCKET, ws1) ∧
      SendFailed ws ws1 := by
  have hlong : ¬ msg.length > 110 := by omega
  have hne : (twTlsClient_Write ws.connection (ctlFrame type msg)).1 ≠
      ((msg.length + 6 : Nat) : Int) := by
    have : (ctlFrame type msg).length = msg.length + 6 := by
      simp [ctlFrame]
    rw [← this]
    exact hfail
  have hf : [(0x80 + type % 256) % 256, (0x80 + msg.length) % 256, 0, 0, 0, 0] ++ msg =
      ctlFrame type msg := rfl
  unfold sendCtlFrame
  simp only [if_neg hconn, Option.getD_some, if_neg (ctl_type_test type), if_neg hlong, hf]
  rw [if_pos hne]
  refine ⟨_, rfl, rfl, rfl, ?_, rfl⟩
  show (twTlsClient_Write ws.connection _).2.reconnects + 1 = _
  rw [write_reconnects]

theorem sendDataFrame_refused (ws : twWs) (msg : List Byte) (L : Nat)
    (isContinuation isFinal isText : Bool)
    (hconn : ws.isConnected = 1) (hlen : L ≤ msg.length) (hL : L ≤ ws.frameSize)
    (hfs : ws.frameSize ≤ 65535)
    (hfail : FrameRefused ws.connection (dataFrameHeader L isContinuation isFinal isText)
      (msg.take L)) :
    ∃ ws1, sendDataFrame ws (some msg) L isContinuation isFinal isText =
        (TW_ERROR_WRITING_TO_WEBSOCKET, ws1) ∧ SendFailed ws ws1 := by
  have hmod : L % 65536 = L := Nat.mod_eq_of_lt (by omega)
  have h1 : ¬ ws.frameSize < L := by omega
  have hl1 := write_le ws.connection (dataFrameHeader L isContinuation isFinal isText)
  have hl2 := write_le (twTlsClient_Write ws.connection
    (dataFrameHeader L isContinuation isFinal isText)).2 (msg.take L)
  have htake : (msg.take L).length = L := by
    rw [List.length_take]
    omega
  rw [htake] at hl2
  have hne : (0 : Int) + (twTlsClient_Write ws.connection
        (dataFrameHeader L isContinuation isFinal isText)).1 +
      (twTlsClient_Write (twTlsClient_Write ws.connection
        (dataFrameHeader L isContinuation isFinal isText)).2 (msg.take L)).1 ≠
      (((dataFrameHeader L isContinuation isFinal isText).length + L : Nat) : Int) := by
    rcases hfail with h | h
    · unfold WriteRefused at h
      omega
    · unfold WriteRefused at h
      rw [htake] at h
      omega
  unfold sendDataFrame
  simp only [hmod, hconn, ne_eq, not_true_eq_false, if_false, h1]
  rw [if_pos hne]
  refine ⟨_, rfl, rfl, rfl, ?_, rfl⟩
  show (twTlsClient_Write (twTlsClient_Write ws.connection _).2 _).2.reconnects + 1 = _
  rw [write_reconnects, write_reconnects]

theorem sendMessage_refused (ws : twWs) (buf : List Byte) (L : Nat) (isText : Bool)
    (hconn : ws.isConnected = 1) (h1 : 1 ≤ L) (hlen : L ≤ buf.length)
    (hchunk : L ≤ ws.messageChunkSize) (hL : L ≤ ws.frameSize) (hfs : ws.frameSize ≤ 65535)
    (hfail : FrameRefused ws.connection (dataFrameHeader L false true isText) (buf.take L)) :
    ∃ ws1, twWs_SendMessage ws (some buf) L isText =
        some (TW_ERROR_WRITING_TO_WEBSOCKET, ws1) ∧ SendFailed ws ws1 := by
  obtain ⟨ws1, he, hpost⟩ := sendDataFrame_refused ws buf L false true isText hconn hlen hL hfs
    hfail
  have hc : ¬ ws.isConnected = 0 := by rw [hconn]; decide
  have h0 : ¬ L = 0 := by omega
  have hch : ¬ ws.messageChunkSize < L := by omega
  have hpos : L > 0 := by omega
  have hbig : ¬ L > ws.frameSize := by omega
  refine ⟨ws1, ?_, hpost⟩
  unfold twWs_SendMessage
  simp only [if_neg hc, if_neg h0, if_neg hch]
  obtain ⟨fuel, hf⟩ : ∃ fuel, L = fuel + 1 := ⟨L - 1, by omega⟩
  rw [hf, sendLoop, ← hf]
  simp only [if_pos hpos, if_neg hbig, ne_eq, not_true_eq_false, if_false, List.drop_zero, he]
  simp

/-! ## Disconnect -/

theorem write_closes (c : twTlsClient) (data : List Byte) :
    (twTlsClient_Write c data).2.closes = c.closes := by
  unfold twTlsClient_Write
  split <;> rfl

theorem closeText_wire (code : Int) : (closeText code).2 = closeWireByte code := by
  unfold closeText closeWireByte NORMAL_CLOSE GOING_TO_SLEEP PROTOCOL_ERROR
    UNSUPPORTED_DATA_TYPE INVALID_DATA POLICY_VIOLATION FRAME_TOO_LARGE NO_EXTENSION_FOUND
  repeat' split
  all_goals rfl

theorem closeText_length (code : Int) :
    12 ≤ (closeText code).1.length ∧ (closeText code).1.length ≤ 21 := by
  unfold closeText
  repeat' split
  all_goals decide

theorem closeText_nul (code : Int) : 0 ∉ (closeText code).1 := by
  unfold closeText
  repeat' split
  all_goals decide

/-- What `sendCtlFrame` leaves alone, whatever it returns. -/
theorem sendCtlFrame_keeps (ws : twWs) (type : Nat) (msg : Option (List Byte)) :
    (sendCtlFrame ws type msg).2.calls = ws.calls ∧
    (sendCtlFrame ws type msg).2.on_ws_close = ws.on_ws_close ∧
    (sendCtlFrame ws type msg).2.connection.closes = ws.connection.closes := by
  unfold sendCtlFrame
  simp only []
  repeat' split
  all_goals first
    | exact ⟨rfl, rfl, rfl⟩
    | exact ⟨rfl, rfl, write_closes _ _⟩

theorem sendCtlFrame_not_connected (ws : twWs) (type : Nat) (msg : Option (List Byte))
    (h : ws.isConnected = 0) :
    sendCtlFrame ws type msg = (TW_WEBSOCKET_NOT_CONNECTED, ws) := by
  unfold sendCtlFrame
  simp only [if_pos h]

theorem disconnectEnd_string (ws : twWs) (head text : List Byte) (hhead : head.length = 2)
    (h0 : head.getD 0 0 = 0x03) (hz : 0 ∉ text) :
    disconnectEnd ws (head ++ text ++ [0]) = Outcome.ret TW_OK
      { ws with isConnected := 0, connection := twTlsClient_Close ws.connection,
                calls := ws.calls ++
                  (if ws.on_ws_close then [Call.close text text.length] else []) } := by
  obtain ⟨a, b, rfl⟩ : ∃ a b, head = [a, b] := by
    match head, hhead with
    | [a, b], _ => exact ⟨a, b, rfl⟩
  have h3 : a = 3 := h0
  subst h3
  have hstr : cStringAt ([3, b] ++ text ++ [0]) 2 = text := by
    have := takeWhile_zeros text 1 hz
    simpa [cStringAt] using this
  have hmem : ¬ 0 ∉ List.drop 2 ([3, b] ++ text ++ [0]) := by
    simp
  unfold disconnectEnd
  simp only [hstr, if_neg hmem]
  by_cases hcb : ws.on_ws_close = true
  · simp [hcb]
  · simp [hcb]

theorem twWs_Disconnect_close (stack : List Byte) (ws : twWs) (code : Int)
    (reason : List Byte) (hcode : code ≠ SERVER_CLOSED)
    (hfit : (closeMessage code reason).length + 1 ≤ 62) :
    twWs_Disconnect stack ws code (some reason) =
      disconnectEnd
        (sendCtlFrame ws 0x08
          (some ([0x03, (closeText code).2] ++ closeMessage code reason))).2
        ([0x03, (closeText code).2] ++ closeMessage code reason ++ [0]) := by
  have hlen : reason.length ≤ 60 := by
    have := closeText_length code
    simp only [closeMessage, List.length_append] at hfit
    omega
  have htake : reason.take 60 = reason := List.take_of_length_le hlen
  have hnf : ¬ 62 < ((closeText code).1 ++ bytes " " ++ reason).length + 1 := by
    have : (closeText code).1 ++ bytes " " ++ reason = closeMessage code reason := rfl
    rw [this]
    omega
  unfold twWs_Disconnect
  simp only [if_pos hcode, htake, if_neg hnf]
  rfl

theorem closeMessage_nul (code : Int) (reason : List Byte) (hz : 0 ∉ reason) :
    0 ∉ closeMessage code reason := by
  intro h
  simp only [closeMessage, List.mem_append] at h
  rcases h with (h | h) | h
  · exact closeText_nul code h
  · revert h
    decide
  · exact hz h

theorem disconnectEnd_garbage (ws : twWs) (stack : List Byte) (h : stack.getD 0 0 ≠ 0x03) :
    disconnectEnd ws stack = Outcome.ret TW_OK
      { ws with isConnected := 0, connection := twTlsClient_Close ws.connection } := by
  unfold disconnectEnd
  simp only []
  rw [if_neg (fun hh => h hh.2)]

/-! ## The request is cut, the key repeats -/

theorem take_take_append (l m : List Byte) (n : Nat) :
    (l.take n ++ m).take n = (l ++ m).take n := by
  by_cases h : l.length ≤ n
  · rw [List.take_of_length_le h]
  · have hlen : (l.take n).length = n := by
      rw [List.length_take]
      omega
    rw [List.take_append_eq_append_take, List.take_append_eq_append_take, hlen,
      List.take_take, Nat.min_self, Nat.sub_self, List.take_zero,
      show n - l.length = 0 by omega, List.take_zero]

theorem foldl_strncat_take (pieces : List (List Byte)) :
    ∀ init : List Byte, init.length ≤ REQ_SIZE - 1 →
      pieces.foldl (fun req piece => strncat req piece (REQ_SIZE - req.length - 1)) init =
        (init ++ pieces.flatten).take (REQ_SIZE - 1) := by
  induction pieces with
  | nil =>
    intro init h
    simp only [List.foldl_nil, List.flatten_nil, List.append_nil]
    rw [List.take_of_length_le h]
  | cons p rest ih =>
    intro init h
    have hstep : strncat init p (REQ_SIZE - init.length - 1) =
        (init ++ p).take (REQ_SIZE - 1) := by
      rw [strncat, List.take_append_eq_append_take, List.take_of_length_le h,
        show REQ_SIZE - init.length - 1 = REQ_SIZE - 1 - init.length by omega]
    rw [List.foldl_cons, hstep, ih _ (by rw [List.length_take]; omega), take_take_append,
      List.flatten_cons, List.append_assoc]

theorem requestPieces_text (ws : twWs) :
    bytes "GET " ++ (requestPieces ws).flatten =
      upgradeRequestText ws.resource ws.host ws.security_key ws.frameSize ws.api_key := by
  have hv : bytes "Sec-WebSocket-Version: " ++ WS_VERSION = bytes "Sec-WebSocket-Version: 13" := by
    decide
  rw [upgradeRequestText, ← hv]
  simp only [requestPieces, max_frame_size, List.flatten_cons, List.flatten_nil,
    List.append_assoc, List.append_nil]

/-- The request `twWs_Connect` forms is the text of the specification cut to 511
bytes. -/
theorem buildRequest_take (ws : twWs) :
    buildRequest ws =
      (upgradeRequestText ws.resource ws.host ws.security_key ws.frameSize
        ws.api_key).take 511 := by
  rw [buildRequest, foldl_strncat_take _ _ (by decide), requestPieces_text]
  rfl

theorem connectSend_key (env : SystemEnv) (ws ws0 : twWs)
    (h : connectSend env ws = ConnectSent.sent ws0) : ws0.security_key = securityKey env := by
  unfold connectSend at h
  simp only [] at h
  repeat' split at h
  all_goals first
    | (injection h with h
       subst h
       rfl)
    | cases h

theorem securityKey_congr (env1 env2 : SystemEnv) (hrand : env1.rand = env2.rand)
    (htime : env1.clock 0 % 1000 = env2.clock 0 % 1000) :
    securityKey env1 = securityKey env2 := by
  unfold securityKey
  rw [hrand, htime]

/-! ## The constructor -/

/-- A session that `twWs_Create` hands back comes with TW_OK and is the zeroed struct
with the arguments stored. -/
theorem twWs_Create_session (env : CreateEnv) (host resource api_key gatewayName :
    Option (List Byte)) (port messageChunkSize frameSize : Nat) (entity : Bool)
    (code : twError) (ws : twWs)
    (h : twWs_Create env host port resource api_key gatewayName messageChunkSize frameSize
      entity = (code, some ws)) :
    code = TW_OK ∧ messageChunkSize % 4294967296 ≤ frameSize % 65536 ∧
      ws.messageChunkSize = messageChunkSize % 4294967296 ∧
      ws.frameSize = frameSize % 65536 ∧ ws.isConnected = 0 ∧ ws.bytesNeeded = 2 ∧
      ws.frameBufferPtr = 0 ∧
      ws.frameBuffer = List.replicate (frameSize % 65536 + 11) 0 := by
  cases host with
  | none => cases h
  | some hs =>
    cases resource with
    | none => cases h
    | some rs =>
      cases api_key with
      | none => cases h
      | some ks =>
        unfold twWs_Create at h
        simp only [] at h
        by_cases c1 : port % 65536 = 0 ∨ entity = false
        · rw [if_pos c1] at h
          cases h
        rw [if_neg c1] at h
        by_cases c2 : ¬ env.calloc_ws = true
        · rw [if_pos c2] at h
          cases h
        rw [if_neg c2] at h
        by_cases c3 : env.tlsCreate ≠ TW_OK
        · rw [if_pos c3] at h
          cases h
        rw [if_neg c3] at h
        by_cases c4 : ¬ env.dup_host = true
        · rw [if_pos c4] at h
          cases h
        rw [if_neg c4] at h
        by_cases c5 : ¬ env.dup_api_key = true
        · rw [if_pos c5] at h
          cases h
        rw [if_neg c5] at h
        by_cases c6 : ¬ env.dup_resource = true
        · rw [if_pos c6] at h
          cases h
        rw [if_neg c6] at h
        by_cases c7 : gatewayName.isSome = true ∧ ¬ env.dup_gatewayName = true
        · rw [if_pos c7] at h
          cases h
        rw [if_neg c7] at h
        by_cases c8 : ¬ env.mutexes = true
        · rw [if_pos c8] at h
          cases h
        rw [if_neg c8] at h
        by_cases c9 : messageChunkSize % 4294967296 > frameSize % 65536
        · rw [if_pos c9] at h
          cases h
        rw [if_neg c9] at h
        by_cases c10 : ¬ env.calloc_frameBuffer = true
        · rw [if_pos c10] at h
          cases h
        rw [if_neg c10] at h
        simp only [Prod.mk.injEq, Option.some.injEq] at h
        obtain ⟨rfl, rfl⟩ := h
        exact ⟨rfl, by omega, rfl, rfl, rfl, rfl, rfl, rfl⟩

theorem twWs_Create_null (env : CreateEnv) (host resource api_key gatewayName :
    Option (List Byte)) (port messageChunkSize frameSize : Nat) (entity : Bool)
    (h : host = none ∨ resource = none ∨ api_key = none ∨ port % 65536 = 0 ∨ entity = false) :
    twWs_Create env host port resource api_key gatewayName messageChunkSize frameSize
      entity = (TW_INVALID_PARAM, none) := by
  cases host with
  | none => rfl
  | some hs =>
    cases resource with
    | none => rfl
    | some rs =>
      cases api_key with
      | none => rfl
      | some ks =>
        have c1 : port % 65536 = 0 ∨ entity = false := by
          rcases h with h | h | h | h | h
          · cases h
          · cases h
          · cases h
          · exact Or.inl h
          · exact Or.inr h
        unfold twWs_Create
        simp only []
        rw [if_pos c1]

theorem twWs_Create_chunk (env : CreateEnv) (host resource api_key gatewayName :
    Option (List Byte)) (port messageChunkSize frameSize : Nat) (entity : Bool)
    (hbig : messageChunkSize % 4294967296 > frameSize % 65536) (halloc : Allocates env) :
    (twWs_Create env host port resource api_key gatewayName messageChunkSize frameSize
      entity).1 = TW_INVALID_PARAM := by
  by_cases h : host = none ∨ resource = none ∨ api_key = none ∨ port % 65536 = 0 ∨
      entity = false
  · rw [twWs_Create_null env host resource api_key gatewayName port messageChunkSize frameSize
      entity h]
  · obtain ⟨a1, a2, a3, a4, a5, a6, a7, _⟩ := halloc
    cases host with
    | none => exact absurd (Or.inl rfl) h
    | some hs =>
      cases resource with
      | none => exact absurd (Or.inr (Or.inl rfl)) h
      | some rs =>
        cases api_key with
        | none => exact absurd (Or.inr (Or.inr (Or.inl rfl))) h
        | some ks =>
          have c1 : ¬ (port % 65536 = 0 ∨ entity = false) := fun hh =>
            h (Or.inr (Or.inr (Or.inr hh)))
          unfold twWs_Create
          simp only []
          rw [if_neg c1, if_neg (not_not.mpr a1), if_neg (not_not.mpr a2),
            if_neg (not_not.mpr a3), if_neg (not_not.mpr a4), if_neg (not_not.mpr a5),
            if_neg (fun hh => hh.2 a6), if_neg (not_not.mpr a7), if_pos hbig]

/-! ## The reads of one poll -/

/-- One poll reads the header and the payload of a frame that is there: two reads. -/
theorem receive_two_reads (ws : twWs) (b0 : Byte) (payload rest : List Byte) (k1 k2 : Nat)
    (more : List Nat)
    (hconn : ws.isConnected = 1) (hstate : ws.read_state = READ_HEADER)
    (hneed : ws.bytesNeeded = 2) (hhp : ws.headerPtr = 0) (hfp : ws.frameBufferPtr = 0)
    (hhl : ws.ws_header.length = 64) (hbl : ws.frameBuffer.length = ws.frameSize + 11)
    (hop : b0 &&& 0x0f = 1 ∨ b0 &&& 0x0f = 2 ∨ b0 &&& 0x0f = 9 ∨ b0 &&& 0x0f = 10)
    (hfin : ¬ b0 &&& 0x80 = 0)
    (hn1 : 1 ≤ payload.length) (h125 : payload.length ≤ 125)
    (hn : payload.length ≤ ws.frameSize)
    (hin : ws.connection.inbound = [b0, payload.length] ++ payload ++ rest)
    (hsc : ws.connection.readScript = (k1 :: k2 :: more).map ReadEvent.upTo)
    (hk1 : 2 ≤ k1) (hk2 : payload.length ≤ k2) :
    ∃ ws1, twWs_Receive ws = Outcome.ret TW_OK ws1 ∧
      ws1.connection.readScript = more.map ReadEvent.upTo ∧
      ws1.connection.inbound = rest ∧
      ws1.calls = deliveredCalls ws (b0 &&& 0x0f) payload payload.length ∧
      ws1.read_state = READ_HEADER ∧ ws1.bytesNeeded = 2 ∧ ws1.headerPtr = 0 ∧
      ws1.frameBufferPtr = 0 := by
  have hc : ¬ ws.isConnected = 0 := by rw [hconn]; decide
  have hg : (if ws.bytesNeeded > (ws.frameSize : Int) - (ws.frameBufferPtr : Int) then
        { ws with frameBufferPtr := 0, read_state := READ_HEADER,
                  bytesNeeded := WS_HEADER_MIN_SIZE, headerPtr := 0 }
      else ws) = ws := by
    split
    · cases ws
      simp_all [WS_HEADER_MIN_SIZE]
    · rfl
  -- the first read: the two header bytes
  obtain ⟨c1, hread1, hc1i, hc1s⟩ : ∃ c1,
      twTlsClient_Read ws.connection ws.bytesNeeded =
        (((2 : Nat) : Int), [b0, payload.length], c1) ∧
      c1.inbound = payload ++ rest ∧ c1.readScript = (k2 :: more).map ReadEvent.upTo := by
    have h := read_spec ws.connection (k1 :: k2 :: more) 2 hsc (by rw [hin]; simp)
    have hgr : grant (k1 :: k2 :: more) 2 = 2 := by
      simp only [grant]
      omega
    rw [hgr, hin] at h
    rw [hneed]
    exact ⟨_, h, rfl, rfl⟩
  obtain ⟨hdr1, hh1⟩ : ∃ hdr1, hdr1 = writeAt ws.ws_header ws.headerPtr [b0, payload.length] :=
    ⟨_, rfl⟩
  have hstep := headerStep_full ws READ_HEADER 2 [b0, payload.length] hdr1 c1 hread1
    (by omega) rfl (by omega) hneed hh1
  have hb0 : hdr1.getD 0 0 = b0 := by
    rw [hh1, hhp]
    exact getD_writeAt_mid ws.ws_header 0 [b0, payload.length] 0 0 (by omega) (by simp)
  have hb1 : hdr1.getD 1 0 = payload.length := by
    rw [hh1, hhp]
    exact getD_writeAt_mid ws.ws_header 0 [b0, payload.length] 1 0 (by omega) (by simp)
  obtain ⟨wsa, hwa⟩ : ∃ wsa, wsa =
      { ws with connection := c1, ws_header := hdr1,
                headerPtr := ws.headerPtr + 2, bytesNeeded := 0 } := ⟨_, rfl⟩
  rw [← hwa] at hstep
  have hop5 : wsa.ws_header.getD 0 0 &&& 0x0f = 1 ∨ wsa.ws_header.getD 0 0 &&& 0x0f = 2 ∨
      wsa.ws_header.getD 0 0 &&& 0x0f = 8 ∨ wsa.ws_header.getD 0 0 &&& 0x0f = 9 ∨
      wsa.ws_header.getD 0 0 &&& 0x0f = 10 := by
    rw [hwa]
    show hdr1.getD 0 0 &&& 0x0f = 1 ∨ _
    rw [hb0]
    rcases hop with h | h | h | h
    · exact Or.inl h
    · exact Or.inr (Or.inl h)
    · exact Or.inr (Or.inr (Or.inr (Or.inl h)))
    · exact Or.inr (Or.inr (Or.inr (Or.inr h)))
  obtain ⟨saved1, hparse⟩ := parseHeader_short wsa READ_HEADER payload.length hop5
    (by rw [hwa]; exact hb1) hn1 (by omega)
  obtain ⟨wsb, hwb⟩ : ∃ wsb, wsb =
      { wsa with bytesNeeded := (payload.length : Int),
                 read_state := frameState (wsa.ws_header.getD 0 0 &&& 0x0f) } := ⟨_, rfl⟩
  rw [← hwb] at hparse
  have hsb : wsb.read_state = frameState (b0 &&& 0x0f) := by
    rw [hwb, hwa]
    show frameState (hdr1.getD 0 0 &&& 0x0f) = _
    rw [hb0]
  have hloop : headerLoop 65 ws READ_HEADER = LoopExit.fallThrough wsb saved1 := by
    rw [headerLoop_step 64 ws READ_HEADER hstate, hstep, hparse]
    exact headerLoop_exit 63 wsb saved1 (by rw [hsb]; exact frameState_ne_header _)
  -- the second read: the payload
  obtain ⟨c2, hread2, hc2i, hc2s⟩ : ∃ c2,
      twTlsClient_Read wsb.connection wsb.bytesNeeded =
        (((payload.length : Nat) : Int), payload, c2) ∧
      c2.inbound = rest ∧ c2.readScript = more.map ReadEvent.upTo := by
    have hbc : wsb.connection = c1 := by rw [hwb, hwa]
    have hbn : wsb.bytesNeeded = (payload.length : Int) := by rw [hwb]
    have h := read_spec c1 (k2 :: more) payload.length hc1s (by rw [hc1i]; simp)
    have hgr : grant (k2 :: more) payload.length = payload.length := by
      simp only [grant]
      omega
    rw [hgr, hc1i, List.take_left, List.drop_left] at h
    rw [hbc, hbn]
    exact ⟨_, h, rfl, rfl⟩
  have hcond : wsb.bytesNeeded ≠ 0 ∧ (wsb.read_state = READ_CONTROL_FRAME ∨
      wsb.read_state = READ_TEXT_FRAME ∨ wsb.read_state = READ_BINARY_FRAME) := by
    refine ⟨?_, ?_⟩
    · rw [hwb]
      show (payload.length : Int) ≠ 0
      omega
    · rw [hsb]
      exact frameState_body _
  have hbfp : wsb.frameBufferPtr = 0 := by rw [hwb, hwa]; exact hfp
  have hbfs : wsb.frameSize = ws.frameSize := by rw [hwb, hwa]
  obtain ⟨wsc, hwc⟩ : ∃ wsc, wsc =
      { wsb with connection := c2,
                 frameBuffer := writeAt wsb.frameBuffer wsb.frameBufferPtr payload,
                 frameBufferPtr := wsb.frameBufferPtr + payload.length,
                 bytesNeeded := 0 } := ⟨_, rfl⟩
  have hbody := readBody_full wsb wsc saved1 payload.length payload c2 hcond hread2 (by omega)
    rfl (by rw [hbfp, hbfs]; omega) (by rw [hwb]) hwc
  have hcb0 : wsc.ws_header.getD 0 0 = b0 := by
    rw [hwc, hwb, hwa]
    exact hb0
  have hbb0 : wsb.ws_header.getD 0 0 = b0 := by
    rw [hwb, hwa]
    exact hb0
  obtain ⟨rs, hdisp⟩ := dispatch_spec wsc saved1 (by rw [hcb0]; exact hop)
  rw [hbb0, if_neg hfin, hdisp] at hbody
  have htake : wsc.frameBuffer.take wsc.frameBufferPtr = payload := by
    rw [hwc]
    show (writeAt wsb.frameBuffer wsb.frameBufferPtr payload).take
      (wsb.frameBufferPtr + payload.length) = payload
    rw [take_writeAt _ _ _ (by rw [hbfp]; omega), hbfp, List.take_zero, List.nil_append]
  have hcfp : wsc.frameBufferPtr = payload.length := by
    rw [hwc]
    show wsb.frameBufferPtr + payload.length = payload.length
    rw [hbfp, Nat.zero_add]
  have hcalls : deliveredCalls wsc (b0 &&& 0x0f) payload payload.length =
      deliveredCalls ws (b0 &&& 0x0f) payload payload.length := by
    apply deliveredCalls_congr <;> rw [hwc, hwb, hwa]
  obtain ⟨wsd, hwd⟩ : ∃ wsd, wsd =
      { wsc with calls := deliveredCalls wsc (wsc.ws_header.getD 0 0 &&& 0x0f)
                   (wsc.frameBuffer.take wsc.frameBufferPtr) wsc.frameBufferPtr,
                 read_state := rs } := ⟨_, rfl⟩
  rw [← hwd] at hbody
  refine ⟨resetForNextMessage wsd, ?_, ?_, ?_, ?_, rfl, rfl, rfl, rfl⟩
  · simp only [twWs_Receive, if_neg hc, hg, hloop]
    exact hbody
  · show wsd.connection.readScript = _
    rw [hwd]
    show wsc.connection.readScript = _
    rw [hwc]
    exact hc2s
  · show wsd.connection.inbound = _
    rw [hwd]
    show wsc.connection.inbound = _
    rw [hwc]
    exact hc2i
  · show wsd.calls = _
    rw [hwd]
    show deliveredCalls wsc (wsc.ws_header.getD 0 0 &&& 0x0f)
      (wsc.frameBuffer.take wsc.frameBufferPtr) wsc.frameBufferPtr = _
    rw [hcb0, htake, hcfp, hcalls]

/-! ## One frame per message -/

theorem write_part (c : twTlsClient) (data : List Byte) :
    ∃ p : List (List Byte), (twTlsClient_Write c data).2.written = c.written ++ p ∧
      (p = [] ∨ ∃ k, p = [data.take k]) := by
  unfold twTlsClient_Write
  split
  · exact ⟨[data], rfl, Or.inr ⟨data.length, by rw [List.take_length]⟩⟩
  · exact ⟨[], by simp, Or.inl rfl⟩
  · rename_i m rest h
    exact ⟨[data.take (min m data.length)], rfl, Or.inr ⟨_, rfl⟩⟩

theorem write_full (c : twTlsClient) (data : List Byte)
    (h : (twTlsClient_Write c data).1 = (data.length : Int)) :
    (twTlsClient_Write c data).2.written = c.written ++ [data] := by
  unfold twTlsClient_Write at h ⊢
  split
  · rfl
  · rename_i rest hs
    simp only [hs] at h
    omega
  · rename_i m rest hs
    simp only [hs, Nat.cast_inj] at h
    show c.written ++ [data.take (min m data.length)] = _
    rw [h, List.take_length]

/-- Whatever the transport does, `sendDataFrame` leaves at most the two writes of its
one frame in the write record. -/
theorem sendDataFrame_written (ws : twWs) (b : List Byte) (L : Nat) (c f t : Bool) :
    OneFrameAtMost ws.connection.written
      (sendDataFrame ws (some b) L c f t).2.connection.written
      (dataFrameHeader (L % 65536) c f t) (b.take (L % 65536)) := by
  obtain ⟨hp, h1, h1p⟩ := write_part ws.connection (dataFrameHeader (L % 65536) c f t)
  obtain ⟨pp, h2, h2p⟩ := write_part
    (twTlsClient_Write ws.connection (dataFrameHeader (L % 65536) c f t)).2 (b.take (L % 65536))
  have hnone : OneFrameAtMost ws.connection.written ws.connection.written
      (dataFrameHeader (L % 65536) c f t) (b.take (L % 65536)) :=
    ⟨[], [], by simp, Or.inl rfl, Or.inl rfl⟩
  have hboth : OneFrameAtMost ws.connection.written
      (twTlsClient_Write (twTlsClient_Write ws.connection
        (dataFrameHeader (L % 65536) c f t)).2 (b.take (L % 65536))).2.written
      (dataFrameHeader (L % 65536) c f t) (b.take (L % 65536)) :=
    ⟨hp, pp, by rw [h2, h1], h1p, h2p⟩
  unfold sendDataFrame
  simp only []
  split
  · exact hnone
  · split
    · exact hnone
    · split
      · exact hboth
      · exact hboth

/-- When `sendDataFrame` returns TW_OK the transport has taken the whole frame: the
header and the `L` payload bytes. -/
theorem sendDataFrame_sent (ws : twWs) (b : List Byte) (L : Nat) (c f t : Bool)
    (hok : (sendDataFrame ws (some b) L c f t).1 = TW_OK) :
    (sendDataFrame ws (some b) L c f t).2.connection.written =
      ws.connection.written ++ [dataFrameHeader (L % 65536) c f t, b.take (L % 65536)] ∧
    (b.take (L % 65536)).length = L % 65536 := by
  have hle1 := write_le ws.connection (dataFrameHeader (L % 65536) c f t)
  have hle2 := write_le (twTlsClient_Write ws.connection
    (dataFrameHeader (L % 65536) c f t)).2 (b.take (L % 65536))
  have hlen : (b.take (L % 65536)).length ≤ L % 65536 := by
    rw [List.length_take]
    exact Nat.min_le_left _ _
  unfold sendDataFrame at hok ⊢
  simp only [] at hok ⊢
  split at hok
  · cases hok
  · split at hok
    · cases hok
    · split at hok
      · cases hok
      · rename_i hconn hfit hsum
        simp only [ne_eq, Decidable.not_not] at hsum
        have hw1 : (twTlsClient_Write ws.connection (dataFrameHeader (L % 65536) c f t)).1 =
            ((dataFrameHeader (L % 65536) c f t).length : Int) := by
          push_cast at hsum
          omega
        have hw2 : (twTlsClient_Write (twTlsClient_Write ws.connection
            (dataFrameHeader (L % 65536) c f t)).2 (b.take (L % 65536))).1 =
            ((b.take (L % 65536)).length : Int) := by
          push_cast at hsum
          omega
        have hfull : (b.take (L % 65536)).length = L % 65536 := by
          push_cast at hsum
          omega
        rw [if_neg hconn, if_neg hfit, if_neg (by simpa using hsum)]
        refine ⟨?_, hfull⟩
        show (twTlsClient_Write (twTlsClient_Write ws.connection _).2 _).2.written = _
        rw [write_full _ _ hw2, write_full _ _ hw1, List.append_assoc]
        rfl

/-- With `messageChunkSize` at most `frameSize`, `twWs_SendMessage` either turns the call
down with the session untouched, or makes the one call of `sendDataFrame` for a
frame that is final and no continuation. -/
theorem sendMessage_cases (ws : twWs) (buf : Option (List Byte)) (length : Nat) (isText : Bool)
    (hinv : ws.messageChunkSize ≤ ws.frameSize) :
    (∃ code, code ≠ TW_OK ∧ twWs_SendMessage ws buf length isText = some (code, ws)) ∨
    (∃ b, buf = some b ∧ 1 ≤ length ∧ length ≤ ws.frameSize ∧
      twWs_SendMessage ws buf length isText =
        some (sendDataFrame ws (some b) length false true isText)) := by
  unfold twWs_SendMessage
  by_cases hc : ws.isConnected = 0
  · rw [if_pos hc]
    exact Or.inl ⟨_, by decide, rfl⟩
  · rw [if_neg hc]
    cases buf with
    | none => exact Or.inl ⟨_, by simp, rfl⟩
    | some b =>
      simp only []
      by_cases h0 : length = 0
      · rw [if_pos h0]
        exact Or.inl ⟨_, by simp, rfl⟩
      · rw [if_neg h0]
        by_cases hbig : ws.messageChunkSize < length
        · rw [if_pos hbig]
          exact Or.inl ⟨_, by decide, rfl⟩
        · rw [if_neg hbig]
          refine Or.inr ⟨b, rfl, by omega, by omega, ?_⟩
          obtain ⟨n, hn⟩ : ∃ n, length = n + 1 := ⟨length - 1, by omega⟩
          have hpos : length > 0 := by omega
          have hfit : ¬ length > ws.frameSize := by omega
          conv_lhs => rw [hn, sendLoop]
          rw [← hn]
          simp only [hpos, hfit, if_true, if_false, ne_eq, not_true_eq_false, List.drop_zero]
          by_cases hr : (sendDataFrame ws (some b) length false true isText).1 = TW_OK
          · rw [if_neg (by simpa using hr)]
            have hend : ∀ (w : twWs) (p fs : Nat), sendLoop b isText n w p 0 fs = some (TW_OK, w) := by
              intro w p fs
              cases n <;> simp [sendLoop]
            rw [hend, ← hr]
          · rw [if_pos hr]

/-! ## The overrun guard -/

/-- A poll that finds `bytesNeeded` above the room left goes on from the reset session
(lines 579-587). -/
theorem receive_overrun (ws ws0 : twWs) (hconn : ws.isConnected ≠ 0)
    (hover : ws.bytesNeeded > (ws.frameSize : Int) - (ws.frameBufferPtr : Int))
    (h0 : ws0 = { ws with frameBufferPtr := 0, read_state := READ_HEADER,
                          bytesNeeded := WS_HEADER_MIN_SIZE, headerPtr := 0 }) :
    twWs_Receive ws =
      match headerLoop 65 ws0 READ_HEADER with
      | LoopExit.done o => o
      | LoopExit.fallThrough ws1 savedState => readBody ws1 savedState := by
  subst h0
  simp only [twWs_Receive, if_neg hconn, if_pos hover]

theorem receive_reset (ws0 : twWs) (hconn : ws0.isConnected ≠ 0)
    (hs : ws0.read_state = READ_HEADER) (hn : ws0.bytesNeeded = WS_HEADER_MIN_SIZE)
    (hf : ws0.frameBufferPtr = 0) (hh : ws0.headerPtr = 0) :
    twWs_Receive ws0 =
      match headerLoop 65 ws0 READ_HEADER with
      | LoopExit.done o => o
      | LoopExit.fallThrough ws1 savedState => readBody ws1 savedState := by
  have hg : (if ws0.bytesNeeded > (ws0.frameSize : Int) - (ws0.frameBufferPtr : Int) then
        { ws0 with frameBufferPtr := 0, read_state := READ_HEADER,
                   bytesNeeded := WS_HEADER_MIN_SIZE, headerPtr := 0 }
      else ws0) = ws0 := by
    split
    · cases ws0
      simp_all
    · rfl
  simp only [twWs_Receive, if_neg hconn, hg]

/-! ## The header walk of the handshake -/

theorem closeText_description (code : Int) :
    (closeText code).1 =
      if code = 1000 then bytes "Normal Close" else if code = 1001 then bytes "Going to Sleep"
      else if code = 1002 then bytes "Protocol Error"
      else if code = 1003 then bytes "Unsupported Data Type"
      else if code = 1007 then bytes "Invalid Data"
      else if code = 1008 then bytes "Policy Violation"
      else if code = 1009 then bytes "Frame too large"
      else if code = 1010 then bytes "No extension found"
      else bytes "Unexpected Condition" := by
  unfold closeText NORMAL_CLOSE GOING_TO_SLEEP PROTOCOL_ERROR
    UNSUPPORTED_DATA_TYPE INVALID_DATA POLICY_VIOLATION FRAME_TOO_LARGE NO_EXTENSION_FOUND
  repeat' split
  all_goals rfl

/-- With SERVER_CLOSED nothing is sent, whatever the local buffer `msg` holds: the call
ends, in a `return` or in the read of `strlen` past `msg`, with the write record as
it was, the session not connected and the transport closed. -/
theorem disconnectEnd_quiet (ws : twWs) (stack : List Byte) :
    ∃ ws1, (disconnectEnd ws stack = Outcome.ret TW_OK ws1 ∨
        disconnectEnd ws stack = Outcome.fault ws1) ∧
      ws1.connection.written = ws.connection.written ∧ ws1.isConnected = 0 ∧
      ws1.connection.closes = ws.connection.closes + 1 := by
  unfold disconnectEnd
  simp only []
  split
  · split
    · exact ⟨_, Or.inr rfl, rfl, rfl, rfl⟩
    · exact ⟨_, Or.inl rfl, rfl, rfl, rfl⟩
  · exact ⟨_, Or.inl rfl, rfl, rfl, rfl⟩

/-! ## A response that arrives in pieces -/

theorem strstr_nil (l : List Byte) : strstr l [] = some 0 := by
  cases l <;> simp [strstr, List.isPrefixOf]

theorem isPrefixOf_take (needle l : List Byte) :
    needle.isPrefixOf l = true ↔ l.take needle.length = needle := by
  rw [List.isPrefixOf_iff_prefix, List.prefix_iff_eq_take]
  exact eq_comm

theorem strstr_some_le (needle : List Byte) :
    ∀ (l : List Byte) (e : Nat), strstr l needle = some e → e + needle.length ≤ l.length := by
  intro l
  induction l with
  | nil =>
    intro e h
    rw [strstr] at h
    split at h
    · rename_i hn
      cases h
      rw [hn]
      exact Nat.le_refl _
    · cases h
  | cons b rest ih =>
    intro e h
    rw [strstr] at h
    split at h
    · rename_i hp
      cases h
      have := (isPrefixOf_take needle (b :: rest)).mp hp
      have hl := congrArg List.length this
      rw [List.length_take] at hl
      omega
    · cases hr : strstr rest needle with
      | none =>
        rw [hr] at h
        cases h
      | some e1 =>
        rw [hr] at h
        simp only [Option.map_some', Option.some.injEq] at h
        have := ih e1 hr
        rw [List.length_cons]
        omega

/-- Where the needle is first found depends only on the bytes up to the end of that
occurrence. -/
theorem strstr_congr_take (needle : List Byte) :
    ∀ (l l1 : List Byte) (e : Nat), strstr l needle = some e →
      l1.take (e + needle.length) = l.take (e + needle.length) →
      strstr l1 needle = some e := by
  intro l
  induction l with
  | nil =>
    intro l1 e h _
    rw [strstr] at h
    split at h
    · rename_i hn
      cases h
      rw [hn]
      exact strstr_nil l1
    · cases h
  | cons b rest ih =>
    intro l1 e h htake
    have hlen := strstr_some_le needle (b :: rest) e h
    rw [strstr] at h
    by_cases hp : needle.isPrefixOf (b :: rest) = true
    · rw [if_pos hp] at h
      cases h
      rw [Nat.zero_add] at htake
      have hp1 : needle.isPrefixOf l1 = true := by
        rw [isPrefixOf_take, htake]
        exact (isPrefixOf_take needle (b :: rest)).mp hp
      cases l1 with
      | nil =>
        have hn : needle = [] := by
          have := (isPrefixOf_take needle []).mp hp1
          rw [List.take_nil] at this
          exact this.symm
        rw [hn]
        exact strstr_nil []
      | cons b1 rest1 =>
        rw [strstr, if_pos hp1]
    · rw [if_neg hp] at h
      cases hr : strstr rest needle with
      | none =>
        rw [hr] at h
        cases h
      | some e1 =>
        rw [hr] at h
        simp only [Option.map_some', Option.some.injEq] at h
        subst h
        have hsucc : e1 + 1 + needle.length = (e1 + needle.length) + 1 := by omega
        rw [hsucc, List.take_succ_cons] at htake
        cases l1 with
        | nil =>
          rw [List.take_nil] at htake
          cases htake
        | cons b1 rest1 =>
          rw [List.take_succ_cons] at htake
          injection htake with hb hrest
          subst hb
          have hp1 : ¬ needle.isPrefixOf (b1 :: rest1) = true := by
            intro hq
            apply hp
            rw [isPrefixOf_take] at hq ⊢
            have hle : needle.length ≤ e1 + needle.length + 1 := by omega
            have h1 : (b1 :: rest1).take needle.length =
                ((b1 :: rest1).take (e1 + needle.length + 1)).take needle.length := by
              rw [List.take_take, Nat.min_eq_left hle]
            have h2 : (b1 :: rest).take needle.length =
                ((b1 :: rest).take (e1 + needle.length + 1)).take needle.length := by
              rw [List.take_take, Nat.min_eq_left hle]
            rw [h2, List.take_succ_cons, ← hrest, ← List.take_succ_cons, ← h1]
            exact hq
          rw [strstr, if_neg hp1, ih rest1 e1 hr hrest]
          rfl

theorem strstr_take_some (needle l : List Byte) (e n : Nat) (h : strstr l needle = some e)
    (hn : e + needle.length ≤ n) : strstr (l.take n) needle = some e := by
  apply strstr_congr_take needle l (l.take n) e h
  rw [List.take_take, Nat.min_eq_left hn]

/-- C1: a session in the state `twWs_Connect` leaves behind (connected, READ_HEADER,
2 bytes needed, both cursors at 0) is polled for one unmasked frame with FIN = 1,
opcode 0x01 (text) or 0x02 (binary) and a payload of 1 to `frameSize` bytes, while
the transport hands the bytes over in reads of at most `sched` bytes each (0 is a
timeout) and without limit once `sched` is used up.  Then any number `m` of
`twWs_Receive` calls above the length of `sched` all return TW_OK, the trace grows
by exactly one call, of the text (binary) callback with the payload and its
length (by nothing when that callback is not registered), and the session ends
in READ_HEADER with 2 bytes needed and both cursors at 0. -/
theorem single_frame_delivery (ws : twWs) (payload : List Byte) (isText : Bool)
    (sched : List Nat) (m : Nat)
    (hconn : ws.isConnected = 1) (hstate : ws.read_state = READ_HEADER)
    (hneed : ws.bytesNeeded = 2) (hhp : ws.headerPtr = 0) (hfp : ws.frameBufferPtr = 0)
    (hhl : ws.ws_header.length = 64) (hbl : ws.frameBuffer.length = ws.frameSize + 11)
    (_hfs16 : ws.frameSize ≤ 65535)
    (hn1 : 1 ≤ payload.length) (hn : payload.length ≤ ws.frameSize)
    (hin : ws.connection.inbound = inboundFrame (if isText then 0x81 else 0x82) payload)
    (hsc : ws.connection.readScript = sched.map ReadEvent.upTo)
    (hm : sched.length < m) :
    ∃ ws1, receiveMany m ws = (List.replicate m TW_OK, Outcome.ret TW_OK ws1) ∧
      ws1.calls = ws.calls ++
        (if isText then
          (if ws.on_ws_textMessage then [Call.textMessage payload payload.length] else [])
        else
          (if ws.on_ws_binaryMessage then [Call.binaryMessage payload payload.length] else [])) ∧
      ws1.read_state = READ_HEADER ∧ ws1.bytesNeeded = 2 ∧ ws1.headerPtr = 0 ∧
      ws1.frameBufferPtr = 0 := by
  have hop : (if isText then 0x81 else 0x82) &&& 0x0f = 1 ∨
      (if isText then 0x81 else 0x82) &&& 0x0f = 2 ∨
      (if isText then 0x81 else 0x82) &&& 0x0f = 9 ∨
      (if isText then 0x81 else 0x82) &&& 0x0f = 10 := by
    cases isText <;> decide
  obtain ⟨ws1, he, hid⟩ := receiveMany_spec ws (if isText then 0x81 else 0x82) payload hn1 hn hop
    m sched ws (start_polled ws _ payload sched hconn hstate hneed hhp hfp hhl hbl hin hsc) hm
  refine ⟨ws1, he, ?_, hid.state, hid.need, hid.hp, hid.fp⟩
  rw [hid.calls_eq]
  have e1 : (0x81 : Nat) &&& 0x0f = 1 := by decide
  have e2 : (0x81 : Nat) &&& 0x80 = 0x80 := by decide
  have e3 : (0x82 : Nat) &&& 0x0f = 2 := by decide
  have e4 : (0x82 : Nat) &&& 0x80 = 0x80 := by decide
  cases isText
  · cases hcb : ws.on_ws_binaryMessage <;> simp [expectedCalls, deliveredCalls, hcb, e3, e4]
  · cases hcb : ws.on_ws_textMessage <;> simp [expectedCalls, deliveredCalls, hcb, e1, e2]

/-- C1, at the frame 0x81 0x05 "hello" handed over in reads of at most 1, 0 and 3
bytes and then without limit, polled 4 times. -/
theorem single_frame_delivery_witness :
    ∃ ws1, receiveMany 4 (connectedSession 16 [0x81, 5, 104, 101, 108, 108, 111]
          [ReadEvent.upTo 1, ReadEvent.upTo 0, ReadEvent.upTo 3]) =
        ([TW_OK, TW_OK, TW_OK, TW_OK], Outcome.ret TW_OK ws1) ∧
      ws1.calls = [Call.textMessage [104, 101, 108, 108, 111] 5] ∧
      ws1.read_state = READ_HEADER ∧ ws1.bytesNeeded = 2 ∧ ws1.headerPtr = 0 ∧
      ws1.frameBufferPtr = 0 :=
  single_frame_delivery (connectedSession 16 [0x81, 5, 104, 101, 108, 108, 111]
      [ReadEvent.upTo 1, ReadEvent.upTo 0, ReadEvent.upTo 3]) [104, 101, 108, 108, 111] true
    [1, 0, 3] 4 (by decide) (by decide) (by decide) (by decide) (by decide) (by decide)
    (by decide) (by decide) (by decide) (by decide) (by decide) (by decide) (by decide)

/-- C2 (as stated, refuted): for the non-final binary fragment 0x02 0x03 "abc", with
the binary callback registered, `twWs_Receive` reads the whole frame, returns
TW_OK and resets the session, and no callback has been invoked. -/
theorem fragment_delivery_counterexample :
    (connectedSession 16 [0x02, 3, 97, 98, 99] []).on_ws_binaryMessage = true ∧
    ∃ ws1, twWs_Receive (connectedSession 16 [0x02, 3, 97, 98, 99] []) =
        Outcome.ret TW_OK ws1 ∧
      ws1.calls = [] ∧ ws1.connection.inbound = [] ∧ ws1.read_state = READ_HEADER ∧
      ws1.bytesNeeded = 2 ∧ ws1.headerPtr = 0 ∧ ws1.frameBufferPtr = 0 :=
  ⟨rfl, _, rfl, rfl, rfl, rfl, rfl, rfl, rfl⟩

/-- C2 (amended): a session in the state `twWs_Connect` leaves behind is polled for
one unmasked frame with FIN = 0, opcode 0x01 or 0x02 and a payload of 1 to
`frameSize` bytes, handed over in reads of at most `sched` bytes each.  Then any
number `m` of `twWs_Receive` calls above the length of `sched` all return TW_OK,
no callback is invoked (the trace is unchanged), and the session ends in
READ_HEADER with 2 bytes needed and both cursors at 0. -/
theorem fragment_not_delivered (ws : twWs) (payload : List Byte) (isText : Bool)
    (sched : List Nat) (m : Nat)
    (hconn : ws.isConnected = 1) (hstate : ws.read_state = READ_HEADER)
    (hneed : ws.bytesNeeded = 2) (hhp : ws.headerPtr = 0) (hfp : ws.frameBufferPtr = 0)
    (hhl : ws.ws_header.length = 64) (hbl : ws.frameBuffer.length = ws.frameSize + 11)
    (_hfs16 : ws.frameSize ≤ 65535)
    (hn1 : 1 ≤ payload.length) (hn : payload.length ≤ ws.frameSize)
    (hin : ws.connection.inbound = inboundFrame (if isText then 0x01 else 0x02) payload)
    (hsc : ws.connection.readScript = sched.map ReadEvent.upTo)
    (hm : sched.length < m) :
    ∃ ws1, receiveMany m ws = (List.replicate m TW_OK, Outcome.ret TW_OK ws1) ∧
      ws1.calls = ws.calls ∧
      ws1.read_state = READ_HEADER ∧ ws1.bytesNeeded = 2 ∧ ws1.headerPtr = 0 ∧
      ws1.frameBufferPtr = 0 := by
  have hop : (if isText then 0x01 else 0x02) &&& 0x0f = 1 ∨
      (if isText then 0x01 else 0x02) &&& 0x0f = 2 ∨
      (if isText then 0x01 else 0x02) &&& 0x0f = 9 ∨
      (if isText then 0x01 else 0x02) &&& 0x0f = 10 := by
    cases isText <;> decide
  obtain ⟨ws1, he, hid⟩ := receiveMany_spec ws (if isText then 0x01 else 0x02) payload hn1 hn hop
    m sched ws (start_polled ws _ payload sched hconn hstate hneed hhp hfp hhl hbl hin hsc) hm
  refine ⟨ws1, he, ?_, hid.state, hid.need, hid.hp, hid.fp⟩
  rw [hid.calls_eq]
  have e1 : (0x01 : Nat) &&& 0x80 = 0 := by decide
  have e2 : (0x02 : Nat) &&& 0x80 = 0 := by decide
  cases isText <;> simp [expectedCalls, e1, e2]

/-- C2 (amended), at the fragment 0x02 0x03 "abc" handed over in reads of at most 2
and 1 bytes and then without limit, polled 3 times. -/
theorem fragment_not_delivered_witness :
    ∃ ws1, receiveMany 3 (connectedSession 16 [0x02, 3, 97, 98, 99]
          [ReadEvent.upTo 2, ReadEvent.upTo 1]) =
        ([TW_OK, TW_OK, TW_OK], Outcome.ret TW_OK ws1) ∧
      ws1.calls = [] ∧ ws1.read_state = READ_HEADER ∧ ws1.bytesNeeded = 2 ∧
      ws1.headerPtr = 0 ∧ ws1.frameBufferPtr = 0 :=
  fragment_not_delivered (connectedSession 16 [0x02, 3, 97, 98, 99]
      [ReadEvent.upTo 2, ReadEvent.upTo 1]) [97, 98, 99] false
    [2, 1] 3 (by decide) (by decide) (by decide) (by decide) (by decide) (by decide)
    (by decide) (by decide) (by decide) (by decide) (by decide) (by decide) (by decide)

/-- C3 (the code at the failing input): for 0x02 0x03 "abc" followed by the final
continuation frame 0x80 0x02 "de", three polls return TW_OK and consume all nine
bytes, but no callback is ever invoked: the two payload bytes "de" have been
stored in `ws_header` behind the header 0x80 0x02 (`headerPtr` is 4) and the
session is still in READ_HEADER, waiting for 2 more header bytes. -/
theorem continuation_frame_not_delivered :
    ∃ ws1, receiveMany 3 (connectedSession 16 [0x02, 3, 97, 98, 99, 0x80, 2, 100, 101] []) =
        ([TW_OK, TW_OK, TW_OK], Outcome.ret TW_OK ws1) ∧
      ws1.calls = [] ∧ ws1.connection.inbound = [] ∧ ws1.read_state = READ_HEADER ∧
      ws1.headerPtr = 4 ∧ ws1.ws_header.take 4 = [0x80, 2, 100, 101] ∧
      ws1.bytesNeeded = 2 ∧ ws1.frameBufferPtr = 0 :=
  ⟨_, rfl, rfl, rfl, rfl, rfl, rfl, rfl, rfl⟩

/-- C4 (the code at the failing input): for 0x02 0x03 "abc", 0x89 0x04 "PING",
0x80 0x02 "de", four polls return TW_OK and consume all bytes; the only callback
invoked is ping("PING", 4).  After the ping (two polls) the session is in
READ_HEADER, not in READ_BINARY_FRAME. -/
theorem ping_between_fragments :
    (∃ ws1, receiveMany 4 (connectedSession 16
          [0x02, 3, 97, 98, 99, 0x89, 4, 80, 73, 78, 71, 0x80, 2, 100, 101] []) =
        ([TW_OK, TW_OK, TW_OK, TW_OK], Outcome.ret TW_OK ws1) ∧
      ws1.calls = [Call.ping [80, 73, 78, 71] 4] ∧ ws1.connection.inbound = []) ∧
    (∃ ws2, receiveMany 2 (connectedSession 16
          [0x02, 3, 97, 98, 99, 0x89, 4, 80, 73, 78, 71, 0x80, 2, 100, 101] []) =
        ([TW_OK, TW_OK], Outcome.ret TW_OK ws2) ∧
      ws2.calls = [Call.ping [80, 73, 78, 71] 4] ∧ ws2.read_state = READ_HEADER ∧
      ws2.connection.inbound = [0x80, 2, 100, 101]) :=
  ⟨⟨_, rfl, rfl, rfl⟩, ⟨_, rfl, rfl, rfl, rfl⟩⟩

/-- C5 (as stated, refuted): with `frameSize` 10 and `messageChunkSize` 5 a connected
session sends nothing for a 7-byte message (7 is at most `frameSize`) and
returns TW_WEBSOCKET_FRAME_TOO_LARGE; and for a message of length 0 it sends
nothing and returns -1. -/
theorem sendMessage_short_counterexample :
    twWs_SendMessage { frameSize := 10, messageChunkSize := 5, isConnected := 1 }
        (some [1, 2, 3, 4, 5, 6, 7]) 7 false =
      some (TW_WEBSOCKET_FRAME_TOO_LARGE,
        { frameSize := 10, messageChunkSize := 5, isConnected := 1 }) ∧
    twWs_SendMessage { frameSize := 10, messageChunkSize := 5, isConnected := 1 }
        (some []) 0 false =
      some (literal (-1), { frameSize := 10, messageChunkSize := 5, isConnected := 1 }) := by
  decide

/-- C5 (amended): a connected session whose transport accepts the writes sends a
message of 1 to `messageChunkSize` bytes that also fits `frameSize` as exactly one
frame: one header with FIN = 1 and opcode 0x01 (text) or 0x02 (binary), then the
whole message, and returns TW_OK. -/
theorem sendMessage_single_frame (ws : twWs) (msg : List Byte) (isText : Bool)
    (hconn : ws.isConnected = 1) (h1 : 1 ≤ msg.length)
    (hchunk : msg.length ≤ ws.messageChunkSize) (hfit : msg.length ≤ ws.frameSize)
    (hfs : ws.frameSize ≤ 65535) (hw : ws.connection.writeScript = []) :
    twWs_SendMessage ws (some msg) msg.length isText =
      some (TW_OK, { ws with connection := { ws.connection with written :=
        ws.connection.written ++
          [(if isText then 0x81 else 0x82) ::
            (if msg.length < 126 then [0x80 ||| msg.length, 0, 0, 0, 0]
              else [0xFE, msg.length / 256, msg.length % 256, 0, 0, 0, 0]), msg] } }) := by
  have hc : ¬ ws.isConnected = 0 := by rw [hconn]; decide
  have h0 : ¬ msg.length = 0 := by omega
  have h2 : ¬ ws.messageChunkSize < msg.length := by omega
  obtain ⟨fuel, hfuel⟩ : ∃ fuel, msg.length = fuel + 1 := ⟨msg.length - 1, by omega⟩
  have hloop := sendLoop_single msg isText fuel ws msg.length hconn h1 (le_refl _) hfit hfs hw
  rw [← hfuel] at hloop
  simp only [twWs_SendMessage, hc, h0, h2, if_false, hloop, List.take_length]
  rw [dataFrameHeader_bytes msg.length false true isText (by omega)]
  cases isText <;> simp

/-- C5 (amended), at a 5-byte text message on a session with `frameSize` 16. -/
theorem sendMessage_single_frame_witness :
    twWs_SendMessage (connectedSession 16 [] []) (some [104, 101, 108, 108, 111]) 5 true =
      some (TW_OK, { connectedSession 16 [] [] with connection :=
        { written := [[0x81, 0x85, 0, 0, 0, 0], [104, 101, 108, 108, 111]] } }) :=
  sendMessage_single_frame (connectedSession 16 [] []) [104, 101, 108, 108, 111] true
    (by decide) (by decide) (by decide) (by decide) (by decide) (by decide)

/-- C6 (as stated, refuted): a connected session with `frameSize` 4 sends nothing for
a 7-byte message.  With `messageChunkSize` 4 (as `twWs_Create` allows) the message
is rejected up front with TW_WEBSOCKET_FRAME_TOO_LARGE; with `messageChunkSize`
100 the loop passes all 7 bytes to `sendDataFrame`, which refuses them with
TW_WEBSOCKET_MSG_TOO_LARGE. -/
theorem sendMessage_long_counterexample :
    twWs_SendMessage { frameSize := 4, messageChunkSize := 4, isConnected := 1 }
        (some [1, 2, 3, 4, 5, 6, 7]) 7 false =
      some (TW_WEBSOCKET_FRAME_TOO_LARGE,
        { frameSize := 4, messageChunkSize := 4, isConnected := 1 }) ∧
    twWs_SendMessage { frameSize := 4, messageChunkSize := 100, isConnected := 1 }
        (some [1, 2, 3, 4, 5, 6, 7]) 7 false =
      some (TW_WEBSOCKET_MSG_TOO_LARGE,
        { frameSize := 4, messageChunkSize := 100, isConnected := 1 }) := by
  decide

/-- C6 (amended): on a connected session with `messageChunkSize` at most `frameSize`
(what `twWs_Create` enforces), a message longer than `frameSize` is not sent at
all: `twWs_SendMessage` returns TW_WEBSOCKET_FRAME_TOO_LARGE and the session,
transport included, is unchanged. -/
theorem sendMessage_long_rejected (ws : twWs) (buf : List Byte) (length : Nat) (isText : Bool)
    (hconn : ws.isConnected = 1) (hinv : ws.messageChunkSize ≤ ws.frameSize)
    (hlong : ws.frameSize < length) :
    twWs_SendMessage ws (some buf) length isText = some (TW_WEBSOCKET_FRAME_TOO_LARGE, ws) := by
  have hc : ¬ ws.isConnected = 0 := by rw [hconn]; decide
  have h0 : ¬ length = 0 := by omega
  have h2 : ws.messageChunkSize < length := by omega
  simp [twWs_SendMessage, hc, h0, h2]

/-- C6 (amended), at a 7-byte message on a session with `frameSize` 4. -/
theorem sendMessage_long_rejected_witness :
    twWs_SendMessage (connectedSession 4 [] []) (some [1, 2, 3, 4, 5, 6, 7]) 7 true =
      some (TW_WEBSOCKET_FRAME_TOO_LARGE, connectedSession 4 [] []) :=
  sendMessage_long_rejected (connectedSession 4 [] []) [1, 2, 3, 4, 5, 6, 7] 7 true
    (by decide) (by decide) (by decide)

/-- C7: on a connected session, a non-NULL message longer than `messageChunkSize` is
rejected up front: `twWs_SendMessage` returns TW_WEBSOCKET_FRAME_TOO_LARGE and the
session (transport, connection flag, cursors, read state) is unchanged. -/
theorem sendMessage_chunk_limit (ws : twWs) (buf : List Byte) (length : Nat) (isText : Bool)
    (hconn : ws.isConnected = 1) (hlen : ws.messageChunkSize < length) :
    twWs_SendMessage ws (some buf) length isText = some (TW_WEBSOCKET_FRAME_TOO_LARGE, ws) := by
  have hc : ¬ ws.isConnected = 0 := by rw [hconn]; decide
  have h0 : ¬ length = 0 := by omega
  simp [twWs_SendMessage, hc, h0, hlen]

/-- C7, at a 3-byte message on a session with `messageChunkSize` 2 and `frameSize` 8. -/
theorem sendMessage_chunk_limit_witness :
    twWs_SendMessage { frameSize := 8, messageChunkSize := 2, isConnected := 1 }
        (some [7, 8, 9]) 3 false =
      some (TW_WEBSOCKET_FRAME_TOO_LARGE,
        { frameSize := 8, messageChunkSize := 2, isConnected := 1 }) :=
  sendMessage_chunk_limit { frameSize := 8, messageChunkSize := 2, isConnected := 1 }
    [7, 8, 9] 3 false (by decide) (by decide)

/-- C8: on a connected session whose transport accepts the writes, `sendDataFrame`
for `L` payload bytes, `L` at most `frameSize`, writes the header and then the
payload, nothing else, and returns TW_OK.  Byte 0 is (FIN ? 0x80 : 0) | opcode with
opcode 0 for a continuation, else 1 for text, else 2; for `L` below 126 byte 1 is
0x80 | L and four zero bytes follow, otherwise byte 1 is 0xFE, bytes 2 and 3 are
`L` big-endian and four zero bytes follow; the payload is unchanged. -/
theorem sendDataFrame_encoding (ws : twWs) (msg : List Byte) (L : Nat)
    (isContinuation isFinal isText : Bool)
    (hconn : ws.isConnected = 1) (hlen : L ≤ msg.length) (hL : L ≤ ws.frameSize)
    (hfs : ws.frameSize ≤ 65535) (hw : ws.connection.writeScript = []) :
    sendDataFrame ws (some msg) L isContinuation isFinal isText =
      (TW_OK, { ws with connection := { ws.connection with written :=
        ws.connection.written ++
          [((if isFinal then 0x80 else 0) |||
              (if isContinuation then 0x00 else if isText then 0x01 else 0x02)) ::
            (if L < 126 then [0x80 ||| L, 0, 0, 0, 0]
              else [0xFE, L / 256, L % 256, 0, 0, 0, 0]),
           msg.take L] } }) := by
  rw [sendDataFrame_ok ws msg L isContinuation isFinal isText hconn hlen hL hfs hw,
    dataFrameHeader_bytes L isContinuation isFinal isText (by omega)]

/-- C8, at a final binary frame of 3 bytes on a session with `frameSize` 16. -/
theorem sendDataFrame_encoding_witness :
    sendDataFrame (connectedSession 16 [] []) (some [97, 98, 99]) 3 false true false =
      (TW_OK, { connectedSession 16 [] [] with connection :=
        { written := [[0x82, 0x83, 0, 0, 0, 0], [97, 98, 99]] } }) :=
  sendDataFrame_encoding (connectedSession 16 [] []) [97, 98, 99] 3 false true false
    (by decide) (by decide) (by decide) (by decide) (by decide)

/-- C9 (as stated, refuted): for a final binary frame of 5 bytes `sendDataFrame` writes
the header 0x82 0x85 0 0 0 0; a session that receives these six bytes takes byte 1
(0x85 = 133) as the payload length: it is in READ_BINARY_FRAME, has put the four
mask bytes in the frame buffer and needs 129 more bytes, not 5. -/
theorem header_round_trip_counterexample :
    (sendDataFrame (connectedSession 16 [] []) (some [104, 101, 108, 108, 111]) 5
        false true false).2.connection.written =
      [[0x82, 0x85, 0, 0, 0, 0], [104, 101, 108, 108, 111]] ∧
    ∃ ws1, twWs_Receive (connectedSession 16 [0x82, 0x85, 0, 0, 0, 0] []) =
        Outcome.ret TW_OK ws1 ∧
      ws1.read_state = READ_BINARY_FRAME ∧ ws1.frameBufferPtr = 4 ∧ ws1.bytesNeeded = 129 :=
  ⟨rfl, _, rfl, rfl, rfl, rfl⟩

/-- C9 (amended): take the header `sendDataFrame` prepares for a payload length `L` up
to 65535 (and up to `frameSize`), any FIN flag and any opcode (continuation, text,
binary), clear the mask bit of byte 1 and leave out the four mask-key bytes.  When
these 2 or 4 bytes are what a session has read into `ws_header`, the header decode
of `twWs_Receive` stores `L` in `bytesNeeded` and goes on to the opcode switch,
and the low four bits of byte 0 are the original opcode, its top bit the FIN
flag. -/
theorem header_round_trip_unmasked (ws : twWs) (saved : ReadState) (L : Nat)
    (isContinuation isFinal isText : Bool) (rest : List Byte)
    (hL : L ≤ 65535) (hfs : L ≤ ws.frameSize)
    (hhdr : ws.ws_header =
      unmaskedHeader (dataFrameHeader L isContinuation isFinal isText) ++ rest)
    (hcnt : ws.headerPtr =
      (unmaskedHeader (dataFrameHeader L isContinuation isFinal isText)).length) :
    parseHeader ws saved = headerComplete { ws with bytesNeeded := (L : Int) } saved ∧
    ws.ws_header.getD 0 0 &&& 0x0f =
      (if isContinuation then 0x00 else if isText then 0x01 else 0x02) ∧
    (ws.ws_header.getD 0 0 &&& 0x80 = 0x80 ↔ isFinal = true) := by
  rw [unmaskedHeader_dataFrameHeader L isContinuation isFinal isText hL] at hhdr hcnt
  have hop := dataFrameHeader_opcode L isContinuation isFinal isText
  have hb0 : ws.ws_header.getD 0 0 =
      (dataFrameHeader L isContinuation isFinal isText).getD 0 0 := by
    rw [hhdr]
    rfl
  refine ⟨?_, by rw [hb0]; exact hop.1, by rw [hb0]; exact hop.2⟩
  by_cases h : L < 126
  · rw [if_pos h] at hhdr hcnt
    have h1 : ws.ws_header.getD 1 0 = L := by
      rw [hhdr]
      rfl
    have ha : ¬ L = 127 := by omega
    have hb : ¬ L = 126 := by omega
    simp [parseHeader, h1, ha, hb, -List.getD_eq_getElem?_getD]
  · rw [if_neg h] at hhdr hcnt
    have h1 : ws.ws_header.getD 1 0 = 126 := by
      rw [hhdr]
      rfl
    have h2 : ws.ws_header.getD 2 0 = L / 256 := by
      rw [hhdr]
      rfl
    have h3 : ws.ws_header.getD 3 0 = L % 256 := by
      rw [hhdr]
      rfl
    have hc : ¬ ws.headerPtr < 4 := by
      rw [hcnt]
      simp
    have hsum : L / 256 * 256 + L % 256 = L := Nat.div_add_mod' _ _
    simp [parseHeader, h1, h2, h3, hc, hsum, hfs, -List.getD_eq_getElem?_getD]

/-- C9 (amended), at the header of a final text frame of 300 bytes: 0x81 0x7E 0x01 0x2C
once unmasked. -/
theorem header_round_trip_unmasked_witness :
    parseHeader { connectedSession 512 [] [] with
        ws_header := [0x81, 0x7E, 0x01, 0x2C] ++ List.replicate 60 0, headerPtr := 4 }
        READ_HEADER =
      headerComplete { connectedSession 512 [] [] with
        ws_header := [0x81, 0x7E, 0x01, 0x2C] ++ List.replicate 60 0, headerPtr := 4,
        bytesNeeded := 300 } READ_HEADER ∧
    (0x81 : Nat) &&& 0x0f = 0x01 ∧ ((0x81 : Nat) &&& 0x80 = 0x80 ↔ true = true) :=
  header_round_trip_unmasked { connectedSession 512 [] [] with
      ws_header := [0x81, 0x7E, 0x01, 0x2C] ++ List.replicate 60 0, headerPtr := 4 }
    READ_HEADER 300 false true true (List.replicate 60 0) (by decide) (by decide)
    (by decide) (by decide)

/-- C10 (the code at the failing input): for the frame 0x80 0x02 "de" (length byte 2)
one `twWs_Receive` call stores four bytes in `ws_header`, the two payload bytes
included, and none in the frame buffer; it then again waits for 2 bytes in
READ_HEADER. -/
theorem continuation_header_bytes :
    ∃ ws1, twWs_Receive (connectedSession 16 [0x80, 2, 100, 101] []) = Outcome.ret TW_OK ws1 ∧
      ws1.headerPtr = 4 ∧ ws1.ws_header.take 4 = [0x80, 2, 100, 101] ∧
      ws1.frameBufferPtr = 0 ∧ ws1.read_state = READ_HEADER ∧ ws1.bytesNeeded = 2 ∧
      ws1.connection.inbound = [] ∧ ws1.calls = [] :=
  ⟨_, rfl, rfl, rfl, rfl, rfl, rfl, rfl, rfl⟩

/-- C11 (the code at the failing input): with `frameSize` 16, the frame 0x82 0x14
announcing 20 payload bytes in byte 1 is not rejected: one poll returns TW_OK,
copies all 20 bytes into the frame buffer, hands them to the binary callback and
leaves the session connected with the transport untouched.  For 0x82 0x64
(100 bytes) the same poll writes past the end of the 27-byte frame buffer.  The
16-bit form 0x82 0x7E 0x00 0x11 of a 17-byte frame is rejected as described: the
payload stays unread, the session is disconnected and the transport restarted. -/
theorem oversized_short_frame_accepted :
    (∃ ws1, twWs_Receive (connectedSession 16 ([0x82, 20] ++ List.range 20) []) =
        Outcome.ret TW_OK ws1 ∧
      ws1.calls = [Call.binaryMessage (List.range 20) 20] ∧ ws1.isConnected = 1 ∧
      ws1.connection.reconnects = 0 ∧ ws1.connection.inbound = []) ∧
    (∃ ws2, twWs_Receive (connectedSession 16 ([0x82, 100] ++ List.range 100) []) =
        Outcome.fault ws2) ∧
    (∃ ws3, twWs_Receive (connectedSession 16 ([0x82, 126, 0, 17] ++ List.range 17) []) =
        Outcome.ret TW_ERROR_READING_FROM_WEBSOCKET ws3 ∧
      ws3.calls = [Call.close socketErrorMsg 12] ∧ ws3.isConnected = 0 ∧
      ws3.connection.reconnects = 1 ∧ ws3.connection.inbound = List.range 17 ∧
      ws3.frameBuffer = List.replicate 27 0) :=
  ⟨⟨_, rfl, rfl, rfl, rfl, rfl⟩, ⟨_, rfl⟩, ⟨_, rfl, rfl, rfl, rfl, rfl, rfl⟩⟩

/-- C13: whenever `twWs_Receive` returns TW_ERROR_READING_FROM_WEBSOCKET, the session
it returns is disconnected (`twWs_IsConnected` is FALSE), `connect_state` is 0, both
cursors are at 0, the transport has been asked to reconnect exactly once, and the
trace has grown by exactly one call of the close callback with "Socket Error" and
12 when that callback is registered, by nothing otherwise. -/
theorem fatal_error_postcondition (ws ws1 : twWs)
    (h : twWs_Receive ws = Outcome.ret TW_ERROR_READING_FROM_WEBSOCKET ws1) :
    twWs_IsConnected ws1 = false ∧ ws1.isConnected = 0 ∧ ws1.connect_state = 0 ∧
    ws1.headerPtr = 0 ∧ ws1.frameBufferPtr = 0 ∧
    ws1.connection.reconnects = ws.connection.reconnects + 1 ∧
    ws1.calls = ws.calls ++ (if ws.on_ws_close then [Call.close socketErrorMsg 12] else []) := by
  obtain ⟨h1, h2, h3, h4, h5, h6⟩ := fatalPost_receive ws ws1 h
  exact ⟨by simp [twWs_IsConnected, h1], h1, h2, h3, h4, h5, h6⟩

/-- C13, at a poll whose transport read fails, in the middle of a binary frame. -/
theorem fatal_error_postcondition_witness :
    twWs_Receive failingReadSession =
      Outcome.ret TW_ERROR_READING_FROM_WEBSOCKET failedReadSession ∧
    twWs_IsConnected failedReadSession = false ∧ failedReadSession.isConnected = 0 ∧
    failedReadSession.connect_state = 0 ∧ failedReadSession.headerPtr = 0 ∧
    failedReadSession.frameBufferPtr = 0 ∧
    failedReadSession.connection.reconnects = failingReadSession.connection.reconnects + 1 ∧
    failedReadSession.calls = failingReadSession.calls ++
      (if failingReadSession.on_ws_close then [Call.close socketErrorMsg 12] else []) :=
  ⟨by decide, fatal_error_postcondition failingReadSession failedReadSession (by decide)⟩

/-- C15 (as stated, refuted at n = 0): the close frame 0x88 0x00 is dropped.  The
poll that reads it returns TW_OK, the close callback is not invoked although it
is registered, and the session stays connected, so `twWs_IsConnected` still
returns TRUE and the next poll returns TW_OK again. -/
theorem close_frame_empty_counterexample :
    ∃ ws1, receiveMany 2 (connectedSession 16 [0x88, 0] []) =
        ([TW_OK, TW_OK], Outcome.ret TW_OK ws1) ∧
      ws1.calls = [] ∧ ws1.isConnected = 1 ∧ twWs_IsConnected ws1 = true ∧
      ws1.connection.inbound = [] ∧ (connectedSession 16 [0x88, 0] []).on_ws_close = true :=
  ⟨_, rfl, rfl, rfl, rfl, rfl, rfl⟩

/-- C15 (amended): a connected session at the start of a frame receives the close
frame with first byte `b0` (FIN set, opcode 0x08) and a payload of n bytes,
1 ≤ n ≤ min(125, frameSize), while the transport hands the bytes over in the
pieces of any schedule `sched`.  Of `m > sched.length` polls the first `j ≥ 1`
return TW_OK and the others TW_WEBSOCKET_NOT_CONNECTED; afterwards the session is
disconnected (`twWs_IsConnected` returns FALSE) and the close callback, if
registered, has been invoked exactly once, with the payload and n, and nothing
else has been invoked. -/
theorem close_frame_dispatch (ws : twWs) (b0 : Byte) (payload : List Byte) (sched : List Nat)
    (m : Nat) (hconn : ws.isConnected = 1) (hstate : ws.read_state = READ_HEADER)
    (hneed : ws.bytesNeeded = 2) (hhp : ws.headerPtr = 0) (hfp : ws.frameBufferPtr = 0)
    (hhl : ws.ws_header.length = 64)
    (hbl : ws.frameBuffer.length = ws.frameSize + 11)
    (hop : b0 &&& 0x0f = 8) (hfin : b0 &&& 0x80 ≠ 0)
    (hn1 : 1 ≤ payload.length) (_h125 : payload.length ≤ 125)
    (hfs : payload.length ≤ ws.frameSize)
    (hin : ws.connection.inbound = inboundFrame b0 payload)
    (hsc : ws.connection.readScript = sched.map ReadEvent.upTo) (hm : sched.length < m) :
    ∃ j ws1, 1 ≤ j ∧ j ≤ m ∧
      receiveMany m ws = (List.replicate j TW_OK ++
        List.replicate (m - j) TW_WEBSOCKET_NOT_CONNECTED, Outcome.ret TW_OK ws1) ∧
      ws1.isConnected = 0 ∧ twWs_IsConnected ws1 = false ∧
      ws1.calls = ws.calls ++
        (if ws.on_ws_close then [Call.close payload payload.length] else []) := by
  have hstart : InProgress ws b0 payload sched ws := by
    refine Or.inl ⟨0, ⟨hconn, rfl, rfl, rfl, rfl, rfl, rfl, hhl, hbl, ?_, hsc⟩, rfl, hstate,
      hhp, hfp, ?_, ?_, ?_⟩
    · simpa using hin
    · simpa using hneed
    · intro i hi
      exact absurd hi (Nat.not_lt_zero i)
    · rcases headerSize_cases payload.length with ⟨_, h⟩ | ⟨_, h⟩ <;> omega
  obtain ⟨j, ws1, hj1, hjm, he, hcl⟩ :=
    receiveMany_close ws b0 payload hn1 hfs hop hfin m sched ws hstart hm
  refine ⟨j, ws1, hj1, hjm, he, hcl.disconnected, ?_, ?_⟩
  · simp [twWs_IsConnected, hcl.disconnected]
  · rw [hcl.calls_eq, closeCalls]
    split <;> simp

/-- Witness for C15: the close frame 0x88 0x02 0x03 0xE8 (status 1000), handed over
in pieces of 1 and 2 bytes, polled three times. -/
theorem close_frame_dispatch_witness :
    ∃ j ws1, 1 ≤ j ∧ j ≤ 3 ∧
      receiveMany 3 (connectedSession 16 [0x88, 2, 3, 232] [ReadEvent.upTo 1, ReadEvent.upTo 2]) =
        (List.replicate j TW_OK ++
          List.replicate (3 - j) TW_WEBSOCKET_NOT_CONNECTED, Outcome.ret TW_OK ws1) ∧
      ws1.isConnected = 0 ∧ twWs_IsConnected ws1 = false ∧
      ws1.calls = (connectedSession 16 [0x88, 2, 3, 232]
          [ReadEvent.upTo 1, ReadEvent.upTo 2]).calls ++
        (if (connectedSession 16 [0x88, 2, 3, 232]
            [ReadEvent.upTo 1, ReadEvent.upTo 2]).on_ws_close then
          [Call.close [3, 232] ([3, 232] : List Byte).length] else []) :=
  close_frame_dispatch (connectedSession 16 [0x88, 2, 3, 232] [ReadEvent.upTo 1, ReadEvent.upTo 2])
    0x88 [3, 232] [1, 2] 3 rfl rfl rfl rfl rfl rfl rfl (by decide) (by decide) (by decide)
    (by decide) (by decide) rfl rfl (by decide)

/-- C16: a session in the READ_HEADER start state is polled for one unmasked frame
with FIN = 1, opcode 0x09 (ping) or 0x0A (pong) and a payload of 1 to
min(125, `frameSize`) bytes, handed over in reads of at most `sched` bytes each and
without limit once `sched` is used up.  Then any number `m` of `twWs_Receive` calls
above the length of `sched` all return TW_OK, the trace grows by exactly one call,
of the ping (pong) callback with the payload and its length (by nothing when that
callback is not registered), the session stays connected and ends in READ_HEADER
with 2 bytes needed and both cursors at 0. -/
theorem ping_pong_dispatch (ws : twWs) (payload : List Byte) (isPing : Bool)
    (sched : List Nat) (m : Nat)
    (hconn : ws.isConnected = 1) (hstate : ws.read_state = READ_HEADER)
    (hneed : ws.bytesNeeded = 2) (hhp : ws.headerPtr = 0) (hfp : ws.frameBufferPtr = 0)
    (hhl : ws.ws_header.length = 64) (hbl : ws.frameBuffer.length = ws.frameSize + 11)
    (hn1 : 1 ≤ payload.length) (hn : payload.length ≤ ws.frameSize)
    (_h125 : payload.length ≤ 125)
    (hin : ws.connection.inbound = inboundFrame (if isPing then 0x89 else 0x8A) payload)
    (hsc : ws.connection.readScript = sched.map ReadEvent.upTo)
    (hm : sched.length < m) :
    ∃ ws1, receiveMany m ws = (List.replicate m TW_OK, Outcome.ret TW_OK ws1) ∧
      ws1.calls = ws.calls ++
        (if isPing then
          (if ws.on_ws_ping then [Call.ping payload payload.length] else [])
        else
          (if ws.on_ws_pong then [Call.pong payload payload.length] else [])) ∧
      ws1.isConnected = 1 ∧ twWs_IsConnected ws1 = true ∧
      ws1.read_state = READ_HEADER ∧ ws1.bytesNeeded = 2 ∧ ws1.headerPtr = 0 ∧
      ws1.frameBufferPtr = 0 := by
  have hop : (if isPing then 0x89 else 0x8A) &&& 0x0f = 1 ∨
      (if isPing then 0x89 else 0x8A) &&& 0x0f = 2 ∨
      (if isPing then 0x89 else 0x8A) &&& 0x0f = 9 ∨
      (if isPing then 0x89 else 0x8A) &&& 0x0f = 10 := by
    cases isPing <;> decide
  obtain ⟨ws1, he, hid⟩ := receiveMany_spec ws (if isPing then 0x89 else 0x8A) payload hn1 hn hop
    m sched ws (start_polled ws _ payload sched hconn hstate hneed hhp hfp hhl hbl hin hsc) hm
  refine ⟨ws1, he, ?_, hid.session.connected, ?_, hid.state, hid.need, hid.hp, hid.fp⟩
  · rw [hid.calls_eq]
    have e1 : (0x89 : Nat) &&& 0x0f = 9 := by decide
    have e2 : (0x89 : Nat) &&& 0x80 = 0x80 := by decide
    have e3 : (0x8A : Nat) &&& 0x0f = 10 := by decide
    have e4 : (0x8A : Nat) &&& 0x80 = 0x80 := by decide
    cases isPing
    · cases hcb : ws.on_ws_pong <;> simp [expectedCalls, deliveredCalls, hcb, e3, e4]
    · cases hcb : ws.on_ws_ping <;> simp [expectedCalls, deliveredCalls, hcb, e1, e2]
  · simp [twWs_IsConnected, hid.session.connected]

/-- C16, at the ping 0x89 0x04 "PING" handed over in reads of at most 1 and 2 bytes and
then without limit, polled 3 times. -/
theorem ping_pong_dispatch_witness :
    ∃ ws1, receiveMany 3 (connectedSession 16 [0x89, 4, 80, 73, 78, 71]
          [ReadEvent.upTo 1, ReadEvent.upTo 2]) =
        ([TW_OK, TW_OK, TW_OK], Outcome.ret TW_OK ws1) ∧
      ws1.calls = [Call.ping [80, 73, 78, 71] 4] ∧
      ws1.isConnected = 1 ∧ twWs_IsConnected ws1 = true ∧
      ws1.read_state = READ_HEADER ∧ ws1.bytesNeeded = 2 ∧ ws1.headerPtr = 0 ∧
      ws1.frameBufferPtr = 0 :=
  ping_pong_dispatch (connectedSession 16 [0x89, 4, 80, 73, 78, 71]
      [ReadEvent.upTo 1, ReadEvent.upTo 2]) [80, 73, 78, 71] true [1, 2] 3
    (by decide) (by decide) (by decide) (by decide) (by decide) (by decide) (by decide)
    (by decide) (by decide) (by decide) (by decide) (by decide) (by decide)

/-- C17: starting from `connect_state` 0 (and a security key that fits the 80-byte
buffer of `validateAcceptKey`), `ws_on_header_value` processes every sequence of
header pairs, and `ws_on_headers_complete` then returns 0 with `isConnected` 1 if
the names upgrade, connection and sec-websocket-accept all occurred and every
occurrence carried its required value, and returns 1 with `isConnected` -1
otherwise.  In particular, if `connect_state` is -1 after some first part of the
sequence, the result is the failure, whatever follows. -/
theorem handshake_acceptance (ws : twWs) (pairs : List (List Byte × List Byte))
    (h0 : ws.connect_state = 0) (hkey : ws.security_key.length ≤ 43) :
    ∃ ws1, processHeaders ws pairs = some ws1 ∧
      (handshakeAccepted ws pairs = true →
        ws_on_headers_complete ws1 = (0, { ws1 with isConnected := 1 })) ∧
      (handshakeAccepted ws pairs = false →
        ws_on_headers_complete ws1 = (1, { ws1 with isConnected := -1 })) ∧
      (∀ pre post wsm, pairs = pre ++ post → processHeaders ws pre = some wsm →
        wsm.connect_state = -1 →
        ws_on_headers_complete ws1 = (1, { ws1 with isConnected := -1 })) := by
  have hs : ws.connect_state = if false = true then -1 else handshakeBits false false false := by
    rw [h0]
    rfl
  have hrun := processHeaders_state ws.security_key hkey pairs ws false false false false rfl hs
  simp only [Bool.false_or] at hrun
  obtain ⟨ws1, hw⟩ : ∃ ws1, ws1 =
      { ws with connect_state :=
                  if (!pairs.all (carriesRequiredValue ws)) = true then -1
                  else handshakeBits (headerSeen (bytes "upgrade") pairs)
                    (headerSeen (bytes "connection") pairs)
                    (headerSeen (bytes "sec-websocket-accept") pairs) } := ⟨_, rfl⟩
  rw [← hw] at hrun
  have hstate : ws1.connect_state =
      if (!pairs.all (carriesRequiredValue ws)) = true then -1
      else handshakeBits (headerSeen (bytes "upgrade") pairs)
        (headerSeen (bytes "connection") pairs)
        (headerSeen (bytes "sec-websocket-accept") pairs) := by
    rw [hw]
  have hbad : pairs.all (carriesRequiredValue ws) = false →
      ws_on_headers_complete ws1 = (1, { ws1 with isConnected := -1 }) := by
    intro hall
    exact ws_on_headers_complete_failed ws1 (by rw [hstate, hall]; rfl)
  refine ⟨ws1, hrun, ?_, ?_, ?_⟩
  · intro hacc
    simp only [handshakeAccepted, Bool.and_eq_true] at hacc
    obtain ⟨⟨⟨hu, hc⟩, ha⟩, hall⟩ := hacc
    rw [ws_on_headers_complete_bits ws1 true true true (by rw [hstate, hall, hu, hc, ha]; rfl)]
    simp
  · intro hacc
    cases hall : pairs.all (carriesRequiredValue ws)
    · exact hbad hall
    · rw [ws_on_headers_complete_bits ws1 (headerSeen (bytes "upgrade") pairs)
        (headerSeen (bytes "connection") pairs)
        (headerSeen (bytes "sec-websocket-accept") pairs) (by rw [hstate, hall]; rfl)]
      have hno : ¬ (headerSeen (bytes "upgrade") pairs = true ∧
          headerSeen (bytes "connection") pairs = true ∧
          headerSeen (bytes "sec-websocket-accept") pairs = true) := by
        intro hh
        rw [handshakeAccepted, hall, hh.1, hh.2.1, hh.2.2] at hacc
        cases hacc
      rw [if_neg hno]
  · intro pre post wsm hsplit hpre hm
    have hrunp := processHeaders_state ws.security_key hkey pre ws false false false false rfl hs
    rw [hpre] at hrunp
    simp only [Bool.false_or, Option.some.injEq] at hrunp
    have hprebad : pre.all (carriesRequiredValue ws) = false := by
      cases hall : pre.all (carriesRequiredValue ws)
      · rfl
      · rw [hrunp] at hm
        simp only [hall] at hm
        exact absurd hm (handshakeBits_ne _ _ _)
    apply hbad
    rw [hsplit, List.all_append, hprebad]
    rfl

/-- C17, at the three headers of a good response to the RFC 6455 example key. -/
theorem handshake_acceptance_witness :
    sampleSession.connect_state = 0 ∧ sampleSession.security_key.length ≤ 43 ∧
    ∃ ws1, processHeaders sampleSession sampleHeaders = some ws1 ∧
      (handshakeAccepted sampleSession sampleHeaders = true →
        ws_on_headers_complete ws1 = (0, { ws1 with isConnected := 1 })) ∧
      (handshakeAccepted sampleSession sampleHeaders = false →
        ws_on_headers_complete ws1 = (1, { ws1 with isConnected := -1 })) ∧
      (∀ pre post wsm, sampleHeaders = pre ++ post →
        processHeaders sampleSession pre = some wsm → wsm.connect_state = -1 →
        ws_on_headers_complete ws1 = (1, { ws1 with isConnected := -1 })) :=
  ⟨rfl, by decide, handshake_acceptance sampleSession sampleHeaders rfl (by decide)⟩

/-- C19: for a security key that fits the 80-byte buffer (at most 43 bytes),
`validateAcceptKey` returns TW_OK when the value equals
base64(SHA1(security_key ++ "258EAFA5-E914-47DA-95CA-C5AB0DC85B11")) byte for byte
and TW_INVALID_ACCEPT_KEY for every other value; for the security key
"dGhlIHNhbXBsZSBub25jZQ==" it returns TW_OK exactly for
"s3pPLMBiTxaQ9kYGzzhZRbK+xOo=". -/
theorem validateAcceptKey_spec (ws : twWs) (val : List Byte)
    (hkey : ws.security_key.length ≤ 43) :
    validateAcceptKey ws val =
      some (if val = base64_encode (twSHA1 (ws.security_key ++
          bytes "258EAFA5-E914-47DA-95CA-C5AB0DC85B11")) then TW_OK
        else TW_INVALID_ACCEPT_KEY) ∧
    (ws.security_key = bytes "dGhlIHNhbXBsZSBub25jZQ==" →
      (validateAcceptKey ws val = some TW_OK ↔ val = bytes "s3pPLMBiTxaQ9kYGzzhZRbK+xOo=") ∧
      (val ≠ bytes "s3pPLMBiTxaQ9kYGzzhZRbK+xOo=" →
        validateAcceptKey ws val = some TW_INVALID_ACCEPT_KEY)) := by
  have hfit := validateAcceptKey_fits ws val hkey
  refine ⟨hfit, ?_⟩
  intro hk
  have hsample : base64_encode (twSHA1 (ws.security_key ++ acceptGuid)) =
      bytes "s3pPLMBiTxaQ9kYGzzhZRbK+xOo=" := by
    rw [hk]
    exact sample_accept_key
  rw [hfit, hsample]
  constructor
  · constructor
    · intro h
      by_contra hne
      rw [if_neg hne] at h
      cases h
    · intro h
      rw [if_pos h]
  · intro hne
    rw [if_neg hne]

/-- C19, at the RFC 6455 example: key "dGhlIHNhbXBsZSBub25jZQ==" and the value
"s3pPLMBiTxaQ9kYGzzhZRbK+xOo=". -/
theorem validateAcceptKey_spec_witness :
    sampleSession.security_key.length ≤ 43 ∧
    validateAcceptKey sampleSession sampleAccept =
      some (if sampleAccept = base64_encode (twSHA1 (sampleSession.security_key ++
          bytes "258EAFA5-E914-47DA-95CA-C5AB0DC85B11")) then TW_OK
        else TW_INVALID_ACCEPT_KEY) ∧
    (sampleSession.security_key = bytes "dGhlIHNhbXBsZSBub25jZQ==" →
      (validateAcceptKey sampleSession sampleAccept = some TW_OK ↔
        sampleAccept = bytes "s3pPLMBiTxaQ9kYGzzhZRbK+xOo=") ∧
      (sampleAccept ≠ bytes "s3pPLMBiTxaQ9kYGzzhZRbK+xOo=" →
        validateAcceptKey sampleSession sampleAccept = some TW_INVALID_ACCEPT_KEY)) :=
  ⟨by decide, validateAcceptKey_spec sampleSession sampleAccept (by decide)⟩

/-- C20: a session that is not connected calls `twWs_Connect`, the reconnect succeeds
and the transport accepts the write.  If the text
"GET resource HTTP/1.1", "User-Agent: ThingWorx C SDK", "Upgrade: websocket",
"Connection: Upgrade", "Host: host", "Sec-WebSocket-Version: 13",
"Sec-WebSocket-Key: key", "Max-Frame-Size: frameSize", "appKey: api_key", each line
ended by CRLF, plus one blank line, is at most 511 bytes long, then it is exactly
what the first part of `twWs_Connect` writes, in one write, with the key it has
just stored in the session; and whatever `twWs_Connect` returns, it has written
nothing else. -/
theorem connect_request_format (env : SystemEnv) (ws : twWs)
    (hnc : ws.isConnected ≠ 1) (hrc : ws.connection.reconnectResult = 0)
    (hws : ws.connection.writeScript = [])
    (hfit : (upgradeRequestText ws.resource ws.host (securityKey env) ws.frameSize
      ws.api_key).length ≤ 511) :
    ∃ ws0, connectSend env ws = ConnectSent.sent ws0 ∧
      ws0.security_key = securityKey env ∧
      ws0.connection.written = ws.connection.written ++
        [upgradeRequestText ws.resource ws.host ws0.security_key ws.frameSize ws.api_key] ∧
      ∀ fuel timeout code ws1, twWs_Connect env fuel ws timeout = Outcome.ret code ws1 →
        ws1.connection.written = ws.connection.written ++
          [upgradeRequestText ws.resource ws.host ws0.security_key ws.frameSize ws.api_key] := by
  obtain ⟨wsk, hk⟩ : ∃ wsk, wsk = { ws with connect_state := 0, read_state := READ_HEADER,
                                            security_key := securityKey env } := ⟨_, rfl⟩
  have hsent := connectSend_sent env ws wsk hnc hrc hws hk
  have htext : buildRequest wsk =
      upgradeRequestText ws.resource ws.host (securityKey env) ws.frameSize ws.api_key := by
    have := buildRequest_text wsk (by rw [hk]; exact hfit)
    rw [this, hk]
  rw [htext] at hsent
  obtain ⟨ws0, hw0⟩ : ∃ ws0, ws0 =
      { wsk with isConnected := 0, frameBufferPtr := 0, headerPtr := 0,
                 connection := { ws.connection with
                                   reconnects := ws.connection.reconnects + 1,
                                   written := ws.connection.written ++
                                     [upgradeRequestText ws.resource ws.host (securityKey env)
                                       ws.frameSize ws.api_key] } } := ⟨_, rfl⟩
  rw [← hw0] at hsent
  have hkey : ws0.security_key = securityKey env := by rw [hw0, hk]
  have hwr : ws0.connection.written = ws.connection.written ++
      [upgradeRequestText ws.resource ws.host ws0.security_key ws.frameSize ws.api_key] := by
    rw [hkey, hw0]
  refine ⟨ws0, hsent, hkey, hwr, ?_⟩
  intro fuel timeout code ws1 he
  have hkeep := twWs_Connect_written env fuel ws ws0 timeout hsent
  rw [he] at hkeep
  rw [← hwr]
  exact hkeep

set_option maxRecDepth 100000 in
/-- C20, at a session for /Thingworx/WS on localhost with frame size 8192. -/
theorem connect_request_format_witness :
    ∃ ws0, connectSend sampleEnv upgradeSession = ConnectSent.sent ws0 ∧
      ws0.security_key = securityKey sampleEnv ∧
      ws0.connection.written = upgradeSession.connection.written ++
        [upgradeRequestText upgradeSession.resource upgradeSession.host ws0.security_key
          upgradeSession.frameSize upgradeSession.api_key] ∧
      ∀ fuel timeout code ws1,
        twWs_Connect sampleEnv fuel upgradeSession timeout = Outcome.ret code ws1 →
        ws1.connection.written = upgradeSession.connection.written ++
          [upgradeRequestText upgradeSession.resource upgradeSession.host ws0.security_key
            upgradeSession.frameSize upgradeSession.api_key] :=
  connect_request_format sampleEnv upgradeSession (by decide) rfl rfl (by decide)

set_option maxRecDepth 1000000 in
/-- C21 (as stated, refuted): for a session whose resource has 480 bytes the request
text has 695 bytes, but `twWs_Connect` reports no error: it writes the first 511
bytes of the text to the transport and, as the peer answers with a good response,
returns TW_OK with the session connected. -/
theorem connect_long_request_counterexample :
    512 < (upgradeRequestText longSession.resource longSession.host (securityKey sampleEnv)
      longSession.frameSize longSession.api_key).length ∧
    ∃ ws1, twWs_Connect sampleEnv 3 longSession 5000 = Outcome.ret TW_OK ws1 ∧
      twWs_IsConnected ws1 = true ∧
      ws1.connection.written =
        [(upgradeRequestText longSession.resource longSession.host (securityKey sampleEnv)
          longSession.frameSize longSession.api_key).take 511] :=
  ⟨by decide, _, rfl, rfl, rfl⟩

/-- C21 (amended): a session that is not connected calls `twWs_Connect`, the reconnect
succeeds and the transport accepts the write.  If the request text is longer than
511 bytes, the first part of `twWs_Connect` reports no error: it writes exactly the
first 511 bytes of the text, in one write, and goes on to wait for the response. -/
theorem connect_request_truncated (env : SystemEnv) (ws : twWs)
    (hnc : ws.isConnected ≠ 1) (hrc : ws.connection.reconnectResult = 0)
    (hws : ws.connection.writeScript = [])
    (hlong : 511 < (upgradeRequestText ws.resource ws.host (securityKey env) ws.frameSize
      ws.api_key).length) :
    ∃ ws0, connectSend env ws = ConnectSent.sent ws0 ∧
      ws0.connection.written = ws.connection.written ++
        [(upgradeRequestText ws.resource ws.host (securityKey env) ws.frameSize
          ws.api_key).take 511] ∧
      ((upgradeRequestText ws.resource ws.host (securityKey env) ws.frameSize
          ws.api_key).take 511).length = 511 := by
  obtain ⟨wsk, hk⟩ : ∃ wsk, wsk = { ws with connect_state := 0, read_state := READ_HEADER,
                                            security_key := securityKey env } := ⟨_, rfl⟩
  have hsent := connectSend_sent env ws wsk hnc hrc hws hk
  have htext : buildRequest wsk =
      (upgradeRequestText ws.resource ws.host (securityKey env) ws.frameSize
        ws.api_key).take 511 := by
    rw [buildRequest_take wsk, hk]
  rw [htext] at hsent
  refine ⟨_, hsent, rfl, ?_⟩
  rw [List.length_take]
  omega

set_option maxRecDepth 1000000 in
/-- C21 (amended), at the session with a resource of 480 bytes. -/
theorem connect_request_truncated_witness :
    ∃ ws0, connectSend sampleEnv longSession = ConnectSent.sent ws0 ∧
      ws0.connection.written = longSession.connection.written ++
        [(upgradeRequestText longSession.resource longSession.host (securityKey sampleEnv)
          longSession.frameSize longSession.api_key).take 511] ∧
      ((upgradeRequestText longSession.resource longSession.host (securityKey sampleEnv)
          longSession.frameSize longSession.api_key).take 511).length = 511 :=
  connect_request_truncated sampleEnv longSession (by decide) rfl rfl (by decide)

set_option maxRecDepth 100000 in
/-- C22 (as stated, refuted): two connect attempts made at the system times 1000 and
2000, with the same generator, produce the same key, and `twWs_Connect` stores
the same security key in the session. -/
theorem nonce_repeats_counterexample :
    sampleEnv.clock 0 ≠ laterEnv.clock 0 ∧ securityKey sampleEnv = securityKey laterEnv ∧
    ∃ ws1 ws2, connectSend sampleEnv upgradeSession = ConnectSent.sent ws1 ∧
      connectSend laterEnv upgradeSession = ConnectSent.sent ws2 ∧
      ws1.security_key = ws2.security_key :=
  ⟨by decide, by decide, _, _, rfl, rfl, by decide⟩

/-- C22 (amended): the key depends on the system time only through its value modulo
1000: two connect attempts with the same generator `rand`, made at system times
that are congruent modulo 1000, produce equal keys, and `twWs_Connect` stores
equal security keys in the session. -/
theorem nonce_depends_on_time_mod (env1 env2 : SystemEnv) (hrand : env1.rand = env2.rand)
    (htime : env1.clock 0 % 1000 = env2.clock 0 % 1000) :
    securityKey env1 = securityKey env2 ∧
    ∀ ws ws1 ws2, connectSend env1 ws = ConnectSent.sent ws1 →
      connectSend env2 ws = ConnectSent.sent ws2 → ws1.security_key = ws2.security_key := by
  have hkey := securityKey_congr env1 env2 hrand htime
  refine ⟨hkey, ?_⟩
  intro ws ws1 ws2 h1 h2
  rw [connectSend_key env1 ws ws1 h1, connectSend_key env2 ws ws2 h2, hkey]

/-- C22 (amended), at the system times 1000 and 2000. -/
theorem nonce_depends_on_time_mod_witness :
    securityKey sampleEnv = securityKey laterEnv ∧
    ∀ ws ws1 ws2, connectSend sampleEnv ws = ConnectSent.sent ws1 →
      connectSend laterEnv ws = ConnectSent.sent ws2 → ws1.security_key = ws2.security_key :=
  nonce_depends_on_time_mod sampleEnv laterEnv rfl (by decide)

/-- C23: on a connected session whose transport accepts the write, `sendCtlFrame` with
a type of 0x08, 0x09 or 0x0A and a string of n ≤ 110 bytes writes, in one write,
the n + 6 bytes 0x80 | type, 0x80 | n, four zero bytes and the string, and returns
TW_OK; for a string of more than 110 bytes it returns TW_WEBSOCKET_MSG_TOO_LARGE
and leaves the session and the transport as they are.  `twWs_SendPing` and
`twWs_SendPong` with a message are `sendCtlFrame` with type 0x09 and 0x0A. -/
theorem sendCtlFrame_encoding (ws : twWs) (type : Nat) (msg timeString : List Byte)
    (hconn : ws.isConnected = 1) (htype : type = 0x08 ∨ type = 0x09 ∨ type = 0x0A)
    (hw : ws.connection.writeScript = []) :
    (msg.length ≤ 110 →
      sendCtlFrame ws type (some msg) =
        (TW_OK, { ws with connection := { ws.connection with written :=
          ws.connection.written ++
            [[0x80 ||| type, 0x80 ||| msg.length, 0, 0, 0, 0] ++ msg] } }) ∧
      ([0x80 ||| type, 0x80 ||| msg.length, 0, 0, 0, 0] ++ msg).length = msg.length + 6) ∧
    (110 < msg.length →
      sendCtlFrame ws type (some msg) = (TW_WEBSOCKET_MSG_TOO_LARGE, ws)) ∧
    twWs_SendPing timeString ws (some msg) = sendCtlFrame ws 0x09 (some msg) ∧
    twWs_SendPong ws (some msg) = sendCtlFrame ws 0x0A (some msg) := by
  have hc : ws.isConnected ≠ 0 := by rw [hconn]; decide
  refine ⟨?_, sendCtlFrame_long ws type msg hc, rfl, rfl⟩
  intro hlen
  have ht : (0x80 + type % 256) % 256 = 0x80 ||| type := by
    rcases htype with h | h | h <;> subst h <;> decide
  have hn : (0x80 + msg.length) % 256 = 0x80 ||| msg.length :=
    lor_small msg.length (by omega)
  rw [sendCtlFrame_ok ws type msg hc hlen hw, ctlFrame, ht, hn]
  exact ⟨rfl, by simp⟩

/-- C23, at a ping with the string "hi" on a session with `frameSize` 16. -/
theorem sendCtlFrame_encoding_witness :
    sendCtlFrame (connectedSession 16 [] []) 0x09 (some [104, 105]) =
      (TW_OK, { connectedSession 16 [] [] with connection :=
        { written := [[0x89, 0x82, 0, 0, 0, 0, 104, 105]] } }) ∧
    twWs_SendPing [] (connectedSession 16 [] []) (some [104, 105]) =
      sendCtlFrame (connectedSession 16 [] []) 0x09 (some [104, 105]) :=
  ⟨((sendCtlFrame_encoding (connectedSession 16 [] []) 0x09 [104, 105] [] (by decide)
      (by decide) (by decide)).1 (by decide)).1,
    (sendCtlFrame_encoding (connectedSession 16 [] []) 0x09 [104, 105] [] (by decide)
      (by decide) (by decide)).2.2.1⟩

/-- C24 (the code at the failing input): on a connected session, `sendCtlFrame` with
type 0x01 and with type 0x0B and the string "x" is not rejected: it writes the
frames 0x81 0x81 0 0 0 0 "x" and 0x8B 0x81 0 0 0 0 "x" and returns TW_OK.  The test
`type < 0x08 && type > 0x0a` of line 907 is false for every type. -/
theorem sendCtlFrame_type_unchecked :
    sendCtlFrame (connectedSession 16 [] []) 0x01 (some [120]) =
      (TW_OK, { connectedSession 16 [] [] with connection :=
        { written := [[0x81, 0x81, 0, 0, 0, 0, 120]] } }) ∧
    sendCtlFrame (connectedSession 16 [] []) 0x0B (some [120]) =
      (TW_OK, { connectedSession 16 [] [] with connection :=
        { written := [[0x8B, 0x81, 0, 0, 0, 0, 120]] } }) ∧
    ∀ (ws : twWs) (type : Nat) (msg : Option (List Byte)),
      (sendCtlFrame ws type msg).1 ≠ TW_INVALID_WEBSOCKET_FRAME_TYPE := by
  refine ⟨by decide, by decide, ?_⟩
  intro ws type msg
  unfold sendCtlFrame
  simp only [if_neg (ctl_type_test type)]
  repeat' split
  all_goals simp

/-- C25: on a connected session whose transport accepts the write, `twWs_Disconnect`
with a code other than SERVER_CLOSED and a reason that fits `msg[64]` (the
description of the code, a space, the reason and a NUL in the 62 bytes behind the
two code bytes) writes one frame: 0x88, 0x80 | n, four zero bytes and the n payload
bytes 0x03, the wire byte of the code as the specification lists it, the
description `desc` of the code, one space and the reason; it returns TW_OK.  The
descriptions are "Normal Close" for 1000, "Going to Sleep" for 1001, "Protocol Error"
for 1002, "Unsupported Data Type" for 1003, "Invalid Data" for 1007, "Policy Violation"
for 1008, "Frame too large" for 1009, "No extension found" for 1010 and
"Unexpected Condition" for 1011 and every other code.  For the nine named codes the
two code bytes are the code in big-endian order. -/
theorem disconnect_close_frame (stack : List Byte) (ws : twWs) (code : Int)
    (reason desc : List Byte) (hconn : ws.isConnected = 1) (hcode : code ≠ SERVER_CLOSED)
    (hz : 0 ∉ reason)
    (hdesc : desc =
      if code = 1000 then bytes "Normal Close" else if code = 1001 then bytes "Going to Sleep"
      else if code = 1002 then bytes "Protocol Error"
      else if code = 1003 then bytes "Unsupported Data Type"
      else if code = 1007 then bytes "Invalid Data"
      else if code = 1008 then bytes "Policy Violation"
      else if code = 1009 then bytes "Frame too large"
      else if code = 1010 then bytes "No extension found"
      else bytes "Unexpected Condition")
    (hfit : (desc ++ [32] ++ reason).length + 1 ≤ 62)
    (hw : ws.connection.writeScript = []) :
    (∃ ws1, twWs_Disconnect stack ws code (some reason) = Outcome.ret TW_OK ws1 ∧
      ws1.connection.written = ws.connection.written ++
        [[0x88, 0x80 ||| ((desc ++ [32] ++ reason).length + 2), 0, 0, 0, 0] ++
          [0x03, closeWireByte code] ++ desc ++ [32] ++ reason]) ∧
    (1000 ≤ code → code ≤ 1011 → code ≠ 1004 → code ≠ 1005 → code ≠ 1006 →
      (0x03 : Int) = code / 256 ∧ ((closeWireByte code : Nat) : Int) = code % 256) := by
  have hd : desc = (closeText code).1 := by rw [hdesc, closeText_description]
  have hmsg : desc ++ [32] ++ reason = closeMessage code reason := by
    rw [hd]
    rfl
  rw [hmsg] at hfit ⊢
  constructor
  · have hc : ws.isConnected ≠ 0 := by rw [hconn]; decide
    have hmlen : ([0x03, (closeText code).2] ++ closeMessage code reason).length =
        (closeMessage code reason).length + 2 := by
      simp
    rw [twWs_Disconnect_close stack ws code reason hcode hfit,
      sendCtlFrame_ok ws 0x08 _ hc (by rw [hmlen]; omega) hw,
      disconnectEnd_string _ [0x03, (closeText code).2] (closeMessage code reason) rfl rfl
        (closeMessage_nul code reason hz)]
    refine ⟨_, rfl, ?_⟩
    show ws.connection.written ++ [ctlFrame 0x08 _] = _
    rw [ctlFrame, hmlen, lor_small ((closeMessage code reason).length + 2) (by omega),
      closeText_wire, hd]
    simp [closeMessage, bytes]
  · intro h1 h2 h4 h5 h6
    have hcases : code = 1000 ∨ code = 1001 ∨ code = 1002 ∨ code = 1003 ∨ code = 1007 ∨
        code = 1008 ∨ code = 1009 ∨ code = 1010 ∨ code = 1011 := by omega
    rcases hcases with h | h | h | h | h | h | h | h | h <;> subst h <;> decide

/-- C25, at NORMAL_CLOSE with the reason "bye" on a session with `frameSize` 16: the
frame is 0x88 0x92, four zero bytes, 0x03 0xE8 and "Normal Close bye". -/
theorem disconnect_close_frame_witness :
    ∃ ws1, twWs_Disconnect [] (connectedSession 16 [] []) NORMAL_CLOSE
        (some (bytes "bye")) = Outcome.ret TW_OK ws1 ∧
      ws1.connection.written =
        [[0x88, 0x92, 0, 0, 0, 0, 0x03, 0xE8] ++ bytes "Normal Close bye"] :=
  (disconnect_close_frame [] (connectedSession 16 [] []) NORMAL_CLOSE (bytes "bye")
    (bytes "Normal Close") (by decide) (by decide) (by decide) (by decide) (by decide)
    (by decide)).1

/-- C26 (as stated, refuted): on a session that is not connected, `twWs_Disconnect`
with NORMAL_CLOSE and the reason "bye" writes nothing, yet the close callback is
invoked, with "Normal Close bye".  On a connected session whose transport takes
only 3 bytes of the frame the callback is invoked as well.  With SERVER_CLOSED no
frame is written, but the callback is invoked when the first byte of the
uninitialised `msg` happens to be 0x03. -/
theorem close_callback_without_frame :
    (∃ ws1, twWs_Disconnect [] { connectedSession 16 [] [] with isConnected := 0 }
        NORMAL_CLOSE (some (bytes "bye")) = Outcome.ret TW_OK ws1 ∧
      ws1.connection.written = [] ∧
      ws1.calls = [Call.close (bytes "Normal Close bye") 16]) ∧
    (∃ ws2, twWs_Disconnect [] refusingSession NORMAL_CLOSE (some (bytes "bye")) =
        Outcome.ret TW_OK ws2 ∧
      ws2.connection.written = [[0x88, 0x92, 0]] ∧
      ws2.calls = [Call.close (bytes "Normal Close bye") 16]) ∧
    (∃ ws3, twWs_Disconnect ([0x03, 0, 65, 66] ++ List.replicate 60 0)
        (connectedSession 16 [] []) SERVER_CLOSED none = Outcome.ret TW_OK ws3 ∧
      ws3.connection.written = [] ∧ ws3.calls = [Call.close [65, 66] 2]) := by
  exact ⟨⟨_, rfl, rfl, rfl⟩, ⟨_, rfl, rfl, rfl⟩, ⟨_, rfl, rfl, rfl⟩⟩

/-- C26 (amended): with SERVER_CLOSED `twWs_Disconnect` writes no frame, whatever its
uninitialised local buffer `msg` holds; if the first byte of `msg` is not 0x03 it
invokes no callback, closes the transport, leaves `twWs_IsConnected` FALSE and
returns TW_OK.  With any other code and a reason that fits `msg[64]` it invokes the
close callback, if registered, exactly once, with the text of the code, a space and
the reason, whether or not the close frame went out (on a session that is not
connected nothing is written), closes the transport, leaves `twWs_IsConnected`
FALSE and returns TW_OK. -/
theorem disconnect_callback (stack : List Byte) (ws : twWs) :
    (∀ reason : Option (List Byte), ∃ ws1,
      (twWs_Disconnect stack ws SERVER_CLOSED reason = Outcome.ret TW_OK ws1 ∨
        twWs_Disconnect stack ws SERVER_CLOSED reason = Outcome.fault ws1) ∧
      ws1.connection.written = ws.connection.written ∧ ws1.isConnected = 0 ∧
      ws1.connection.closes = ws.connection.closes + 1) ∧
    (stack.getD 0 0 ≠ 0x03 → ∀ reason : Option (List Byte),
      twWs_Disconnect stack ws SERVER_CLOSED reason = Outcome.ret TW_OK
        { ws with isConnected := 0, connection := twTlsClient_Close ws.connection }) ∧
    (∀ (code : Int) (reason : List Byte), code ≠ SERVER_CLOSED → 0 ∉ reason →
      (closeMessage code reason).length + 1 ≤ 62 →
      ∃ ws1, twWs_Disconnect stack ws code (some reason) = Outcome.ret TW_OK ws1 ∧
        ws1.isConnected = 0 ∧ twWs_IsConnected ws1 = false ∧
        ws1.connection.closes = ws.connection.closes + 1 ∧
        ws1.calls = ws.calls ++
          (if ws.on_ws_close then
            [Call.close (closeMessage code reason) (closeMessage code reason).length]
          else []) ∧
        (ws.isConnected = 0 → ws1.connection.written = ws.connection.written)) := by
  have hserver : ∀ reason : Option (List Byte),
      twWs_Disconnect stack ws SERVER_CLOSED reason = disconnectEnd ws stack := by
    intro reason
    unfold twWs_Disconnect
    rw [if_neg (by simp)]
  refine ⟨?_, ?_, ?_⟩
  · intro reason
    rw [hserver]
    exact disconnectEnd_quiet ws stack
  · intro hstack reason
    rw [hserver]
    exact disconnectEnd_garbage ws stack hstack
  · intro code reason hcode hz hfit
    obtain ⟨hk1, hk2, hk3⟩ := sendCtlFrame_keeps ws 0x08
      (some ([0x03, (closeText code).2] ++ closeMessage code reason))
    rw [twWs_Disconnect_close stack ws code reason hcode hfit,
      disconnectEnd_string _ [0x03, (closeText code).2] (closeMessage code reason) rfl rfl
        (closeMessage_nul code reason hz)]
    refine ⟨_, rfl, rfl, rfl, ?_, ?_, ?_⟩
    · show (sendCtlFrame ws 0x08 _).2.connection.closes + 1 = _
      rw [hk3]
    · show (sendCtlFrame ws 0x08 _).2.calls ++ _ = _
      rw [hk1, hk2]
    · intro hnc
      show (sendCtlFrame ws 0x08 _).2.connection.written = _
      rw [sendCtlFrame_not_connected ws 0x08 _ hnc]

/-- C26 (amended), at SERVER_CLOSED with `msg` all zero on entry, and at NORMAL_CLOSE with
the reason "bye", both on a session that is not connected. -/
theorem disconnect_callback_witness :
    twWs_Disconnect (List.replicate 64 0) { connectedSession 16 [] [] with isConnected := 0 }
        SERVER_CLOSED none = Outcome.ret TW_OK
      { connectedSession 16 [] [] with isConnected := 0, connection := { closes := 1 } } ∧
    ∃ ws1, twWs_Disconnect (List.replicate 64 0)
        { connectedSession 16 [] [] with isConnected := 0 } NORMAL_CLOSE
        (some (bytes "bye")) = Outcome.ret TW_OK ws1 ∧
      ws1.isConnected = 0 ∧ twWs_IsConnected ws1 = false ∧
      ws1.connection.closes = 1 ∧
      ws1.calls = [Call.close (bytes "Normal Close bye") 16] ∧
      ws1.connection.written = [] :=
  ⟨(disconnect_callback (List.replicate 64 0)
      { connectedSession 16 [] [] with isConnected := 0 }).2.1 (by decide) none,
    match (disconnect_callback (List.replicate 64 0)
      { connectedSession 16 [] [] with isConnected := 0 }).2.2 NORMAL_CLOSE
      (bytes "bye") (by decide) (by decide) (by decide) with
    | ⟨ws1, h1, h2, h3, h4, h5, h6⟩ => ⟨ws1, h1, h2, h3, h4, h5, h6 rfl⟩⟩

/-- C27: on a connected session (with `frameSize` a `uint16_t`), whenever the
transport does not take the complete frame, the send fails with
TW_ERROR_WRITING_TO_WEBSOCKET, the session is disconnected, the transport has been
asked to reconnect once and no callback has been invoked.  This holds for
`sendCtlFrame` with a string of at most 110 bytes, hence for `twWs_SendPing` and
`twWs_SendPong`, for `sendDataFrame` (the frame goes out as a header write and a
payload write, and any of the two may fall short), and for `twWs_SendMessage` with
a message that goes out as one frame. -/
theorem send_write_failure (ws : twWs) (hconn : ws.isConnected = 1)
    (hfs : ws.frameSize ≤ 65535) :
    (∀ (type : Nat) (msg : List Byte), msg.length ≤ 110 →
      WriteRefused ws.connection (ctlFrame type msg) →
      ∃ ws1, sendCtlFrame ws type (some msg) = (TW_ERROR_WRITING_TO_WEBSOCKET, ws1) ∧
        SendFailed ws ws1) ∧
    (∀ (timeString msg : List Byte), msg.length ≤ 110 →
      WriteRefused ws.connection (ctlFrame 0x09 msg) →
      ∃ ws1, twWs_SendPing timeString ws (some msg) = (TW_ERROR_WRITING_TO_WEBSOCKET, ws1) ∧
        SendFailed ws ws1) ∧
    (∀ (msg : List Byte), msg.length ≤ 110 →
      WriteRefused ws.connection (ctlFrame 0x0A msg) →
      ∃ ws1, twWs_SendPong ws (some msg) = (TW_ERROR_WRITING_TO_WEBSOCKET, ws1) ∧
        SendFailed ws ws1) ∧
    (∀ (msg : List Byte) (L : Nat) (isContinuation isFinal isText : Bool),
      L ≤ msg.length → L ≤ ws.frameSize →
      FrameRefused ws.connection (dataFrameHeader L isContinuation isFinal isText)
        (msg.take L) →
      ∃ ws1, sendDataFrame ws (some msg) L isContinuation isFinal isText =
          (TW_ERROR_WRITING_TO_WEBSOCKET, ws1) ∧ SendFailed ws ws1) ∧
    (∀ (buf : List Byte) (L : Nat) (isText : Bool),
      1 ≤ L → L ≤ buf.length → L ≤ ws.messageChunkSize → L ≤ ws.frameSize →
      FrameRefused ws.connection (dataFrameHeader L false true isText) (buf.take L) →
      ∃ ws1, twWs_SendMessage ws (some buf) L isText =
          some (TW_ERROR_WRITING_TO_WEBSOCKET, ws1) ∧ SendFailed ws ws1) := by
  have hc : ws.isConnected ≠ 0 := by rw [hconn]; decide
  refine ⟨?_, ?_, ?_, ?_, ?_⟩
  · intro type msg hlen hfail
    exact sendCtlFrame_refused ws type msg hc hlen hfail
  · intro _ msg hlen hfail
    exact sendCtlFrame_refused ws 0x09 msg hc hlen hfail
  · intro msg hlen hfail
    exact sendCtlFrame_refused ws 0x0A msg hc hlen hfail
  · intro msg L c f t hlen hL hfail
    exact sendDataFrame_refused ws msg L c f t hconn hlen hL hfs hfail
  · intro buf L t h1 hlen hch hL hfail
    exact sendMessage_refused ws buf L t hconn h1 hlen hch hL hfs hfail

/-- C27, at a ping "hi" and a 3-byte binary message on a session whose transport
accepts only 3 bytes of the next write. -/
theorem send_write_failure_witness :
    (∃ ws1, twWs_SendPing [] refusingSession (some [104, 105]) =
        (TW_ERROR_WRITING_TO_WEBSOCKET, ws1) ∧ SendFailed refusingSession ws1) ∧
    (∃ ws1, twWs_SendMessage refusingSession (some [1, 2, 3]) 3 false =
        some (TW_ERROR_WRITING_TO_WEBSOCKET, ws1) ∧ SendFailed refusingSession ws1) :=
  ⟨(send_write_failure refusingSession (by decide) (by decide)).2.1 [] [104, 105]
      (by decide) (by unfold WriteRefused; decide),
    (send_write_failure refusingSession (by decide) (by decide)).2.2.2.2 [1, 2, 3] 3 false
      (by decide) (by decide) (by decide) (by decide)
      (Or.inl (by unfold WriteRefused; decide))⟩

/-- C28 (as stated, refuted): `twWs_Create` with an empty host, an empty resource and
an empty api_key (non-NULL pointers to "") returns TW_OK and hands back a
session. -/
theorem create_empty_strings_counterexample :
    ∃ ws, twWs_Create {} (some []) 443 (some []) (some []) none 8 16 true = (TW_OK, some ws) ∧
      ws.host = [] ∧ ws.resource = [] ∧ ws.api_key = [] :=
  ⟨_, rfl, rfl, rfl, rfl⟩

/-- C28 (amended): `twWs_Create` returns TW_INVALID_PARAM and hands back no session
when host, resource or api_key is NULL, port is 0 or the output pointer is NULL
(empty strings are not refused).  With `messageChunkSize` above `frameSize` it
hands back no session, and the code is TW_INVALID_PARAM when the transport
constructor and the allocations succeed.  Every session it hands back comes with
TW_OK and has `messageChunkSize` at most `frameSize`, `frameSize` at most 65535,
`isConnected` FALSE, `bytesNeeded` 2 and the frame-buffer cursor at the start of
a zero frame buffer of `frameSize` + 11 bytes. -/
theorem create_validation (env : CreateEnv) (host resource api_key gatewayName :
    Option (List Byte)) (port messageChunkSize frameSize : Nat) (entity : Bool) :
    ((host = none ∨ resource = none ∨ api_key = none ∨ port % 65536 = 0 ∨ entity = false) →
      twWs_Create env host port resource api_key gatewayName messageChunkSize frameSize
        entity = (TW_INVALID_PARAM, none)) ∧
    (messageChunkSize % 4294967296 > frameSize % 65536 →
      (twWs_Create env host port resource api_key gatewayName messageChunkSize frameSize
        entity).2 = none ∧
      (Allocates env →
        (twWs_Create env host port resource api_key gatewayName messageChunkSize frameSize
          entity).1 = TW_INVALID_PARAM)) ∧
    (∀ code ws,
      twWs_Create env host port resource api_key gatewayName messageChunkSize frameSize
        entity = (code, some ws) →
      code = TW_OK ∧ ws.messageChunkSize ≤ ws.frameSize ∧ ws.frameSize ≤ 65535 ∧
      ws.isConnected = 0 ∧ twWs_IsConnected ws = false ∧ ws.bytesNeeded = 2 ∧
      ws.frameBufferPtr = 0 ∧ ws.frameBuffer = List.replicate (ws.frameSize + 11) 0) := by
  refine ⟨twWs_Create_null env host resource api_key gatewayName port messageChunkSize
    frameSize entity, ?_, ?_⟩
  · intro hbig
    refine ⟨?_, twWs_Create_chunk env host resource api_key gatewayName port messageChunkSize
      frameSize entity hbig⟩
    cases hres : twWs_Create env host port resource api_key gatewayName messageChunkSize
      frameSize entity with
    | mk code s =>
      cases s with
      | none => rfl
      | some ws =>
        have := (twWs_Create_session env host resource api_key gatewayName port
          messageChunkSize frameSize entity code ws hres).2.1
        omega
  · intro code ws h
    obtain ⟨h1, h2, h3, h4, h5, h6, h7, h8⟩ := twWs_Create_session env host resource api_key
      gatewayName port messageChunkSize frameSize entity code ws h
    have hfs : frameSize % 65536 < 65536 := Nat.mod_lt _ (by omega)
    refine ⟨h1, by omega, by omega, h5, by simp [twWs_IsConnected, h5], h6, h7, ?_⟩
    rw [h8, h4]

/-- C28 (amended), at concrete arguments: a NULL host, a chunk size of 32 with a frame
size of 16, and a call with chunk size 8 and frame size 16 that hands back a
session. -/
theorem create_validation_witness :
    twWs_Create {} none 443 (some (bytes "/r")) (some (bytes "k")) none 8 16 true =
      (TW_INVALID_PARAM, none) ∧
    (twWs_Create {} (some (bytes "h")) 443 (some (bytes "/r")) (some (bytes "k")) none 32 16
      true).1 = TW_INVALID_PARAM ∧
    ∃ ws, twWs_Create {} (some (bytes "h")) 443 (some (bytes "/r")) (some (bytes "k")) none 8
        16 true = (TW_OK, some ws) ∧
      ws.messageChunkSize ≤ ws.frameSize ∧ ws.frameSize ≤ 65535 ∧
      ws.isConnected = 0 ∧ twWs_IsConnected ws = false ∧ ws.bytesNeeded = 2 ∧
      ws.frameBufferPtr = 0 ∧ ws.frameBuffer = List.replicate (ws.frameSize + 11) 0 :=
  ⟨(create_validation {} none (some (bytes "/r")) (some (bytes "k")) none 443 8 16 true).1
      (Or.inl rfl),
    ((create_validation {} (some (bytes "h")) (some (bytes "/r")) (some (bytes "k")) none 443
      32 16 true).2.1 (by decide)).2 ⟨rfl, rfl, rfl, rfl, rfl, rfl, rfl, rfl⟩,
    ⟨_, rfl, ((create_validation {} (some (bytes "h")) (some (bytes "/r")) (some (bytes "k"))
      none 443 8 16 true).2.2 TW_OK _ rfl).2⟩⟩

set_option maxRecDepth 1000000 in
/-- Claim C29, evaluated on the code: a session made by `twWs_Create` with frame size
120 connects successfully; the peer then sends a binary frame whose header announces
125 payload bytes, handed over as the 2 header bytes and then 123 payload bytes.
The one `twWs_Receive` call returns `TW_OK` with the frame cursor 123 bytes into the
frame buffer, past `frameSize`. -/
theorem cursor_exceeds_frameSize :
    ∃ ws0 ws1 ws2,
      twWs_Create { connection := oversizedPeer } (some (bytes "h")) 443 (some (bytes "/r"))
        (some (bytes "k")) none 120 120 true = (TW_OK, some ws0) ∧
      twWs_Connect sampleEnv 3 ws0 5000 = Outcome.ret TW_OK ws1 ∧
      twWs_IsConnected ws1 = true ∧
      twWs_Receive ws1 = Outcome.ret TW_OK ws2 ∧
      ws2.frameSize = 120 ∧ ws2.frameBufferPtr = 123 ∧ ws2.headerPtr ≤ 64 :=
  ⟨_, _, _, rfl, rfl, rfl, rfl, rfl, rfl, by decide⟩

/-- Claim C30, counterexample: the peer sends the text frame "hello" and the transport
hands over the 2 header bytes and then the 5 payload bytes. One call of
`twWs_Receive` uses up both reads, delivers the message and returns `TW_OK`: it read
twice. -/
theorem receive_reads_twice_counterexample :
    ∃ ws1,
      twWs_Receive (connectedSession 16 [0x81, 5, 104, 101, 108, 108, 111]
        [ReadEvent.upTo 2, ReadEvent.upTo 5, ReadEvent.upTo 7]) = Outcome.ret TW_OK ws1 ∧
      ws1.connection.readScript = [ReadEvent.upTo 7] ∧
      ws1.connection.inbound = [] ∧
      ws1.calls = [Call.textMessage [104, 101, 108, 108, 111] 5] :=
  ⟨_, rfl, rfl, rfl, rfl⟩

/-- Claim C30, amended: a call of `twWs_Receive` on a connected session at the start of
a frame, to which the transport hands the 2 header bytes of a final text, binary, ping
or pong frame with 1 to 125 payload bytes (no more than `frameSize`) in the first read
and the whole payload in the second, performs exactly two transport reads, the header
and then the payload: it uses up two steps of the read script and all bytes of the
frame, delivers the frame, returns `TW_OK` and is back at the start of a frame. -/
theorem receive_two_reads_per_frame (ws : twWs) (b0 : Byte) (payload rest : List Byte)
    (k1 k2 : Nat) (more : List Nat)
    (hconn : ws.isConnected = 1) (hstate : ws.read_state = READ_HEADER)
    (hneed : ws.bytesNeeded = 2) (hhp : ws.headerPtr = 0) (hfp : ws.frameBufferPtr = 0)
    (hhl : ws.ws_header.length = 64) (hbl : ws.frameBuffer.length = ws.frameSize + 11)
    (hop : b0 &&& 0x0f = 1 ∨ b0 &&& 0x0f = 2 ∨ b0 &&& 0x0f = 9 ∨ b0 &&& 0x0f = 10)
    (hfin : b0 &&& 0x80 = 0x80)
    (hn1 : 1 ≤ payload.length) (h125 : payload.length ≤ 125)
    (hn : payload.length ≤ ws.frameSize)
    (hin : ws.connection.inbound = [b0, payload.length] ++ payload ++ rest)
    (hsc : ws.connection.readScript = (k1 :: k2 :: more).map ReadEvent.upTo)
    (hk1 : 2 ≤ k1) (hk2 : payload.length ≤ k2) :
    ∃ ws1, twWs_Receive ws = Outcome.ret TW_OK ws1 ∧
      ws1.connection.readScript = more.map ReadEvent.upTo ∧
      ws1.connection.inbound = rest ∧
      ws1.calls = deliveredCalls ws (b0 &&& 0x0f) payload payload.length ∧
      ws1.read_state = READ_HEADER ∧ ws1.bytesNeeded = 2 ∧ ws1.headerPtr = 0 ∧
      ws1.frameBufferPtr = 0 :=
  receive_two_reads ws b0 payload rest k1 k2 more hconn hstate hneed hhp hfp hhl hbl hop
    (by rw [hfin]; decide) hn1 h125 hn hin hsc hk1 hk2

/-- Claim C30, amended, at a concrete input: a binary frame of 3 bytes followed by one
more byte, with reads of up to 4, 8 and 1 bytes. -/
theorem receive_two_reads_per_frame_witness :
    ∃ ws1, twWs_Receive (connectedSession 16 [0x82, 3, 7, 8, 9, 0x81]
        [ReadEvent.upTo 4, ReadEvent.upTo 8, ReadEvent.upTo 1]) = Outcome.ret TW_OK ws1 ∧
      ws1.connection.readScript = [ReadEvent.upTo 1] ∧
      ws1.connection.inbound = [0x81] ∧
      ws1.calls = [Call.binaryMessage [7, 8, 9] 3] ∧
      ws1.read_state = READ_HEADER ∧ ws1.bytesNeeded = 2 ∧ ws1.headerPtr = 0 ∧
      ws1.frameBufferPtr = 0 :=
  receive_two_reads_per_frame
    (connectedSession 16 [0x82, 3, 7, 8, 9, 0x81]
      [ReadEvent.upTo 4, ReadEvent.upTo 8, ReadEvent.upTo 1])
    0x82 [7, 8, 9] [0x81] 4 8 [1] rfl rfl rfl rfl rfl (by decide) (by decide) (by decide)
    (by decide) (by decide) (by decide) (by decide) rfl rfl (by decide) (by decide)

/-- C31 (as stated, refuted): a connected session with frame size 16 is polled with
`bytesNeeded` 50 in READ_BINARY_FRAME, while the text frame "hi" waits in the
transport.  The call resets the state and then reads: it uses up two reads of the
transport, the header and the payload, and invokes the text callback. -/
theorem overrun_guard_reads_counterexample :
    ∃ ws1,
      twWs_Receive { connectedSession 16 [0x81, 2, 104, 105]
          [ReadEvent.upTo 2, ReadEvent.upTo 2, ReadEvent.upTo 9] with
          read_state := READ_BINARY_FRAME, bytesNeeded := 50, frameBufferPtr := 3,
          headerPtr := 2 } = Outcome.ret TW_OK ws1 ∧
      ws1.connection.readScript = [ReadEvent.upTo 9] ∧ ws1.connection.inbound = [] ∧
      ws1.calls = [Call.textMessage [104, 105] 2] :=
  ⟨_, rfl, rfl, rfl, rfl⟩

/-- C31 (amended): if on entry to `twWs_Receive` (connected session) `bytesNeeded`
exceeds the room left in the frame buffer, the call resets `read_state` to
READ_HEADER, `bytesNeeded` to 2 and both cursors to their buffer starts, and then
goes on as a call on the reset session does: it reads the frame header from the
transport, asking for 2 bytes.  When that read returns 0 the call returns TW_OK
with the session reset and the read used up; when it returns one byte `b` the
call returns TW_OK with `b` stored at the start of the header buffer and one more
byte needed. -/
theorem overrun_guard_resets_then_reads (ws : twWs) (hconn : ws.isConnected = 1)
    (hover : ws.bytesNeeded > (ws.frameSize : Int) - (ws.frameBufferPtr : Int)) :
    twWs_Receive ws =
      twWs_Receive { ws with frameBufferPtr := 0, read_state := READ_HEADER, bytesNeeded := 2,
                             headerPtr := 0 } ∧
    ((twTlsClient_Read ws.connection 2).1 = 0 →
      twWs_Receive ws = Outcome.ret TW_OK
        { ws with frameBufferPtr := 0, read_state := READ_HEADER, bytesNeeded := 2,
                  headerPtr := 0,
                  connection :=
                    { ws.connection with readScript := ws.connection.readScript.tail } }) ∧
    (∀ (b : Byte) (c : twTlsClient), twTlsClient_Read ws.connection 2 = (1, [b], c) →
      twWs_Receive ws = Outcome.ret TW_OK
        { ws with frameBufferPtr := 0, read_state := READ_HEADER, bytesNeeded := 1,
                  headerPtr := 1, ws_header := writeAt ws.ws_header 0 [b],
                  connection := c }) := by
  have hc : ws.isConnected ≠ 0 := by rw [hconn]; decide
  obtain ⟨ws0, h0⟩ : ∃ ws0, ws0 =
      { ws with frameBufferPtr := 0, read_state := READ_HEADER,
                bytesNeeded := WS_HEADER_MIN_SIZE, headerPtr := 0 } := ⟨_, rfl⟩
  have hrun := receive_overrun ws ws0 hc hover h0
  have hs0 : ws0.read_state = READ_HEADER := by rw [h0]
  have hconn0 : ws0.connection = ws.connection := by rw [h0]
  have hneed0 : ws0.bytesNeeded = 2 := by rw [h0]; rfl
  have hhp0 : ws0.headerPtr = 0 := by rw [h0]
  have hsame : { ws with frameBufferPtr := 0, read_state := READ_HEADER, bytesNeeded := 2,
                         headerPtr := 0 } = ws0 := by rw [h0]; rfl
  refine ⟨?_, ?_, ?_⟩
  · rw [hsame, hrun,
      receive_reset ws0 (by rw [h0]; exact hc) hs0 (by rw [h0]) (by rw [h0]) (by rw [h0])]
  · intro hzero
    have hr := read_zero ws.connection 2 hzero
    rw [← hconn0, ← hneed0] at hr
    rw [hrun, headerLoop_step 64 ws0 READ_HEADER hs0, headerStep_timeout ws0 READ_HEADER _ _ hr,
      h0]
    rfl
  · intro b c hread
    have hr : twTlsClient_Read ws0.connection ws0.bytesNeeded = (((1 : Nat) : Int), [b], c) := by
      rw [hconn0, hneed0]
      exact hread
    rw [hrun, headerLoop_step 64 ws0 READ_HEADER hs0,
      headerStep_short ws0 READ_HEADER 1 [b] _ c hr (by omega) rfl (by omega) (by omega) rfl, h0]
    rfl

/-- C31 (amended), at a session with frame size 16 that is polled with `bytesNeeded` 50
while the transport times out: the call returns in the reset state, the read used
up. -/
theorem overrun_guard_resets_then_reads_witness :
    twWs_Receive { connectedSession 16 [] [ReadEvent.upTo 0, ReadEvent.upTo 5] with
        read_state := READ_BINARY_FRAME, bytesNeeded := 50, frameBufferPtr := 3,
        headerPtr := 2 } =
      Outcome.ret TW_OK (connectedSession 16 [] [ReadEvent.upTo 5]) :=
  (overrun_guard_resets_then_reads
    { connectedSession 16 [] [ReadEvent.upTo 0, ReadEvent.upTo 5] with
      read_state := READ_BINARY_FRAME, bytesNeeded := 50, frameBufferPtr := 3, headerPtr := 2 }
    (by decide) (by decide)).2.1 (by decide)

set_option maxRecDepth 1000000 in
/-- C33 (the code at the failing input): a session made by `twWs_Create`, with a text
callback registered, calls `twWs_Connect`; the peer answers with status 101 and the
header `upgrade:none`, so `ws_on_headers_complete` sets `isConnected` to -1 and
`twWs_Connect` returns TW_ERROR_INITIALIZING_WEBSOCKET.  `twWs_IsConnected` is FALSE in
that state, yet `twWs_SendPong` and `twWs_SendPing` write their frames and return TW_OK,
and `twWs_Receive` reads the text frame "hi" from the transport, invokes the text
callback and returns TW_OK: the test `!ws->isConnected` lets -1 through. -/
theorem failed_state_not_refused :
    ∃ ws0 ws1 ws2 ws3 ws4,
      twWs_Create { connection := failedPeer } (some (bytes "h")) 443 (some (bytes "/r"))
        (some (bytes "k")) none 120 120 true = (TW_OK, some ws0) ∧
      twWs_Connect sampleEnv 3 { ws0 with on_ws_textMessage := true } 5000 =
        Outcome.ret TW_ERROR_INITIALIZING_WEBSOCKET ws1 ∧
      ws1.isConnected = -1 ∧ twWs_IsConnected ws1 = false ∧
      ws1.connection.inbound = [0x81, 2, 104, 105] ∧
      twWs_SendPong ws1 (some [120]) = (TW_OK, ws2) ∧
      ws2.connection.written = ws1.connection.written ++ [[0x8A, 0x81, 0, 0, 0, 0, 120]] ∧
      twWs_SendPing (bytes "12:00:00") ws1 none = (TW_OK, ws3) ∧
      ws3.connection.written =
        ws1.connection.written ++ [[0x89, 0x88, 0, 0, 0, 0] ++ bytes "12:00:00"] ∧
      twWs_Receive ws1 = Outcome.ret TW_OK ws4 ∧
      ws4.connection.inbound = [] ∧ ws4.calls = [Call.textMessage [104, 105] 2] :=
  ⟨_, _, _, _, _, rfl, rfl, rfl, rfl, rfl, rfl, rfl, rfl, rfl, rfl, rfl, rfl⟩

/-- C34: a session that has the `messageChunkSize` and `frameSize` that `twWs_Create` gave
it (so `messageChunkSize` is at most `frameSize`).  Every `twWs_SendMessage` call
returns, and either turns the call down with the session untouched, or makes one
call of `sendDataFrame`, for a final frame that is no continuation: a message longer
than `frameSize` is always turned down with nothing written, the write record
grows by at most the two writes of one frame, and when TW_OK comes back it has
grown by exactly one frame, header and payload. -/
theorem sendMessage_one_frame (env : CreateEnv) (host resource api_key gatewayName :
    Option (List Byte)) (port messageChunkSize frameSize : Nat) (entity : Bool)
    (code0 : twError) (ws0 ws : twWs)
    (hcreate : twWs_Create env host port resource api_key gatewayName messageChunkSize
      frameSize entity = (code0, some ws0))
    (hchunk : ws.messageChunkSize = ws0.messageChunkSize)
    (hsize : ws.frameSize = ws0.frameSize) :
    ws.messageChunkSize ≤ ws.frameSize ∧
    ∀ (buf : Option (List Byte)) (length : Nat) (isText : Bool),
      ((∃ code, code ≠ TW_OK ∧ twWs_SendMessage ws buf length isText = some (code, ws)) ∨
        (∃ b, buf = some b ∧ 1 ≤ length ∧ length ≤ ws.frameSize ∧
          twWs_SendMessage ws buf length isText =
            some (sendDataFrame ws (some b) length false true isText))) ∧
      (ws.frameSize < length →
        ∃ code, code ≠ TW_OK ∧ twWs_SendMessage ws buf length isText = some (code, ws)) ∧
      (∀ code ws1, twWs_SendMessage ws buf length isText = some (code, ws1) →
        OneFrameAtMost ws.connection.written ws1.connection.written
          (dataFrameHeader length false true isText) ((buf.getD []).take length) ∧
        (code = TW_OK →
          ws1.connection.written = ws.connection.written ++
            [dataFrameHeader length false true isText, (buf.getD []).take length] ∧
          ((buf.getD []).take length).length = length)) := by
  obtain ⟨_, h2, h3, h4, _⟩ := twWs_Create_session env host resource api_key gatewayName port
    messageChunkSize frameSize entity code0 ws0 hcreate
  have hfs : frameSize % 65536 < 65536 := Nat.mod_lt _ (by omega)
  have hinv : ws.messageChunkSize ≤ ws.frameSize := by omega
  refine ⟨hinv, ?_⟩
  intro buf length isText
  have hcases := sendMessage_cases ws buf length isText hinv
  refine ⟨hcases, ?_, ?_⟩
  · intro hlong
    rcases hcases with h | ⟨b, _, _, hle, _⟩
    · exact h
    · omega
  · intro code ws1 hres
    rcases hcases with ⟨c, _, h⟩ | ⟨b, hb, h1, hle, h⟩
    · rw [h] at hres
      cases hres
      exact ⟨⟨[], [], by simp, Or.inl rfl, Or.inl rfl⟩, fun hc => absurd hc (by assumption)⟩
    · rw [h] at hres
      have hmod : length % 65536 = length := Nat.mod_eq_of_lt (by omega)
      have hpair : sendDataFrame ws (some b) length false true isText = (code, ws1) := by
        injection hres
      have hw := sendDataFrame_written ws b length false true isText
      rw [hmod, hpair] at hw
      subst hb
      refine ⟨hw, ?_⟩
      intro hok
      have hs := sendDataFrame_sent ws b length false true isText (by rw [hpair]; exact hok)
      rw [hmod, hpair] at hs
      exact hs

/-- C34, at a session made by `twWs_Create` with chunk size 8 and frame size 16 and then
connected: the message "hello" goes out as the one frame 0x81 0x85 0 0 0 0 "hello", and
a message of 17 bytes is turned down. -/
theorem sendMessage_one_frame_witness :
    twWs_SendMessage ({ connectedSession 16 [] [] with messageChunkSize := 8 })
        (some (bytes "hello")) 5 true =
      some (TW_OK, { connectedSession 16 [] [] with
        messageChunkSize := 8,
        connection := { written := [[0x81, 0x85, 0, 0, 0, 0], bytes "hello"] } }) ∧
    ∃ code, code ≠ TW_OK ∧
      twWs_SendMessage ({ connectedSession 16 [] [] with messageChunkSize := 8 })
        (some (List.replicate 17 7)) 17 false =
        some (code, { connectedSession 16 [] [] with messageChunkSize := 8 }) :=
  have h := (sendMessage_one_frame {} (some (bytes "h")) (some (bytes "/r")) (some (bytes "k"))
    none 443 8 16 true TW_OK _ ({ connectedSession 16 [] [] with messageChunkSize := 8 })
    rfl rfl rfl).2
  ⟨by decide, (h (some (List.replicate 17 7)) 17 false).2.1 (by decide)⟩

end TwWebsocket
